import Mathlib

/-!
Terminal 3D prototype: scene object model and state synchronisation.

A shallow embedding of the four entity managers (`js/models/tanks.js`,
`pipes.js`, `valves.js`, `loadingAreas.js`), of the selection controller
(`js/utils/picker.js`) and of the colour mapper (`js/utils/colorMapping.js`).

Conventions of the embedding

* Every manager is a JavaScript module holding a private array of scene nodes
  (`_tankMeshes`, `_valveMeshes`, ...). The array is passed explicitly: an
  operation takes the registry and returns an `Outcome`, the registry after
  the call together with the exception the call threw, if any.
* JavaScript numbers that are only stored, copied and compared (levels,
  colour channels, sizes) are rationals. An angle is a rational multiple of
  pi: the code only copies the constants `Math.PI / 2`, `Math.PI / 4` and `0`.
* `undefined` is `none`.
* A string-keyed read `table[key]` of an object literal follows the prototype
  chain: see `lookupKey`.
* Calls into the rendering backend (mesh creation, `dispose`, `beginAnimation`)
  do not throw; what they leave on the nodes the managers read back is kept.
* A material is an object several meshes may hold. Each mesh carries the key
  of its material and a write to a material reaches every mesh of the node
  with that key: see `ColorMapper.setMaterial`.
* Meshes are compared by name and ancestry where JavaScript compares object
  identity.
* Two behaviours of the backend that the repository relies on are taken from
  its interface: `new BABYLON.Vector3(x, y, z)` takes a missing coordinate as
  0 (`PipesManager.toVector3`), and what `dispose()` does to a mesh that the
  picker still holds is a parameter (`ObjectPicker.DisposeBackend`).
* The geometry of the pipes (the test `dot > 0.95`, the placement of a
  segment) is computed in exact rational arithmetic on points with numeric
  coordinates. Square roots are avoided by comparing squares, and a rotation
  by an angle that is irrational in general is kept as the data it is computed
  from: see `PipesManager.nearlyCollinear` and `PipesManager.Orientation`.
-/

namespace Terminal

/-! ## JavaScript values shared by the managers -/

/-- What ends a call early: a `TypeError`, a `ReferenceError`, or the rejection of the
promise an `async` builder returns. -/
inductive JsError where
  | typeError (what : String)
  | referenceError (what : String)
  | rejected (reason : String)
deriving DecidableEq, Repr

/-- State after a call, and the exception that ended the call, if any. -/
structure Outcome (σ : Type) where
  state : σ
  thrown : Option JsError

/-- JavaScript `v || dflt` on an optional string: `undefined` and the empty string are falsy. -/
def jsOr (v : Option String) (dflt : String) : String :=
  match v with
  | none => dflt
  | some s => if s = "" then dflt else s

/-- Property names that every object literal inherits from `Object.prototype`. -/
def objectPrototypeKeys : List String :=
  ["constructor", "__defineGetter__", "__defineSetter__", "hasOwnProperty",
   "__lookupGetter__", "__lookupSetter__", "isPrototypeOf", "propertyIsEnumerable",
   "toString", "valueOf", "__proto__", "toLocaleString"]

/-- Result of reading `table[key]` on an object literal: an own entry, a member inherited
from `Object.prototype` (a truthy function or object that has none of the entry fields),
or `undefined`. -/
inductive Lookup (α : Type) where
  | own (v : α)
  | inherited
  | undefined
deriving DecidableEq, Repr

/-- Read `table[key]` where `table` is an object literal with the listed own entries. -/
def lookupKey {α : Type} (table : List (String × α)) (key : String) : Lookup α :=
  match table.lookup key with
  | some v => Lookup.own v
  | none => if key ∈ objectPrototypeKeys then Lookup.inherited else Lookup.undefined

/-- The method `Array.prototype.find` followed by an in-place mutation of the element found:
the first element satisfying `p` is replaced by its image, the rest is untouched. -/
def modifyFirst {α : Type} (p : α → Bool) (f : α → α) : List α → List α
  | [] => []
  | x :: xs => if p x then f x :: xs else x :: modifyFirst p f xs

/-- The method `String.prototype.includes`. -/
def includes (s pattern : String) : Bool := decide (pattern.data <:+: s.data)

/-- The class `BABYLON.Color3`. -/
structure Color3 where
  r : ℚ
  g : ℚ
  b : ℚ
deriving DecidableEq, Repr

/-- A position as found in a record: `{ x, y, z }`, each coordinate possibly missing. -/
structure Vec3 where
  x : Option ℚ
  y : Option ℚ
  z : Option ℚ
deriving DecidableEq, Repr

/-! ## TanksManager (`js/models/tanks.js`) -/

namespace TanksManager

/-- One entry of `_tankConfig.types`; a field the entry lacks is `none`. -/
structure TankTypeConfig where
  height : Option ℚ
  diameter : Option ℚ
  segments : Option ℕ
deriving DecidableEq, Repr

/-- The table `_tankConfig.types` (tanks.js:21-41). -/
def _tankConfig.types : List (String × TankTypeConfig) :=
  [("standard", ⟨some 8, some 5, some 24⟩),
   ("large", ⟨some 12, some 8, some 32⟩),
   ("small", ⟨some 5, some 3, some 20⟩),
   ("spherical", ⟨none, some 6, some 32⟩)]

/-- What `config.height`, `config.diameter` read on a member inherited from
`Object.prototype`: every field is `undefined`. -/
def inheritedConfig : TankTypeConfig := ⟨none, none, none⟩

/-- A tank record of the dataset (`EquipmentData.tanks`). -/
structure TankData where
  id : String
  type : Option String := none
  position : Option Vec3 := none
  product : Option String := none
  level : Option ℚ := none
  temperature : Option ℚ := none
  status : Option String := none
deriving DecidableEq, Repr

/-- A mesh below a tank node; `none` in a numeric field is `NaN`. `markedPickable` records
the assignment `isPickable = true` made by the builders. `materialKey` identifies the
material object assigned to the mesh (two meshes share one material exactly when their keys
are equal), `isPBR` tells whether it is a `PBRMaterial`, and `diffuseColor` is the colour of
that material as the builder set it (`albedoColor` for a `PBRMaterial`). -/
structure Mesh where
  name : String
  positionY : Option ℚ := some 0
  scalingY : ℚ := 1
  diffuseColor : Option Color3 := none
  alpha : ℚ := 1
  markedPickable : Bool := false
  materialKey : String := ""
  isPBR : Bool := false
deriving DecidableEq, Repr

/-- The object assigned to `tankMesh.metadata` (tanks.js:128-133). -/
structure TankMetadata where
  id : String
  type : String
  equipmentType : String
  data : TankData
deriving DecidableEq, Repr

/-- The `TransformNode` of one tank with the meshes `getChildMeshes()` returns.
`createTankFromData` always assigns `metadata`, and nothing clears it. -/
structure TankNode where
  name : String
  metadata : TankMetadata
  children : List Mesh
deriving DecidableEq, Repr

/-- Number of steps `Math.floor(stairHeight / 0.4)` of `_addTankStairs`. -/
def stepCount (height : ℚ) : ℕ := (Int.floor (height / (2 / 5))).toNat

/-- Child meshes of `_addTankStairs` (tanks.js:340-389). -/
def stairMeshes (id : String) (height : ℚ) : List Mesh :=
  [{ name := id ++ "_rail1", positionY := some (height / 2),
     materialKey := id ++ "_stairsMat", diffuseColor := some ⟨1 / 5, 1 / 5, 1 / 5⟩ },
   { name := id ++ "_rail2", positionY := some (height / 2),
     materialKey := id ++ "_stairsMat", diffuseColor := some ⟨1 / 5, 1 / 5, 1 / 5⟩ }] ++
  (List.range (stepCount height)).map fun i =>
    { name := id ++ "_step_" ++ toString i,
      positionY := some ((i + 1 / 2) * (height / stepCount height)),
      materialKey := id ++ "_stairsMat", diffuseColor := some ⟨1 / 5, 1 / 5, 1 / 5⟩ }

/-- Child meshes of `_addTankConnections` (tanks.js:397-425). -/
def connectionMeshes (id : String) : List Mesh :=
  [{ name := id ++ "_bottomConn", positionY := some (1 / 4),
     materialKey := id ++ "_connMat", diffuseColor := some ⟨2 / 5, 2 / 5, 2 / 5⟩ },
   { name := id ++ "_valve", positionY := some (1 / 4),
     materialKey := id ++ "_valveMat", diffuseColor := some ⟨7 / 10, 1 / 10, 1 / 10⟩ }]

/-- Child meshes built by `_createCylindricalTank` (tanks.js:174-251). A comparison
with a missing height (`undefined > 6`) is false. Body and roof share the one material
`_createPBRMaterial` returns (tanks.js:242-244). -/
def cylindricalMeshes (id : String) (config : TankTypeConfig) : List Mesh :=
  [{ name := id ++ "_body", positionY := config.height.map (· / 2), markedPickable := true,
     materialKey := id ++ "_material", isPBR := true,
     diffuseColor := some ⟨0, 47 / 100, 3 / 4⟩ },
   { name := id ++ "_roof",
     positionY := config.height.bind fun h => config.diameter.map fun d => h + d * (3 / 20) / 2,
     materialKey := id ++ "_material", isPBR := true,
     diffuseColor := some ⟨0, 47 / 100, 3 / 4⟩ }] ++
  (match config.height with
   | some h =>
     if h > 6 then
       [{ name := id ++ "_platform", positionY := some (h - 1 / 10),
          materialKey := id ++ "_platformMat", diffuseColor := some ⟨3 / 10, 3 / 10, 3 / 10⟩ }]
     else []
   | none => []) ++
  (match config.height with
   | some h => if h > 5 then stairMeshes id h else []
   | none => []) ++
  connectionMeshes id

/-- Child meshes built by `_createSphericalTank` (tanks.js:260-331). Every support gets a
material object of its own, all of them named alike; the key adds the loop index. -/
def sphericalMeshes (id : String) (config : TankTypeConfig) : List Mesh :=
  [{ name := id ++ "_body", positionY := config.diameter.map (· / 2), markedPickable := true,
     materialKey := id ++ "_material", isPBR := true,
     diffuseColor := some ⟨0, 47 / 100, 3 / 4⟩ }] ++
  ((List.range 4).map fun i =>
    { name := id ++ "_support_" ++ toString i,
      positionY := config.diameter.map fun d => d * (3 / 10) / 2,
      materialKey := id ++ "_supportMat/" ++ toString i,
      diffuseColor := some ⟨3 / 10, 3 / 10, 3 / 10⟩ }) ++
  [{ name := id ++ "_connection", positionY := config.diameter.map (· / 2),
     materialKey := id ++ "_connectionMat", diffuseColor := some ⟨2 / 5, 2 / 5, 2 / 5⟩ }]

/-- The function `createTankFromData` (tanks.js:97-137): the node it pushes on `_tankMeshes`.
A missing position is replaced by the origin, so the function never throws. -/
def createTankFromData (tankData : TankData) : TankNode :=
  let type := jsOr tankData.type "standard"
  let typeConfig : TankTypeConfig :=
    match lookupKey _tankConfig.types type with
    | Lookup.own c => c
    | Lookup.inherited => inheritedConfig
    | Lookup.undefined => ⟨some 8, some 5, some 24⟩
  { name := tankData.id
    metadata := { id := tankData.id, type := "tank", equipmentType := type, data := tankData }
    children :=
      if type = "spherical" then sphericalMeshes tankData.id typeConfig
      else cylindricalMeshes tankData.id typeConfig }

/-- The loop of `createTanks` (tanks.js:69-91) once `initialize` has run:
`EquipmentData.tanks.forEach(createTankFromData)`. `groupFound` tells whether
`SceneManager.getGroup` returned the tanks group; when it did not, `initialize` rejects
and no record is processed. -/
def createTanks (groupFound : Bool) (tanks : List TankNode) (records : List TankData) :
    Outcome (List TankNode) :=
  if groupFound then ⟨tanks ++ records.map createTankFromData, none⟩
  else ⟨tanks, some (JsError.rejected "Grupo de tanques não encontrado")⟩

/-- The level mesh created on first use (tanks.js:484-516). -/
def newLevelMesh (tankId : String) (tankType : String) (config : TankTypeConfig) : Mesh :=
  if tankType = "spherical" then
    { name := tankId ++ "_level", positionY := config.diameter.map (· / 2),
      diffuseColor := some ⟨7 / 10, 7 / 10, 1 / 10⟩, alpha := 4 / 5,
      materialKey := tankId ++ "_levelMat" }
  else
    { name := tankId ++ "_level", positionY := config.height.map (· / 2),
      diffuseColor := some ⟨7 / 10, 7 / 10, 1 / 10⟩, alpha := 4 / 5,
      materialKey := tankId ++ "_levelMat" }

/-- The expression `Math.max(0.01, Math.min(level, 1))` (tanks.js:521, 525). -/
def levelScale (level : ℚ) : ℚ := max (1 / 100) (min level 1)

/-- Lines 518-537 of `updateProductLevel`: rescale the level mesh named `levelName`
and store the level in the record. -/
def applyLevel (tankNode : TankNode) (levelName : String) (level : ℚ) : Outcome TankNode :=
  let isLevel : Mesh → Bool := fun m => m.name == levelName
  let store : TankNode → TankNode := fun n =>
    { n with metadata := { n.metadata with data := { n.metadata.data with level := some level } } }
  if tankNode.metadata.equipmentType = "spherical" then
    ⟨store { tankNode with
        children := modifyFirst isLevel (fun m => { m with scalingY := levelScale level })
          tankNode.children }, none⟩
  else
    let scaled : TankNode := { tankNode with
      children := modifyFirst isLevel (fun m => { m with scalingY := levelScale level })
        tankNode.children }
    match lookupKey _tankConfig.types (jsOr (some tankNode.metadata.equipmentType) "standard") with
    | Lookup.undefined => ⟨scaled, some (JsError.typeError "config is undefined")⟩
    | Lookup.inherited =>
      ⟨store { scaled with
          children := modifyFirst isLevel (fun m => { m with positionY := none }) scaled.children },
        none⟩
    | Lookup.own config =>
      ⟨store { scaled with
          children := modifyFirst isLevel
            (fun m => { m with
              positionY := config.height.map fun h => h * (49 / 50) * levelScale level / 2 })
            scaled.children },
        none⟩

/-- The body of `updateProductLevel` (tanks.js:471-537) on the node found. -/
def updateLevelNode (tankNode : TankNode) (tankId : String) (level : ℚ) : Outcome TankNode :=
  match tankNode.children.find? (fun m => m.name == tankId ++ "_level") with
  | some _ => applyLevel tankNode (tankId ++ "_level") level
  | none =>
    let tankType := jsOr (some tankNode.metadata.equipmentType) "standard"
    match lookupKey _tankConfig.types tankType with
    | Lookup.undefined => ⟨tankNode, some (JsError.typeError "config is undefined")⟩
    | Lookup.inherited =>
      applyLevel { tankNode with
        children := tankNode.children ++ [newLevelMesh tankId tankType inheritedConfig] }
        (tankId ++ "_level") level
    | Lookup.own config =>
      applyLevel { tankNode with
        children := tankNode.children ++ [newLevelMesh tankId tankType config] }
        (tankId ++ "_level") level

/-- The function `updateProductLevel(tankId, level)` (tanks.js:466-537). -/
def updateProductLevel (tanks : List TankNode) (tankId : String) (level : ℚ) :
    Outcome (List TankNode) :=
  match tanks.find? (fun t => t.name == tankId) with
  | none => ⟨tanks, none⟩
  | some tankNode =>
    let r := updateLevelNode tankNode tankId level
    ⟨modifyFirst (fun t => t.name == tankId) (fun _ => r.state) tanks, r.thrown⟩

/-- The function `getTankById` (tanks.js:622-624). -/
def getTankById (tanks : List TankNode) (id : String) : Option TankNode :=
  tanks.find? (fun t => t.name == id)

/-- Read back `metadata.data.level` of the tank registered under `id`. -/
def readLevel (tanks : List TankNode) (id : String) : Option ℚ :=
  (getTankById tanks id).bind fun t => t.metadata.data.level

/-- Level clamped to the documented range `[0, 1]`. -/
def clamp01 (level : ℚ) : ℚ := max 0 (min level 1)

end TanksManager

/-- Run `records.forEach(create)`: stop at the first record on which `create` throws. -/
def forEachCreate {σ α : Type} (create : σ → α → Outcome σ) : σ → List α → Outcome σ
  | s, [] => ⟨s, none⟩
  | s, r :: rs =>
    match (create s r).thrown with
    | none => forEachCreate create (create s r).state rs
    | some e => ⟨(create s r).state, some e⟩

/-! ## ValvesManager (`js/models/valves.js`) -/

namespace ValvesManager

/-- The `size` object of a valve type. -/
structure Size where
  width : ℚ
  height : ℚ
  depth : ℚ
deriving DecidableEq, Repr

/-- One entry of `_valveConfig.types`. -/
structure ValveTypeConfig where
  name : String
  size : Size
  color : Color3
deriving DecidableEq, Repr

/-- The table `_valveConfig.types` (valves.js:17-43). -/
def _valveConfig.types : List (String × ValveTypeConfig) :=
  [("gate", ⟨"Gaveta", ⟨3 / 5, 3 / 5, 2 / 5⟩, ⟨7 / 10, 1 / 10, 1 / 10⟩⟩),
   ("ball", ⟨"Esfera", ⟨1 / 2, 1 / 2, 1 / 2⟩, ⟨7 / 10, 1 / 10, 1 / 10⟩⟩),
   ("check", ⟨"Retenção", ⟨3 / 5, 1 / 2, 2 / 5⟩, ⟨7 / 10, 3 / 10, 1 / 10⟩⟩),
   ("butterfly", ⟨"Borboleta", ⟨2 / 5, 3 / 5, 3 / 10⟩, ⟨1 / 10, 3 / 10, 7 / 10⟩⟩),
   ("control", ⟨"Controle", ⟨7 / 10, 7 / 10, 1 / 2⟩, ⟨1 / 10, 7 / 10, 3 / 10⟩⟩)]

/-- One entry of `_valveConfig.states`; `wheelRotation` is in units of pi. -/
structure ValveStateConfig where
  name : String
  color : Color3
  wheelRotation : ℚ
deriving DecidableEq, Repr

/-- The table `_valveConfig.states` (valves.js:46-72). -/
def _valveConfig.states : List (String × ValveStateConfig) :=
  [("open", ⟨"Aberta", ⟨1 / 10, 7 / 10, 1 / 10⟩, 1 / 2⟩),
   ("closed", ⟨"Fechada", ⟨7 / 10, 1 / 10, 1 / 10⟩, 0⟩),
   ("partial", ⟨"Parcial", ⟨7 / 10, 7 / 10, 1 / 10⟩, 1 / 4⟩),
   ("maintenance", ⟨"Manutenção", ⟨3 / 10, 3 / 10, 7 / 10⟩, 0⟩),
   ("fault", ⟨"Falha", ⟨7 / 10, 3 / 10, 1 / 10⟩, 0⟩)]

/-- The five valve states of the data model. -/
def knownStates : List String := ["open", "closed", "partial", "maintenance", "fault"]

/-- What `stateConfig.color` reads on the result of a lookup that was truthy. -/
def configColor : Lookup ValveStateConfig → Option Color3
  | Lookup.own c => some c.color
  | _ => none

/-- What `stateConfig.wheelRotation` reads on the result of a lookup that was truthy. -/
def configRotation : Lookup ValveStateConfig → Option ℚ
  | Lookup.own c => some c.wheelRotation
  | _ => none

/-- A valve record of the dataset (`EquipmentData.valves`). -/
structure ValveData where
  id : String
  type : Option String := none
  state : Option String := none
  position : Option Vec3 := none
  rotation : Option Vec3 := none
  product : Option String := none
deriving DecidableEq, Repr

/-- The two colours of a `StandardMaterial` the manager writes. -/
structure Material where
  diffuseColor : Option Color3
  emissiveColor : Option Color3
deriving DecidableEq, Repr

/-- A `BABYLON.Animation` on a float property: its name, target property, frame rate
and key frames `(frame, value)`. -/
structure Animation where
  name : String
  property : String
  framePerSecond : ℕ
  keys : List (ℕ × Option ℚ)
deriving DecidableEq, Repr

/-- The wheel (or, for a control valve, the position indicator) of a valve.
Rotations are in units of pi. -/
structure Wheel where
  name : String
  positionX : ℚ := 0
  positionY : ℚ := 0
  rotationX : Option ℚ := some 0
  rotationZ : Option ℚ := some 0
  animations : List Animation := []
  animationStarted : Bool := false
deriving DecidableEq, Repr

/-- The state indicator sphere of a valve. -/
structure StateIndicator where
  name : String
  positionY : ℚ
  material : Material
deriving DecidableEq, Repr

/-- The object `metadata.components` (valves.js:175-179); `body` lists the pickable
meshes below the body node. -/
structure Components where
  body : List String
  wheel : Wheel
  stateIndicator : StateIndicator
deriving DecidableEq, Repr

/-- The object assigned to `valveNode.metadata` (valves.js:169-180). -/
structure ValveMetadata where
  id : String
  type : String
  valveType : String
  state : String
  data : ValveData
  components : Components
deriving DecidableEq, Repr

/-- The `TransformNode` of one valve. `createValveFromData` always assigns `metadata`
with its `components`, and nothing clears them. -/
structure ValveNode where
  name : String
  metadata : ValveMetadata
deriving DecidableEq, Repr

/-- Names of the meshes built by `_createValveBody` (valves.js:305-538). -/
def bodyMeshNames (id : String) (type : String) : List String :=
  if type = "ball" then [id ++ "_body", id ++ "_sphere"]
  else if type = "butterfly" then [id ++ "_body", id ++ "_disk"]
  else if type = "check" then [id ++ "_body", id ++ "_cap", id ++ "_arrow"]
  else if type = "control" then [id ++ "_body", id ++ "_actuator", id ++ "_positioner"]
  else [id ++ "_body", id ++ "_bonnet"]

/-- Name of the mesh `_createValveWheel` returns (valves.js:545-603). -/
def wheelName (id : String) (type : String) : String :=
  if type = "control" then id ++ "_indicator" else id ++ "_wheel"

/-- Whether the wheel of this valve type turns about Z (valves.js:153, 684, 710). -/
def turnsAboutZ (valveType : String) : Bool :=
  valveType == "ball" || valveType == "butterfly"

/-- The function `createValveFromData` (valves.js:115-186). It throws when the record has
no position (line 131) and when the type resolves to an inherited member, whose `size`
is `undefined` (line 318 and its siblings); the node is pushed on the list only at the end. -/
def createValveFromData (valves : List ValveNode) (valveData : ValveData) :
    Outcome (List ValveNode) :=
  let valveType := jsOr valveData.type "gate"
  let state := jsOr valveData.state "closed"
  let stateConfig : Lookup ValveStateConfig :=
    match lookupKey _valveConfig.states state with
    | Lookup.undefined => Lookup.own ⟨"Fechada", ⟨7 / 10, 1 / 10, 1 / 10⟩, 0⟩
    | found => found
  match valveData.position with
  | none => ⟨valves, some (JsError.typeError "valveData.position is undefined")⟩
  | some _ =>
    match lookupKey _valveConfig.types valveType with
    | Lookup.inherited => ⟨valves, some (JsError.typeError "config.size is undefined")⟩
    | looked =>
      let typeConfig : ValveTypeConfig :=
        match looked with
        | Lookup.own c => c
        | _ => ⟨"Gaveta", ⟨3 / 5, 3 / 5, 2 / 5⟩, ⟨7 / 10, 1 / 10, 1 / 10⟩⟩
      let wheel : Wheel :=
        if turnsAboutZ valveType then
          { name := wheelName valveData.id valveType, positionX := typeConfig.size.width,
            rotationZ := configRotation stateConfig }
        else
          { name := wheelName valveData.id valveType,
            positionY := typeConfig.size.height / 2 + 3 / 10,
            rotationX := configRotation stateConfig }
      let stateIndicator : StateIndicator :=
        { name := valveData.id ++ "_state_indicator"
          positionY := typeConfig.size.height / 2 + 1 / 10
          material := ⟨configColor stateConfig, configColor stateConfig⟩ }
      ⟨valves ++ [{ name := valveData.id
                    metadata :=
                      { id := valveData.id, type := "valve", valveType := valveType,
                        state := state, data := valveData,
                        components :=
                          { body := bodyMeshNames valveData.id valveType
                            wheel := wheel
                            stateIndicator := stateIndicator } } }], none⟩

/-- The loop of `createValves` (valves.js:91-109) once `initialize` has run:
`EquipmentData.valves.forEach(createValveFromData)` inside `try`; an exception ends the
loop and the promise is rejected with it. `groupFound` tells whether
`SceneManager.getGroup` returned the valves group; when it did not, `initialize`
rejects and no record is processed. -/
def createValves (groupFound : Bool) (valves : List ValveNode) (records : List ValveData) :
    Outcome (List ValveNode) :=
  if groupFound then forEachCreate createValveFromData valves records
  else ⟨valves, some (JsError.rejected "Grupo de válvulas não encontrado")⟩

/-- The function `addValve` (valves.js:729-731). -/
def addValve (valves : List ValveNode) (valveData : ValveData) : Outcome (List ValveNode) :=
  createValveFromData valves valveData

/-- Lines 663-721 of `changeValveState`, on the node found. With `animate` the wheel is
not turned: an animation towards the target angle is attached and started; its first
key reads `wheel['x']` or `wheel['z']`, which a mesh does not have. -/
def changeStateNode (valveNode : ValveNode) (valveId newState : String) (animate : Bool) :
    ValveNode :=
  match lookupKey _valveConfig.states newState with
  | Lookup.undefined => valveNode
  | stateConfig =>
    let metadata := valveNode.metadata
    let wheel := metadata.components.wheel
    let stateIndicator : StateIndicator :=
      { metadata.components.stateIndicator with
        material := ⟨configColor stateConfig, configColor stateConfig⟩ }
    let wheel' : Wheel :=
      if animate then
        { wheel with
          animations :=
            [{ name := valveId ++ "_wheel_rotation"
               property := if turnsAboutZ metadata.valveType then "rotation.z" else "rotation.x"
               framePerSecond := 30
               keys := [(0, none), (30, configRotation stateConfig)] }]
          animationStarted := true }
      else if turnsAboutZ metadata.valveType then
        { wheel with rotationZ := configRotation stateConfig }
      else
        { wheel with rotationX := configRotation stateConfig }
    { valveNode with
      metadata :=
        { metadata with
          state := newState
          data := { metadata.data with state := some newState }
          components := { metadata.components with wheel := wheel', stateIndicator := stateIndicator } } }

/-- The function `changeValveState(valveId, newState, animate = true)` (valves.js:658-722).
No statement on its path throws. -/
def changeValveState (valves : List ValveNode) (valveId newState : String)
    (animate : Bool := true) : Outcome (List ValveNode) :=
  match valves.find? (fun v => v.name == valveId) with
  | none => ⟨valves, none⟩
  | some _ =>
    ⟨modifyFirst (fun v => v.name == valveId)
      (fun v => changeStateNode v valveId newState animate) valves, none⟩

/-- The function `removeValve` (valves.js:737-753) on the registry: `findIndex` and
`splice(index, 1)`. The `dispose()` calls do not touch the registry; what they do to the
meshes the picker holds is in `World.removeValve`. -/
def removeValve (valves : List ValveNode) (valveId : String) : List ValveNode :=
  valves.eraseP (fun v => v.name == valveId)

/-- The function `getValveById` (valves.js:768-770). -/
def getValveById (valves : List ValveNode) (id : String) : Option ValveNode :=
  valves.find? (fun v => v.name == id)

/-- The rotation of the wheel about the axis this valve type turns on. -/
def wheelAngle (v : ValveNode) : Option ℚ :=
  if turnsAboutZ v.metadata.valveType then v.metadata.components.wheel.rotationZ
  else v.metadata.components.wheel.rotationX

/-- The target of the animation attached to the wheel: the value of its last key. -/
def wheelTarget (v : ValveNode) : Option (Option ℚ) :=
  (v.metadata.components.wheel.animations.head?).bind fun a => (a.keys.getLast?).map Prod.snd

end ValvesManager

/-! ## LoadingAreasManager (`js/models/loadingAreas.js`) -/

namespace LoadingAreasManager

/-- The `size` object of a loading-area type. -/
structure Size where
  width : ℚ
  height : ℚ
  depth : ℚ
deriving DecidableEq, Repr

/-- One entry of `_loadingAreaConfig.types`. -/
structure AreaTypeConfig where
  name : String
  color : Color3
  size : Size
deriving DecidableEq, Repr

/-- The table `_loadingAreaConfig.types` (loadingAreas.js:17-38). -/
def _loadingAreaConfig.types : List (String × AreaTypeConfig) :=
  [("truckBay", ⟨"Baia de Caminhões", ⟨7 / 10, 1 / 2, 1 / 5⟩, ⟨5, 1 / 5, 12⟩⟩),
   ("railLoading", ⟨"Carregamento Ferroviário", ⟨1 / 2, 1 / 2, 3 / 5⟩, ⟨3, 1 / 5, 15⟩⟩),
   ("marinePier", ⟨"Píer Marítimo", ⟨3 / 10, 1 / 2, 7 / 10⟩, ⟨8, 1 / 2, 20⟩⟩),
   ("bargeDock", ⟨"Doca de Barcaças", ⟨2 / 5, 3 / 5, 7 / 10⟩, ⟨6, 3 / 10, 15⟩⟩)]

/-- One entry of `_loadingAreaConfig.states`. -/
structure AreaStateConfig where
  name : String
  color : Color3
deriving DecidableEq, Repr

/-- The table `_loadingAreaConfig.states` (loadingAreas.js:41-58). -/
def _loadingAreaConfig.states : List (String × AreaStateConfig) :=
  [("available", ⟨"Disponível", ⟨1 / 10, 7 / 10, 1 / 10⟩⟩),
   ("loading", ⟨"Em Carregamento", ⟨7 / 10, 7 / 10, 1 / 10⟩⟩),
   ("maintenance", ⟨"Em Manutenção", ⟨3 / 10, 3 / 10, 7 / 10⟩⟩),
   ("unavailable", ⟨"Indisponível", ⟨7 / 10, 1 / 10, 1 / 10⟩⟩)]

/-- What `stateConfig.color` reads on the result of a lookup that was truthy. -/
def configColor : Lookup AreaStateConfig → Option Color3
  | Lookup.own c => some c.color
  | _ => none

/-- A loading-area record of the dataset (`EquipmentData.loadingAreas`). -/
structure AreaData where
  id : String
  type : Option String := none
  state : Option String := none
  position : Option Vec3 := none
  rotation : Option Vec3 := none
  loadingArms : Option ℕ := none
  product : Option String := none
deriving DecidableEq, Repr

/-- A mesh of the indicator post with the colours of its material. -/
structure IndicatorMesh where
  name : String
  diffuseColor : Option Color3
  emissiveColor : Option Color3
deriving DecidableEq, Repr

/-- The `PointLight` of the indicator; `blinking` tells whether the intensity
animation is running. -/
structure PointLight where
  name : String
  diffuse : Option Color3
  specular : Option Color3
  blinking : Bool
deriving DecidableEq, Repr

/-- The node `_createStateIndicator` returns (loadingAreas.js:699-768): the meshes
`getChildMeshes()` lists, post first, and the point light. -/
structure StateIndicator where
  meshes : List IndicatorMesh
  pointLight : PointLight
deriving DecidableEq, Repr

/-- A mesh of a loading arm with the names of the animations attached to it. -/
structure ArmMesh where
  name : String
  animations : List String := []
  animationRunning : Bool := false
deriving DecidableEq, Repr

/-- The object `metadata.components` (loadingAreas.js:172-177). -/
structure Components where
  platform : String
  specificElements : String
  stateIndicator : StateIndicator
  loadingArms : List ArmMesh
deriving DecidableEq, Repr

/-- The object assigned to `areaNode.metadata` (loadingAreas.js:166-178). -/
structure AreaMetadata where
  id : String
  type : String
  areaType : String
  state : String
  data : AreaData
  components : Components
deriving DecidableEq, Repr

/-- The `TransformNode` of one loading area. `createLoadingAreaFromData` always assigns
`metadata` with its `components`, and nothing clears them. -/
structure AreaNode where
  name : String
  metadata : AreaMetadata
deriving DecidableEq, Repr

/-- The states in which the indicator light blinks (loadingAreas.js:747, 919). -/
def blinks (state : String) : Bool :=
  state == "loading" || state == "maintenance" || state == "fault"

/-- The meshes `_createLoadingArms` builds for `count` arms (loadingAreas.js:777-877). -/
def armMeshes (id : String) (count : ℕ) : List ArmMesh :=
  (List.range count).flatMap fun i =>
    [{ name := id ++ "_arm_" ++ toString i ++ "_vertical" },
     { name := id ++ "_arm_" ++ toString i ++ "_horizontal" },
     { name := id ++ "_arm_" ++ toString i ++ "_joint" },
     { name := id ++ "_arm_" ++ toString i ++ "_hose" },
     { name := id ++ "_arm_" ++ toString i ++ "_nozzle" }]

/-- The expression `areaData.loadingArms || 1`. -/
def armCount (n : Option ℕ) : ℕ :=
  match n with
  | none => 1
  | some 0 => 1
  | some k => k

/-- The function `createLoadingAreaFromData` (loadingAreas.js:101-184). It throws when the
record has no position (line 117) and when the type resolves to an inherited member,
whose `size` is `undefined` (line 275). -/
def createLoadingAreaFromData (areas : List AreaNode) (areaData : AreaData) :
    Outcome (List AreaNode) :=
  let areaType := jsOr areaData.type "truckBay"
  let state := jsOr areaData.state "available"
  let stateConfig : Lookup AreaStateConfig :=
    match lookupKey _loadingAreaConfig.states state with
    | Lookup.undefined => Lookup.own ⟨"Disponível", ⟨1 / 10, 7 / 10, 1 / 10⟩⟩
    | found => found
  match areaData.position with
  | none => ⟨areas, some (JsError.typeError "areaData.position is undefined")⟩
  | some _ =>
    match lookupKey _loadingAreaConfig.types areaType with
    | Lookup.inherited => ⟨areas, some (JsError.typeError "config.size is undefined")⟩
    | _ =>
      let stateIndicator : StateIndicator :=
        { meshes :=
            [{ name := areaData.id ++ "_indicator_post"
               diffuseColor := some ⟨3 / 10, 3 / 10, 3 / 10⟩, emissiveColor := some ⟨0, 0, 0⟩ },
             { name := areaData.id ++ "_indicator_light"
               diffuseColor := configColor stateConfig
               emissiveColor := configColor stateConfig }]
          pointLight :=
            { name := areaData.id ++ "_pointLight"
              diffuse := configColor stateConfig
              specular := configColor stateConfig
              blinking := blinks state } }
      ⟨areas ++ [{ name := areaData.id
                   metadata :=
                     { id := areaData.id, type := "loadingArea", areaType := areaType,
                       state := state, data := areaData,
                       components :=
                         { platform := areaData.id ++ "_platform"
                           specificElements := areaData.id ++ "_elements"
                           stateIndicator := stateIndicator
                           loadingArms := armMeshes areaData.id (armCount areaData.loadingArms) } } }],
        none⟩

/-- The loop of `createLoadingAreas` (loadingAreas.js:77-95), as `ValvesManager.createValves`. -/
def createLoadingAreas (groupFound : Bool) (areas : List AreaNode) (records : List AreaData) :
    Outcome (List AreaNode) :=
  if groupFound then forEachCreate createLoadingAreaFromData areas records
  else ⟨areas, some (JsError.rejected "Grupo de áreas de carregamento não encontrado")⟩

/-- The function `addLoadingArea` (loadingAreas.js:1021-1023). -/
def addLoadingArea (areas : List AreaNode) (areaData : AreaData) : Outcome (List AreaNode) :=
  createLoadingAreaFromData areas areaData

/-- The call `stateIndicator.getChildrenWithName(name)[0]` (loadingAreas.js:904) goes to
the rendering backend, which is not part of the repository: either the node has no such
method, or the method returns the point light that `_createStateIndicator` parented under
that name, or it returns nothing. -/
inductive ChildrenWithName where
  | methodMissing
  | found
  | notFound
deriving DecidableEq, Repr

/-- Lines 889-945 of `changeAreaState`, on the node found. The point light is looked up at
line 904, before anything is written: without the method the call ends there with a
`TypeError` and the node is as it was. Otherwise the light is recoloured (lines 906-909);
with a point light in hand, line 916 then reads the identifier `scene`, which is bound
neither in `changeAreaState` nor in the module (the builders declare it locally), so the
call ends there with a `ReferenceError` and lines 918-945 are not reached. -/
def changeStateNode (areaNode : AreaNode) (newState : String) (backend : ChildrenWithName) :
    Outcome AreaNode :=
  match lookupKey _loadingAreaConfig.states newState with
  | Lookup.undefined => ⟨areaNode, none⟩
  | stateConfig =>
    let metadata := areaNode.metadata
    let indicator := metadata.components.stateIndicator
    let recoloured : StateIndicator :=
      { indicator with
        meshes := modifyFirst (fun m => includes m.name "indicator_light")
          (fun m => { m with diffuseColor := configColor stateConfig
                             emissiveColor := configColor stateConfig })
          indicator.meshes }
    let withIndicator : StateIndicator → AreaNode := fun i =>
      { areaNode with
        metadata := { metadata with
          components := { metadata.components with stateIndicator := i } } }
    match backend with
    | ChildrenWithName.methodMissing =>
      ⟨areaNode, some (JsError.typeError "stateIndicator.getChildrenWithName is not a function")⟩
    | ChildrenWithName.found =>
      ⟨withIndicator
          { recoloured with
            pointLight := { recoloured.pointLight with diffuse := configColor stateConfig
                                                       specular := configColor stateConfig } },
        some (JsError.referenceError "scene is not defined")⟩
    | ChildrenWithName.notFound =>
      ⟨{ areaNode with
          metadata :=
            { metadata with
              state := newState
              data := { metadata.data with state := some newState }
              components := { metadata.components with stateIndicator := recoloured } } },
        none⟩

/-- The function `changeAreaState(areaId, newState)` (loadingAreas.js:884-946). -/
def changeAreaState (areas : List AreaNode) (areaId newState : String)
    (backend : ChildrenWithName) : Outcome (List AreaNode) :=
  match areas.find? (fun a => a.name == areaId) with
  | none => ⟨areas, none⟩
  | some areaNode =>
    let r := changeStateNode areaNode newState backend
    ⟨modifyFirst (fun a => a.name == areaId) (fun _ => r.state) areas, r.thrown⟩

/-- The loop `hoses.forEach((hose, index) => ...)` of `simulateLoading` over the meshes whose
name includes `_hose` (loadingAreas.js:967-994); `index` counts the hoses met so far. -/
def startHoses (areaId : String) : ℕ → List ArmMesh → List ArmMesh
  | _, [] => []
  | index, m :: ms =>
    if includes m.name "_hose" then
      { m with animations := [areaId ++ "_hose_" ++ toString index ++ "_anim"]
               animationRunning := true } :: startHoses areaId (index + 1) ms
    else m :: startHoses areaId index ms

/-- The loop `hoses.forEach(hose => scene.stopAnimation(hose))` (loadingAreas.js:1002-1007). -/
def stopHoses (arms : List ArmMesh) : List ArmMesh :=
  arms.map fun m => if includes m.name "_hose" then { m with animationRunning := false } else m

/-- The function `simulateLoading(areaId, active)` (loadingAreas.js:953-1014). -/
def simulateLoading (areas : List AreaNode) (areaId : String) (active : Bool)
    (backend : ChildrenWithName) : Outcome (List AreaNode) :=
  match areas.find? (fun a => a.name == areaId) with
  | none => ⟨areas, none⟩
  | some areaNode =>
    let withArms : List ArmMesh → List AreaNode := fun arms =>
      modifyFirst (fun a => a.name == areaId)
        (fun a => { a with
          metadata := { a.metadata with
            components := { a.metadata.components with loadingArms := arms } } })
        areas
    if active then
      let started := withArms (startHoses areaId 0 areaNode.metadata.components.loadingArms)
      if areaNode.metadata.state = "available" then changeAreaState started areaId "loading" backend
      else ⟨started, none⟩
    else
      let stopped := withArms (stopHoses areaNode.metadata.components.loadingArms)
      if areaNode.metadata.state = "loading" then changeAreaState stopped areaId "available" backend
      else ⟨stopped, none⟩

/-- The function `removeLoadingArea` (loadingAreas.js:1029-1045) on the registry: `findIndex`
and `splice(index, 1)`. The `dispose()` calls do not touch the registry; what they do to the
meshes the picker holds is in `World.removeLoadingArea`. -/
def removeLoadingArea (areas : List AreaNode) (areaId : String) : List AreaNode :=
  areas.eraseP (fun a => a.name == areaId)

/-- The function `getLoadingAreaById` (loadingAreas.js:1060-1062). -/
def getLoadingAreaById (areas : List AreaNode) (id : String) : Option AreaNode :=
  areas.find? (fun a => a.name == id)

/-- The state of the area registered under `id`, as `metadata.state` reads it. -/
def stateOf (areas : List AreaNode) (id : String) : Option String :=
  (getLoadingAreaById areas id).map fun a => a.metadata.state

end LoadingAreasManager

/-! ## PipesManager (`js/models/pipes.js`) -/

namespace PipesManager

/-- A pipe record of the dataset (`EquipmentData.pipes`). -/
structure PipeData where
  id : String
  points : Option (List Vec3) := none
  size : Option String := none
  materialType : Option String := none
  product : Option String := none
deriving DecidableEq, Repr

/-- A node parented under a pipe: a segment cylinder, a connector sphere, or the empty
`TransformNode` that stands for an omitted connector (`isMesh = false`). -/
structure PipeChild where
  name : String
  isMesh : Bool
  markedPickable : Bool := false
deriving DecidableEq, Repr

/-- The object assigned to `pipeNode.metadata` (pipes.js:147-153). -/
structure PipeMetadata where
  id : String
  type : String
  size : String
  materialType : String
  pipeData : PipeData
deriving DecidableEq, Repr

/-- The `TransformNode` of one pipe with its children in creation order. -/
structure PipeNode where
  name : String
  metadata : PipeMetadata
  children : List PipeChild
deriving DecidableEq, Repr

/-- The conversion `new BABYLON.Vector3(p.x, p.y, p.z)` of a point of a record
(pipes.js:111-113). The constructor of the backend declares `x = 0, y = 0, z = 0`, so a
coordinate the record lacks is 0. -/
def toVector3 (p : Vec3) : ℚ × ℚ × ℚ := (p.x.getD 0, p.y.getD 0, p.z.getD 0)

/-- The method `Vector3.subtract`: `a.subtract(b)` is `a - b`. -/
def subtract (a b : ℚ × ℚ × ℚ) : ℚ × ℚ × ℚ := (a.1 - b.1, a.2.1 - b.2.1, a.2.2 - b.2.2)

/-- Dot product. -/
def dot (a b : ℚ × ℚ × ℚ) : ℚ := a.1 * b.1 + a.2.1 * b.2.1 + a.2.2 * b.2.2

/-- The test `dot > 0.95` of `_createPipeConnection` (pipes.js:331-340) on the normalised
directions `center.subtract(prev)` and `next.subtract(center)` of the converted points, in
exact arithmetic: the cosine exceeds 19/20 when the dot product of the raw directions is
positive and its square exceeds (19/20)^2 times the squared lengths. A zero direction
normalises to zero, the dot product is then 0 and the test fails. -/
def nearlyCollinear (center prev next : Vec3) : Bool :=
  let a := subtract (toVector3 center) (toVector3 prev)
  let b := subtract (toVector3 next) (toVector3 center)
  decide (0 < dot a b ∧ (19 / 20) ^ 2 * (dot a a * dot b b) < dot a b ^ 2)

/-- The loop of `createPipeFromData` (pipes.js:116-144): segment `i` between consecutive
points, followed, except after the last segment, by connection `i` at their joint. -/
def pipeChildren (id : String) : ℕ → List Vec3 → List PipeChild
  | _, [] => []
  | _, [_] => []
  | i, [_, _] => [{ name := id ++ "_segment_" ++ toString i, isMesh := true, markedPickable := true }]
  | i, p0 :: p1 :: p2 :: rest =>
    { name := id ++ "_segment_" ++ toString i, isMesh := true, markedPickable := true } ::
    { name := id ++ "_connection_" ++ toString i, isMesh := !nearlyCollinear p1 p0 p2 } ::
    pipeChildren id (i + 1) (p1 :: p2 :: rest)

/-- The function `createPipeFromData` (pipes.js:91-157): a record without at least two
points is skipped with a warning. -/
def createPipeFromData (pipes : List PipeNode) (pipeData : PipeData) : List PipeNode :=
  match pipeData.points with
  | none => pipes
  | some points =>
    if points.length < 2 then pipes
    else
      pipes ++ [{ name := pipeData.id
                  metadata :=
                    { id := pipeData.id, type := "pipe", size := jsOr pipeData.size "medium",
                      materialType := jsOr pipeData.materialType "standard", pipeData := pipeData }
                  children := pipeChildren pipeData.id 0 points }]

/-- The loop of `createPipes` (pipes.js:67-85) once `initialize` has run:
`EquipmentData.pipes.forEach(createPipeFromData)`. `groupFound` tells whether
`SceneManager.getGroup` returned the pipes group; when it did not, `initialize` rejects
and no record is processed. -/
def createPipes (groupFound : Bool) (pipes : List PipeNode) (records : List PipeData) :
    Outcome (List PipeNode) :=
  if groupFound then ⟨records.foldl createPipeFromData pipes, none⟩
  else ⟨pipes, some (JsError.rejected "Grupo de tubulações não encontrado")⟩

/-- The function `addPipe` (pipes.js:637-639). -/
def addPipe (pipes : List PipeNode) (pipeData : PipeData) : List PipeNode :=
  createPipeFromData pipes pipeData

/-- The function `removePipe` (pipes.js:645-661) on the registry: `findIndex` and
`splice(index, 1)`. The `dispose()` calls do not touch the registry; what they do to the
meshes the picker holds is in `World.removePipe`. -/
def removePipe (pipes : List PipeNode) (pipeId : String) : List PipeNode :=
  pipes.eraseP (fun n => n.name == pipeId)

/-- The function `getPipeById` (pipes.js:676-678). -/
def getPipeById (pipes : List PipeNode) (id : String) : Option PipeNode :=
  pipes.find? (fun n => n.name == id)

/-- Whether a record is structurally valid for the factory: it has at least two points. -/
def hasTwoPoints (r : PipeData) : Bool :=
  match r.points with
  | none => false
  | some points => decide (2 ≤ points.length)

end PipesManager

/-! ## ObjectPicker (`js/utils/picker.js`) -/

namespace ObjectPicker

/-- What the picker reads of a node's `metadata`: its `type` and `id`. -/
structure Tag where
  type : String
  id : String
deriving DecidableEq, Repr

/-- A scene node as the picker sees it: its name and its metadata, if it has any. -/
structure SceneObject where
  name : String
  metadata : Option Tag := none
deriving DecidableEq, Repr

/-- A mesh handle: the mesh and its finite chain of ancestors, parent first. -/
structure MeshHandle where
  self : SceneObject
  ancestors : List SceneObject
deriving DecidableEq, Repr

/-- The events the picker dispatches on `document`. -/
inductive PickerEvent where
  | objectSelected (object : SceneObject) (mesh : MeshHandle)
  | objectDeselected
deriving DecidableEq, Repr

/-- The module variables of `ObjectPicker` that selection touches, the meshes held by
`_highlightLayer`, the meshes whose `renderOutline` is set, the events dispatched so far
(latest last) and `Terminal3D.selectedObjectId`. The status-bar text is not modelled. -/
structure PickerState where
  _selectedObject : Option MeshHandle := none
  _hoveredObject : Option MeshHandle := none
  highlighted : List MeshHandle := []
  outlined : List MeshHandle := []
  events : List PickerEvent := []
  selectedObjectId : Option String := none
  _enabled : Bool := true
deriving DecidableEq, Repr

/-- The loop `while (obj && !obj.metadata) { if (obj.parent) obj = obj.parent; else break; }`
(picker.js:245-251, 564-570). -/
def walkUp : SceneObject → List SceneObject → SceneObject
  | obj, [] => obj
  | obj, parent :: rest => if obj.metadata.isSome then obj else walkUp parent rest

/-- The node the ownership walk ends on, starting from a mesh. -/
def objectWithMetadata (mesh : MeshHandle) : SceneObject :=
  walkUp mesh.self mesh.ancestors

/-- The function `clearSelection` (picker.js:425-447). -/
def clearSelection (s : PickerState) : PickerState :=
  match s._selectedObject with
  | none => s
  | some mesh =>
    { s with
      highlighted := s.highlighted.filter (· ≠ mesh)
      outlined := s.outlined.filter (· ≠ mesh)
      _selectedObject := none
      selectedObjectId := none
      events := s.events ++ [PickerEvent.objectDeselected] }

/-- The function `_processSelection(mesh)` (picker.js:225-277). -/
def _processSelection (s : PickerState) (mesh : MeshHandle) : PickerState :=
  if s._selectedObject = some mesh then s
  else
    let cleared := clearSelection s
    let owner := objectWithMetadata mesh
    { cleared with
      _selectedObject := some mesh
      highlighted := if mesh ∈ cleared.highlighted then cleared.highlighted
                     else cleared.highlighted ++ [mesh]
      outlined := if mesh ∈ cleared.outlined then cleared.outlined else cleared.outlined ++ [mesh]
      events := cleared.events ++ [PickerEvent.objectSelected owner mesh]
      selectedObjectId :=
        match owner.metadata with
        | some tag => some tag.id
        | none => some mesh.self.name }

/-- The function `_handlePointerDown` (picker.js:110-133): `button` is
`pointerInfo.event.button` and `pick` the mesh `_scene.pick` hit, if any. -/
def _handlePointerDown (s : PickerState) (button : ℤ) (pick : Option MeshHandle) :
    PickerState :=
  if button ≠ 0 then s
  else
    match pick with
    | some mesh => _processSelection s mesh
    | none => clearSelection s

/-- The observer for `POINTERDOWN` registered by `_setupEventObservers`
(picker.js:74-81): nothing happens while the picker is disabled. -/
def onPointerDown (s : PickerState) (button : ℤ) (pick : Option MeshHandle) : PickerState :=
  if s._enabled then _handlePointerDown s button pick else s

/-- The `keydown` listener registered on `window` by `_setupEventObservers`
(picker.js:99-103): it does not look at `_enabled`. -/
def onKeyDown (s : PickerState) (key : String) : PickerState :=
  if key = "Escape" then clearSelection s else s

/-- The function `getSelectedObject` (picker.js:551-553). -/
def getSelectedObject (s : PickerState) : Option MeshHandle := s._selectedObject

/-- What `dispose()` of the rendering backend does to a mesh the picker still holds. The
backend is not part of the repository, so both effects are parameters: whether the highlight
layer drops a disposed mesh, and whether a disposed mesh loses its parent. -/
structure DisposeBackend where
  dropsFromHighlightLayer : Bool
  clearsParent : Bool
deriving DecidableEq, Repr

/-- Whether a mesh is among `node.getChildMeshes()` of the entity node of this kind and id:
the node is one of its ancestors. -/
def disposedWith (kind id : String) (mesh : MeshHandle) : Bool :=
  mesh.ancestors.any fun o => o.name == id && o.metadata == some ⟨kind, id⟩

/-- A mesh handle after the entity node of this kind and id was disposed with its meshes. -/
def detach (b : DisposeBackend) (kind id : String) (mesh : MeshHandle) : MeshHandle :=
  if b.clearsParent && disposedWith kind id mesh then { mesh with ancestors := [] } else mesh

/-- The picker after `node.getChildMeshes().forEach(mesh => mesh.dispose()); node.dispose()`
(valves.js:744-749, pipes.js:652-657, loadingAreas.js:1036-1041) on the entity node of this
kind and id. No remove function names `ObjectPicker` or `Terminal3D`, and the picker
registers no observer on a mesh: its variables keep their references, `renderOutline` stays
set on the mesh object, no event is dispatched. What the backend does shows on the objects
referred to (their parent) and in the highlight layer. -/
def disposeEntity (b : DisposeBackend) (kind id : String) (s : PickerState) : PickerState :=
  { s with
    _selectedObject := s._selectedObject.map (detach b kind id)
    _hoveredObject := s._hoveredObject.map (detach b kind id)
    highlighted :=
      (if b.dropsFromHighlightLayer then s.highlighted.filter fun m => !disposedWith kind id m
       else s.highlighted).map (detach b kind id)
    outlined := s.outlined.map (detach b kind id) }

end ObjectPicker

/-! ## The application state: the four registries and the picker -/

/-- The module states of the four managers and of the picker. -/
structure World where
  tanks : List TanksManager.TankNode := []
  pipes : List PipesManager.PipeNode := []
  valves : List ValvesManager.ValveNode := []
  areas : List LoadingAreasManager.AreaNode := []
  picker : ObjectPicker.PickerState := {}

/-- A build or add operation of one of the managers. A batch carries the flag telling
whether the layer group of its kind was found. -/
inductive BuildOp where
  | createTankFromData (r : TanksManager.TankData)
  | addPipe (r : PipesManager.PipeData)
  | addValve (r : ValvesManager.ValveData)
  | addLoadingArea (r : LoadingAreasManager.AreaData)
  | createTanks (groupFound : Bool) (rs : List TanksManager.TankData)
  | createPipes (groupFound : Bool) (rs : List PipesManager.PipeData)
  | createValves (groupFound : Bool) (rs : List ValvesManager.ValveData)
  | createLoadingAreas (groupFound : Bool) (rs : List LoadingAreasManager.AreaData)

/-- The ids of the records an operation is given. -/
def BuildOp.ids : BuildOp → List String
  | BuildOp.createTankFromData r => [r.id]
  | BuildOp.addPipe r => [r.id]
  | BuildOp.addValve r => [r.id]
  | BuildOp.addLoadingArea r => [r.id]
  | BuildOp.createTanks _ rs => rs.map (·.id)
  | BuildOp.createPipes _ rs => rs.map (·.id)
  | BuildOp.createValves _ rs => rs.map (·.id)
  | BuildOp.createLoadingAreas _ rs => rs.map (·.id)

/-- Run one build operation; what an operation had registered before it threw stays. -/
def World.build (w : World) : BuildOp → World
  | BuildOp.createTankFromData r => { w with tanks := w.tanks ++ [TanksManager.createTankFromData r] }
  | BuildOp.addPipe r => { w with pipes := PipesManager.addPipe w.pipes r }
  | BuildOp.addValve r => { w with valves := (ValvesManager.addValve w.valves r).state }
  | BuildOp.addLoadingArea r =>
    { w with areas := (LoadingAreasManager.addLoadingArea w.areas r).state }
  | BuildOp.createTanks g rs => { w with tanks := (TanksManager.createTanks g w.tanks rs).state }
  | BuildOp.createPipes g rs => { w with pipes := (PipesManager.createPipes g w.pipes rs).state }
  | BuildOp.createValves g rs =>
    { w with valves := (ValvesManager.createValves g w.valves rs).state }
  | BuildOp.createLoadingAreas g rs =>
    { w with areas := (LoadingAreasManager.createLoadingAreas g w.areas rs).state }

/-- Run a sequence of build operations. -/
def World.buildAll (w : World) (ops : List BuildOp) : World := ops.foldl World.build w

/-- The ids under which entities are registered, over the four registries. -/
def World.registeredIds (w : World) : List String :=
  w.tanks.map (·.name) ++ w.pipes.map (·.name) ++ w.valves.map (·.name) ++ w.areas.map (·.name)

/-- The call `ValvesManager.removeValve(id)` (valves.js:737-753): nothing happens when no
valve is registered under the id; otherwise the meshes of the valve and its node are disposed
and the entry is spliced out. -/
def World.removeValve (w : World) (b : ObjectPicker.DisposeBackend) (id : String) : World :=
  if (ValvesManager.getValveById w.valves id).isSome then
    { w with
      valves := ValvesManager.removeValve w.valves id
      picker := ObjectPicker.disposeEntity b "valve" id w.picker }
  else w

/-- The call `PipesManager.removePipe(id)` (pipes.js:645-661), as `World.removeValve`. -/
def World.removePipe (w : World) (b : ObjectPicker.DisposeBackend) (id : String) : World :=
  if (PipesManager.getPipeById w.pipes id).isSome then
    { w with
      pipes := PipesManager.removePipe w.pipes id
      picker := ObjectPicker.disposeEntity b "pipe" id w.picker }
  else w

/-- The call `LoadingAreasManager.removeLoadingArea(id)` (loadingAreas.js:1029-1045), as
`World.removeValve`. -/
def World.removeLoadingArea (w : World) (b : ObjectPicker.DisposeBackend) (id : String) :
    World :=
  if (LoadingAreasManager.getLoadingAreaById w.areas id).isSome then
    { w with
      areas := LoadingAreasManager.removeLoadingArea w.areas id
      picker := ObjectPicker.disposeEntity b "loadingArea" id w.picker }
  else w

/-- A selection request on a mesh (`_processSelection`). -/
def World.select (w : World) (mesh : ObjectPicker.MeshHandle) : World :=
  { w with picker := ObjectPicker._processSelection w.picker mesh }

/-- The handle of a pickable body mesh of the valve built from a record with this id:
the mesh, the body node, the valve node carrying the metadata, the valves group
(valves.js:125-126, 145-146, 169-171, 507-536). -/
def valveBodyHandle (id : String) (meshName : String) : ObjectPicker.MeshHandle :=
  { self := { name := meshName }
    ancestors :=
      [{ name := id ++ "_body_node" },
       { name := id, metadata := some ⟨"valve", id⟩ },
       { name := "valvesGroup" }] }

/-- Whether a mesh hangs below a node that carries the name of a registered entity. -/
def World.belongsToRegistered (w : World) (mesh : ObjectPicker.MeshHandle) : Bool :=
  (mesh.self :: mesh.ancestors).any fun o => decide (o.name ∈ w.registeredIds)

/-! ## ColorMapper (`js/utils/colorMapping.js`) -/

namespace ColorMapper

/-- What a colour property may hold: a `Color3`, a member of `Object.prototype` read from a
scheme under the given key (a function or object, truthy, not a colour), or `undefined`. -/
inductive JsColor where
  | color (c : Color3)
  | member (key : String)
  | undefined
deriving DecidableEq, Repr

/-- A mesh as the colour mapper sees it. `materialKey` identifies the material object
(`none`: the mesh has no material); `color` is what the material's `albedoColor` (for a
`PBRMaterial`) or `diffuseColor` (otherwise) holds, `emissiveColor` its emissive colour.
Meshes with equal keys share one material: a write to the material of one mesh is a write to
all of them (`setMaterial`). `_originalColor` is the property `highlightObject` adds to the
mesh and `inHighlightLayer` tells whether `_scene.highlightLayer` holds the mesh. -/
structure PaintMesh where
  name : String
  materialKey : Option String
  isPBR : Bool := false
  color : JsColor
  emissiveColor : JsColor := JsColor.color ⟨0, 0, 0⟩
  _originalColor : Option Color3 := none
  inHighlightLayer : Bool := false
deriving DecidableEq, Repr

/-- The fields of `metadata.data` the colour mapper reads. -/
structure DataView where
  product : Option String := none
  status : Option String := none
  temperature : Option ℚ := none
deriving DecidableEq, Repr

/-- The fields of `metadata` the colour mapper reads; `data` is `none` when the metadata
has no property of that name. -/
structure Metadata where
  type : String
  state : Option String := none
  data : Option DataView := none
deriving DecidableEq, Repr

/-- A registered node as the colour mapper sees it: its name, its metadata and the meshes
`getChildMeshes()` returns, in that order. -/
structure SceneNode where
  name : String
  metadata : Metadata
  meshes : List PaintMesh
deriving DecidableEq, Repr

/-- The scheme `_colorSchemes.product` (colorMapping.js:17-28). -/
def _colorSchemes.product : List (String × Color3) :=
  [("Diesel S10", ⟨4 / 5, 7 / 10, 1 / 10⟩),
   ("Diesel Marítimo", ⟨7 / 10, 3 / 5, 1 / 10⟩),
   ("Gasolina", ⟨4 / 5, 2 / 5, 1 / 10⟩),
   ("Etanol", ⟨1 / 10, 4 / 5, 3 / 10⟩),
   ("Óleo Lubrificante", ⟨1 / 2, 3 / 10, 1 / 10⟩),
   ("GLP", ⟨3 / 10, 7 / 10, 7 / 10⟩),
   ("Água", ⟨1 / 10, 1 / 2, 4 / 5⟩),
   ("Vapor", ⟨4 / 5, 4 / 5, 4 / 5⟩),
   ("Querosene", ⟨7 / 10, 7 / 10, 7 / 10⟩),
   ("default", ⟨1 / 2, 1 / 2, 1 / 2⟩)]

/-- The scheme `_colorSchemes.status` (colorMapping.js:31-38). -/
def _colorSchemes.status : List (String × Color3) :=
  [("operational", ⟨1 / 10, 7 / 10, 1 / 10⟩),
   ("maintenance", ⟨7 / 10, 7 / 10, 1 / 10⟩),
   ("fault", ⟨7 / 10, 1 / 10, 1 / 10⟩),
   ("offline", ⟨1 / 2, 1 / 2, 1 / 2⟩),
   ("standby", ⟨1 / 10, 1 / 2, 4 / 5⟩),
   ("default", ⟨3 / 10, 3 / 10, 3 / 10⟩)]

/-- The list `_colorSchemes.temperature.ranges` (colorMapping.js:42-49); the bound `none`
is `Infinity`. -/
def _colorSchemes.temperature.ranges : List (Option ℚ × Color3) :=
  [(some 0, ⟨0, 0, 4 / 5⟩),
   (some 25, ⟨0, 1 / 2, 4 / 5⟩),
   (some 50, ⟨0, 4 / 5, 0⟩),
   (some 75, ⟨4 / 5, 4 / 5, 0⟩),
   (some 100, ⟨4 / 5, 2 / 5, 0⟩),
   (none, ⟨4 / 5, 0, 0⟩)]

/-- The colour `_colorSchemes.temperature.default` (colorMapping.js:50). -/
def _colorSchemes.temperature.default : Color3 := ⟨1 / 2, 1 / 2, 1 / 2⟩

/-- The scheme `_colorSchemes.default` (colorMapping.js:54-60). -/
def _colorSchemes.default : List (String × Color3) :=
  [("tank", ⟨0, 47 / 100, 3 / 4⟩),
   ("pipe", ⟨1 / 2, 1 / 2, 1 / 2⟩),
   ("valve", ⟨7 / 10, 1 / 10, 1 / 10⟩),
   ("loadingArea", ⟨4 / 5, 1 / 2, 1 / 5⟩),
   ("default", ⟨3 / 10, 3 / 10, 3 / 10⟩)]

/-- The own keys of `_colorSchemes` (colorMapping.js:15-61). -/
def _colorSchemes.modes : List (String × Unit) :=
  [("product", ()), ("status", ()), ("temperature", ()), ("default", ())]

/-- The expression `scheme[key] || scheme.default` on a scheme of colours: an own entry and
an inherited member are both truthy. -/
def schemeOrDefault (scheme : List (String × Color3)) (key : String) : JsColor :=
  match lookupKey scheme key with
  | Lookup.own c => JsColor.color c
  | Lookup.inherited => JsColor.member key
  | Lookup.undefined =>
    match scheme.lookup "default" with
    | some c => JsColor.color c
    | none => JsColor.undefined

/-- The function `_getColorForProduct` (colorMapping.js:175-177). -/
def _getColorForProduct (productName : String) : JsColor :=
  schemeOrDefault _colorSchemes.product productName

/-- The function `_getColorForStatus` (colorMapping.js:184-186). -/
def _getColorForStatus (status : String) : JsColor :=
  schemeOrDefault _colorSchemes.status status

/-- The function `_getDefaultColor` (colorMapping.js:213-215). -/
def _getDefaultColor (equipmentType : String) : JsColor :=
  schemeOrDefault _colorSchemes.default equipmentType

/-- The loop of `_getColorForTemperature` (colorMapping.js:199-203): the colour of the
first range with `temperature <= max`. -/
def firstRange (temperature : ℚ) : List (Option ℚ × Color3) → Option Color3
  | [] => none
  | (max, color) :: rest =>
    match max with
    | none => some color
    | some m => if temperature ≤ m then some color else firstRange temperature rest

/-- The function `_getColorForTemperature` (colorMapping.js:193-206); `none` is
`undefined`. -/
def _getColorForTemperature (temperature : Option ℚ) : Color3 :=
  match temperature with
  | none => _colorSchemes.temperature.default
  | some t => (firstRange t _colorSchemes.temperature.ranges).getD _colorSchemes.temperature.default

/-- Truthiness of an optional string. -/
def truthy (v : Option String) : Bool :=
  match v with
  | none => false
  | some s => s != ""

/-- The filter of `_applyColorToMeshes` (colorMapping.js:224-231). -/
def isMainMesh (name : String) : Bool :=
  includes name "_body" ||
    (!includes name "_level" && !includes name "_indicator" && !includes name "_state")

/-- A write to the material with this key: every mesh holding it sees the change. -/
def setMaterial (key : String) (f : PaintMesh → PaintMesh) (meshes : List PaintMesh) :
    List PaintMesh :=
  meshes.map fun m => if m.materialKey = some key then f m else m

/-- The function `_applyColorToMeshes` (colorMapping.js:222-243): the colour is written to
the material of each main mesh that has one, in the order of `getChildMeshes()`. -/
def _applyColorToMeshes (node : SceneNode) (color : JsColor) : SceneNode :=
  { node with
    meshes := (node.meshes.filter fun m => isMainMesh m.name).foldl
      (fun meshes mesh =>
        match mesh.materialKey with
        | none => meshes
        | some key => setMaterial key (fun m => { m with color := color }) meshes)
      node.meshes }

/-- The colour the `switch` of `_colorizeObject` assigns (colorMapping.js:127-159), `none`
when it leaves `color` at `null`. -/
def modeColor (metadata : Metadata) (mode : String) : Option JsColor :=
  if mode = "product" then
    match metadata.data with
    | some data =>
      if truthy data.product then some (_getColorForProduct (data.product.getD "")) else none
    | none => none
  else if mode = "status" then
    if truthy (metadata.data.bind (·.status)) then
      some (_getColorForStatus ((metadata.data.bind (·.status)).getD ""))
    else if truthy metadata.state then some (_getColorForStatus (metadata.state.getD ""))
    else none
  else if mode = "temperature" then
    match metadata.data with
    | some data =>
      match data.temperature with
      | some t => some (JsColor.color (_getColorForTemperature (some t)))
      | none => none
    | none => none
  else some (_getDefaultColor metadata.type)

/-- The function `_colorizeObject` (colorMapping.js:123-168) on a node with metadata. -/
def _colorizeObject (objectNode : SceneNode) (mode : String) : SceneNode :=
  let color : JsColor :=
    match modeColor objectNode.metadata mode with
    | some c => c
    | none => _getDefaultColor objectNode.metadata.type
  _applyColorToMeshes objectNode color

/-- The module state of `ColorMapper` with the nodes the four managers return from
`getTankMeshes()`, `getPipeMeshes()`, `getValveMeshes()` and `getLoadingAreaMeshes()`;
`highlightLayer` tells whether `_scene.highlightLayer` has been created. -/
structure ColorState where
  _currentMode : String := "default"
  highlightLayer : Bool := false
  tanks : List SceneNode := []
  pipes : List SceneNode := []
  valves : List SceneNode := []
  areas : List SceneNode := []
deriving DecidableEq, Repr

/-- The mode `applyColorMode` works with after its check `!_colorSchemes[mode]`
(colorMapping.js:77-80). -/
def resolveMode (mode : String) : String :=
  match lookupKey _colorSchemes.modes mode with
  | Lookup.undefined => "default"
  | _ => mode

/-- The function `applyColorMode` (colorMapping.js:76-116). -/
def applyColorMode (s : ColorState) (mode : String) : ColorState :=
  { s with
    _currentMode := resolveMode mode
    tanks := s.tanks.map fun n => _colorizeObject n (resolveMode mode)
    pipes := s.pipes.map fun n => _colorizeObject n (resolveMode mode)
    valves := s.valves.map fun n => _colorizeObject n (resolveMode mode)
    areas := s.areas.map fun n => _colorizeObject n (resolveMode mode) }

/-- The function `getCurrentMode` (colorMapping.js:315-317). -/
def getCurrentMode (s : ColorState) : String := s._currentMode

/-- Replace the mesh at position `i` by its image. -/
def updateAt (i : ℕ) (f : PaintMesh → PaintMesh) (meshes : List PaintMesh) : List PaintMesh :=
  match meshes[i]? with
  | some m => meshes.set i (f m)
  | none => meshes

/-- The first loop of `highlightObject` (colorMapping.js:460-472) over the meshes at the
given positions: a mesh with a material and no saved colour saves a clone of the colour of
its material on itself, then the material is tinted. The call `.clone()` on a value that
is not a `Color3` throws and ends the function. -/
def saveAndTint : List ℕ → List PaintMesh → Outcome (List PaintMesh)
  | [], meshes => ⟨meshes, none⟩
  | i :: rest, meshes =>
    match meshes[i]? with
    | none => saveAndTint rest meshes
    | some mesh =>
      match mesh.materialKey with
      | none => saveAndTint rest meshes
      | some key =>
        if mesh._originalColor.isSome then saveAndTint rest meshes
        else
          match mesh.color with
          | JsColor.color c =>
            saveAndTint rest
              (setMaterial key
                (fun m => { m with color := JsColor.color ⟨1, 4 / 5, 0⟩
                                   emissiveColor := JsColor.color ⟨1 / 2, 3 / 10, 0⟩ })
                (updateAt i (fun m => { m with _originalColor := some c }) meshes))
          | _ => ⟨meshes, some (JsError.typeError "clone is not a function")⟩

/-- The loop of the `else` branch of `highlightObject` (colorMapping.js:490-504): each mesh
leaves the highlight layer; a mesh with a saved colour and a material writes the saved
colour back to the material, sets its emissive colour to black and forgets the saved
colour. -/
def restoreSaved : List ℕ → List PaintMesh → List PaintMesh
  | [], meshes => meshes
  | i :: rest, meshes =>
    match meshes[i]? with
    | none => restoreSaved rest meshes
    | some mesh =>
      let left := updateAt i (fun m => { m with inHighlightLayer := false }) meshes
      match mesh._originalColor, mesh.materialKey with
      | some c, some key =>
        restoreSaved rest
          (updateAt i (fun m => { m with _originalColor := none })
            (setMaterial key
              (fun m => { m with color := JsColor.color c
                                 emissiveColor := JsColor.color ⟨0, 0, 0⟩ })
              left))
      | _, _ => restoreSaved rest left

/-- Lines 456-506 of `highlightObject` on the node found; `layer` tells whether
`_scene.highlightLayer` exists. The result carries the node, the flag and the exception. -/
def highlightNode (node : SceneNode) (layer : Bool) (highlight : Bool) :
    Outcome (SceneNode × Bool) :=
  if highlight then
    match saveAndTint (List.range node.meshes.length) node.meshes with
    | ⟨meshes, some e⟩ => ⟨({ node with meshes := meshes }, layer), some e⟩
    | ⟨meshes, none⟩ =>
      ⟨({ node with meshes := meshes.map fun m => { m with inHighlightLayer := true } }, true),
        none⟩
  else if layer then
    ⟨({ node with meshes := restoreSaved (List.range node.meshes.length) node.meshes }, layer),
      none⟩
  else ⟨(node, layer), none⟩

/-- The function `highlightObject(objectId, highlight = true)` (colorMapping.js:434-507):
the object is looked up by name among the tanks, then the pipes, the valves and the
loading areas. -/
def highlightObject (s : ColorState) (objectId : String) (highlight : Bool := true) :
    Outcome ColorState :=
  let named : SceneNode → Bool := fun n => n.name == objectId
  match s.tanks.find? named with
  | some node =>
    let r := highlightNode node s.highlightLayer highlight
    ⟨{ s with tanks := modifyFirst named (fun _ => r.state.1) s.tanks
              highlightLayer := r.state.2 }, r.thrown⟩
  | none =>
    match s.pipes.find? named with
    | some node =>
      let r := highlightNode node s.highlightLayer highlight
      ⟨{ s with pipes := modifyFirst named (fun _ => r.state.1) s.pipes
                highlightLayer := r.state.2 }, r.thrown⟩
    | none =>
      match s.valves.find? named with
      | some node =>
        let r := highlightNode node s.highlightLayer highlight
        ⟨{ s with valves := modifyFirst named (fun _ => r.state.1) s.valves
                  highlightLayer := r.state.2 }, r.thrown⟩
      | none =>
        match s.areas.find? named with
        | some node =>
          let r := highlightNode node s.highlightLayer highlight
          ⟨{ s with areas := modifyFirst named (fun _ => r.state.1) s.areas
                    highlightLayer := r.state.2 }, r.thrown⟩
        | none => ⟨s, none⟩

/-- The colour of the material of the mesh named `meshName` below the node named
`nodeName`, looked up in a list of nodes. -/
def colorOf (nodes : List SceneNode) (nodeName meshName : String) : Option JsColor :=
  (nodes.find? fun n => n.name == nodeName).bind fun n =>
    (n.meshes.find? fun m => m.name == meshName).map (·.color)

/-- The emissive colour of the material of the mesh named `meshName` below the node named
`nodeName`. -/
def emissiveOf (nodes : List SceneNode) (nodeName meshName : String) : Option JsColor :=
  (nodes.find? fun n => n.name == nodeName).bind fun n =>
    (n.meshes.find? fun m => m.name == meshName).map (·.emissiveColor)

/-- A colour property that holds `undefined` when no colour was assigned. -/
def ofOption : Option Color3 → JsColor
  | some c => JsColor.color c
  | none => JsColor.undefined

end ColorMapper

/-! ## The registered nodes as the colour mapper sees them -/

/-- The scene node of a tank: metadata of `createTankFromData` and the child meshes with
the materials the builders gave them. -/
def TanksManager.sceneNode (t : TanksManager.TankNode) : ColorMapper.SceneNode :=
  { name := t.name
    metadata :=
      { type := t.metadata.type
        data := some { product := t.metadata.data.product, status := t.metadata.data.status,
                       temperature := t.metadata.data.temperature } }
    meshes := t.children.map fun m =>
      { name := m.name, materialKey := some m.materialKey, isPBR := m.isPBR,
        color := ColorMapper.ofOption m.diffuseColor } }

/-- The table `_pipeConfig.materials` (pipes.js:16-32), colours only. -/
def PipesManager._pipeConfig.materials : List (String × Color3) :=
  [("standard", ⟨1 / 2, 1 / 2, 1 / 2⟩),
   ("insulated", ⟨4 / 5, 4 / 5, 4 / 5⟩),
   ("highTemp", ⟨3 / 5, 3 / 10, 3 / 10⟩)]

/-- The albedo colour `_createPipeMaterial` sets (pipes.js:515-530): the colour of
`_pipeConfig.materials[type] || _pipeConfig.materials.standard`. -/
def PipesManager.materialColor (type : String) : ColorMapper.JsColor :=
  match lookupKey PipesManager._pipeConfig.materials type with
  | Lookup.own c => ColorMapper.JsColor.color c
  | Lookup.inherited => ColorMapper.JsColor.undefined
  | Lookup.undefined => ColorMapper.JsColor.color ⟨1 / 2, 1 / 2, 1 / 2⟩

/-- The scene node of a pipe. Its metadata holds the record under `pipeData`
(pipes.js:147-153), so `metadata.data` and `metadata.state` are `undefined`. The child
meshes are the segments and the connector spheres, each with a `PBRMaterial` of its own. -/
def PipesManager.sceneNode (n : PipesManager.PipeNode) : ColorMapper.SceneNode :=
  { name := n.name
    metadata := { type := n.metadata.type }
    meshes := (n.children.filter (·.isMesh)).map fun c =>
      { name := c.name, materialKey := some (c.name ++ "_material"), isPBR := true,
        color := PipesManager.materialColor n.metadata.materialType } }

/-- The meshes of `_createValveBody` with the colour of the material of each
(valves.js:305-538); `color` is `config.color`. -/
def ValvesManager.bodyParts (id : String) (type : String) (color : Color3) :
    List (String × Color3) :=
  if type = "ball" then [(id ++ "_body", color), (id ++ "_sphere", ⟨4 / 5, 4 / 5, 4 / 5⟩)]
  else if type = "butterfly" then
    [(id ++ "_body", color), (id ++ "_disk", ⟨7 / 10, 7 / 10, 7 / 10⟩)]
  else if type = "check" then
    [(id ++ "_body", color), (id ++ "_cap", ⟨3 / 5, 3 / 5, 3 / 5⟩),
     (id ++ "_arrow", ⟨1 / 10, 3 / 5, 1 / 10⟩)]
  else if type = "control" then
    [(id ++ "_body", color), (id ++ "_actuator", ⟨1 / 5, 1 / 5, 1 / 5⟩),
     (id ++ "_positioner", ⟨7 / 10, 7 / 10, 7 / 10⟩)]
  else [(id ++ "_body", color), (id ++ "_bonnet", ⟨3 / 5, 3 / 5, 3 / 5⟩)]

/-- The meshes of `_createValveWheel` (valves.js:545-603): the position indicator of a
control valve, or the wheel and its four spokes, which use the material of the wheel. -/
def ValvesManager.wheelMeshes (id : String) (type : String) (wheel : String) :
    List ColorMapper.PaintMesh :=
  if type = "control" then
    [{ name := wheel, materialKey := some (id ++ "_indicatorMat/wheel"),
       color := ColorMapper.JsColor.color ⟨9 / 10, 9 / 10, 1 / 10⟩ }]
  else
    { name := wheel, materialKey := some (id ++ "_wheelMat"),
      color := ColorMapper.JsColor.color ⟨1 / 5, 1 / 5, 1 / 5⟩ } ::
    (List.range 4).map fun i =>
      { name := id ++ "_spoke_" ++ toString i, materialKey := some (id ++ "_wheelMat"),
        color := ColorMapper.JsColor.color ⟨1 / 5, 1 / 5, 1 / 5⟩ }

/-- The scene node of a valve: the body meshes, each with a material of its own, the
wheel meshes and the state indicator with the colours its material holds. -/
def ValvesManager.sceneNode (v : ValvesManager.ValveNode) : ColorMapper.SceneNode :=
  let typeColor : Color3 :=
    match lookupKey ValvesManager._valveConfig.types v.metadata.valveType with
    | Lookup.own c => c.color
    | _ => ⟨7 / 10, 1 / 10, 1 / 10⟩
  { name := v.name
    metadata :=
      { type := v.metadata.type, state := some v.metadata.state
        data := some { product := v.metadata.data.product } }
    meshes :=
      ((ValvesManager.bodyParts v.name v.metadata.valveType typeColor).map fun p =>
        { name := p.1, materialKey := some (p.1 ++ "Mat"),
          color := ColorMapper.JsColor.color p.2 }) ++
      ValvesManager.wheelMeshes v.name v.metadata.valveType v.metadata.components.wheel.name ++
      [{ name := v.metadata.components.stateIndicator.name
         materialKey := some (v.name ++ "_indicatorMat")
         color := ColorMapper.ofOption v.metadata.components.stateIndicator.material.diffuseColor
         emissiveColor :=
           ColorMapper.ofOption v.metadata.components.stateIndicator.material.emissiveColor }] }

/-- The scene node of a loading area: the platform, the meshes of the type-specific
elements (passed in: their builders are not modelled), the post and the light of the
indicator, and the arm meshes, where the hoses share one material and the other parts
another (loadingAreas.js:782-787). -/
def LoadingAreasManager.sceneNode (a : LoadingAreasManager.AreaNode)
    (elements : List ColorMapper.PaintMesh) : ColorMapper.SceneNode :=
  let typeColor : Color3 :=
    match lookupKey LoadingAreasManager._loadingAreaConfig.types a.metadata.areaType with
    | Lookup.own c => c.color
    | _ => ⟨7 / 10, 1 / 2, 1 / 5⟩
  { name := a.name
    metadata :=
      { type := a.metadata.type, state := some a.metadata.state
        data := some { product := a.metadata.data.product } }
    meshes :=
      { name := a.metadata.components.platform, materialKey := some (a.name ++ "_platformMat")
        isPBR := true, color := ColorMapper.JsColor.color typeColor } ::
      elements ++
      (a.metadata.components.stateIndicator.meshes.map fun m =>
        { name := m.name, materialKey := some (m.name ++ "Mat")
          color := ColorMapper.ofOption m.diffuseColor
          emissiveColor := ColorMapper.ofOption m.emissiveColor }) ++
      a.metadata.components.loadingArms.map fun m =>
        if m.name.endsWith "_hose" then
          { name := m.name, materialKey := some (a.name ++ "_hoseMat")
            color := ColorMapper.JsColor.color ⟨1 / 10, 1 / 10, 1 / 10⟩ }
        else
          { name := m.name, materialKey := some (a.name ++ "_armMat")
            color := ColorMapper.JsColor.color ⟨1 / 5, 1 / 5, 1 / 5⟩ } }

/-- The state of the colour mapper over the registries of a world, before any call to
it; `elements` gives the type-specific meshes of each loading area. -/
def World.colorState (w : World)
    (elements : LoadingAreasManager.AreaNode → List ColorMapper.PaintMesh) :
    ColorMapper.ColorState :=
  { tanks := w.tanks.map TanksManager.sceneNode
    pipes := w.pipes.map PipesManager.sceneNode
    valves := w.valves.map ValvesManager.sceneNode
    areas := w.areas.map fun a => LoadingAreasManager.sceneNode a (elements a) }

/-! ## Closed forms of the loops of the colour mapper -/

namespace ColorMapper

/-- The keys of the materials `_applyColorToMeshes` writes to: those of the main meshes
that have a material. -/
def paintedKeys (meshes : List PaintMesh) : List String :=
  (meshes.filter fun m => isMainMesh m.name).filterMap (·.materialKey)

/-- A mesh after `color` has been written to the materials with the given keys. -/
def repaint (color : JsColor) (keys : List String) (m : PaintMesh) : PaintMesh :=
  match m.materialKey with
  | some k => if k ∈ keys then { m with color := color } else m
  | none => m

/-- What the first loop of `highlightObject` does to a mesh whose material no other mesh
holds: with a material, no saved colour and a `Color3` in the material, the colour is saved
and the material tinted. -/
def tinted (m : PaintMesh) : PaintMesh :=
  match m.materialKey, m._originalColor, m.color with
  | some _, none, JsColor.color c =>
    { m with _originalColor := some c, color := JsColor.color ⟨1, 4 / 5, 0⟩,
             emissiveColor := JsColor.color ⟨1 / 2, 3 / 10, 0⟩ }
  | _, _, _ => m

/-- What the loop of the `else` branch of `highlightObject` does to a mesh whose material
no other mesh holds. -/
def restored (m : PaintMesh) : PaintMesh :=
  match m._originalColor, m.materialKey with
  | some c, some _ =>
    { m with inHighlightLayer := false, color := JsColor.color c,
             emissiveColor := JsColor.color ⟨0, 0, 0⟩, _originalColor := none }
  | _, _ => { m with inHighlightLayer := false }

/-- The object the lookups of `highlightObject`, `restoreColors` and `colorizeObjectById`
find for an id (colorMapping.js:436-452): tanks first, then pipes, valves, loading areas. -/
def getObjectById (s : ColorState) (objectId : String) : Option SceneNode :=
  match s.tanks.find? (fun n => n.name == objectId) with
  | some n => some n
  | none =>
    match s.pipes.find? (fun n => n.name == objectId) with
    | some n => some n
    | none =>
      match s.valves.find? (fun n => n.name == objectId) with
      | some n => some n
      | none => s.areas.find? (fun n => n.name == objectId)

/-- The colours of the materials of the meshes of the object with this id, in the order of
`getChildMeshes()`. -/
def colorsOf (s : ColorState) (objectId : String) : Option (List JsColor) :=
  (getObjectById s objectId).map fun e => e.meshes.map (·.color)

end ColorMapper

/-! ## ObjectPicker: hover and the owner of the selection -/

namespace ObjectPicker

/-- The entries of `_config` the pointer handlers read (picker.js:19-27), with their initial
values; `setSelectionMode` and `setHoverHighlight` change them. -/
structure PickerConfig where
  selectionMode : String := "click"
  hoverHighlight : Bool := true
deriving DecidableEq, Repr

/-- The function `_clearHoverState` (picker.js:194-219): the hovered mesh leaves the
highlight layer and loses its outline unless it is the selected mesh. The tooltip and the
cursor are not modelled. -/
def _clearHoverState (s : PickerState) : PickerState :=
  match s._hoveredObject with
  | none => s
  | some hovered =>
    if s._selectedObject ≠ some hovered then
      { s with
        highlighted := s.highlighted.filter (· ≠ hovered)
        outlined := s.outlined.filter (· ≠ hovered)
        _hoveredObject := none }
    else { s with _hoveredObject := none }

/-- The function `_handlePointerMove` (picker.js:139-189); `pick` is the mesh `_scene.pick`
hit, if any. -/
def _handlePointerMove (config : PickerConfig) (s : PickerState) (pick : Option MeshHandle) :
    PickerState :=
  match pick with
  | none => _clearHoverState s
  | some mesh =>
    if s._hoveredObject ≠ some mesh then
      let cleared := _clearHoverState s
      let hovering : PickerState := { cleared with _hoveredObject := some mesh }
      let lit : PickerState :=
        if config.hoverHighlight ∧ hovering._selectedObject ≠ some mesh then
          { hovering with
            highlighted := if mesh ∈ hovering.highlighted then hovering.highlighted
                           else hovering.highlighted ++ [mesh]
            outlined := if mesh ∈ hovering.outlined then hovering.outlined
                        else hovering.outlined ++ [mesh] }
        else hovering
      if config.selectionMode = "hover" then _processSelection lit mesh else lit
    else s

/-- The events that reach the hover handlers: a pointer move with the mesh under the
pointer, if any, and `mouseout` of the canvas. -/
inductive HoverEvent where
  | pointerMove (pick : Option MeshHandle)
  | mouseOut
deriving DecidableEq, Repr

/-- The observer for `POINTERMOVE` (picker.js:84-91), which does nothing while the picker
is disabled, and the `mouseout` listener (picker.js:94-96), which does not look at
`_enabled`. -/
def onHoverEvent (config : PickerConfig) (s : PickerState) : HoverEvent → PickerState
  | HoverEvent.pointerMove pick => if s._enabled then _handlePointerMove config s pick else s
  | HoverEvent.mouseOut => _clearHoverState s

/-- The function `getSelectedObjectWithMetadata` (picker.js:559-573). -/
def getSelectedObjectWithMetadata (s : PickerState) : Option SceneObject :=
  match s._selectedObject with
  | none => none
  | some mesh =>
    if (objectWithMetadata mesh).metadata.isSome then some (objectWithMetadata mesh) else none

/-- The nearest node among a mesh and its ancestors that carries metadata. -/
def nearestWithMetadata (mesh : MeshHandle) : Option SceneObject :=
  (mesh.self :: mesh.ancestors).find? fun o => o.metadata.isSome

end ObjectPicker

/-- The handle of the body mesh of the tank built from a record with this id: the mesh, the
tank node carrying the metadata, the tanks group (tanks.js:178-198, 128-133). -/
def tankBodyHandle (id : String) : ObjectPicker.MeshHandle :=
  { self := { name := id ++ "_body" }
    ancestors := [{ name := id, metadata := some ⟨"tank", id⟩ }, { name := "tanksGroup" }] }

/-- The handle of the platform mesh of the loading area built from a record with this id
(loadingAreas.js:111-132, 166, 272). -/
def areaPlatformHandle (id : String) : ObjectPicker.MeshHandle :=
  { self := { name := id ++ "_platform" }
    ancestors :=
      [{ name := id, metadata := some ⟨"loadingArea", id⟩ }, { name := "loadingAreasGroup" }] }

/-! ## PipesManager: the children by index and the placement of a segment -/

namespace PipesManager

/-- The children of a pipe node as the loop of `createPipeFromData` names them by its index
`i` (pipes.js:116-144): for `i` below `points.length - 1` the segment `i`, a mesh, followed
for `i` below `points.length - 2` by the connection `i` at point `i + 1`, a mesh unless the
directions into and out of the joint are nearly collinear. -/
def childrenByIndex (id : String) (points : List Vec3) : List PipeChild :=
  (List.range (points.length - 1)).flatMap fun i =>
    { name := id ++ "_segment_" ++ toString i, isMesh := true, markedPickable := true } ::
    if i + 2 < points.length then
      [{ name := id ++ "_connection_" ++ toString i
         isMesh := !nearlyCollinear (points.getD (i + 1) ⟨none, none, none⟩)
           (points.getD i ⟨none, none, none⟩) (points.getD (i + 2) ⟨none, none, none⟩) }]
    else []

/-- What `_positionCylinder` assigns to `cylinder.rotationQuaternion` (pipes.js:383-402):
the identity, the rotation by pi about (1, 0, 0), or `RotationAxis(axis, angle)`. In the
last case the numbers are irrational in general and are kept as exact data: the axis is
`axis` normalised and the angle is `acos(cosineTimesLength / sqrt(lengthSquared))`. -/
inductive Orientation where
  | identity
  | halfTurnAboutX
  | axisAngle (axis : ℚ × ℚ × ℚ) (cosineTimesLength : ℚ) (lengthSquared : ℚ)
deriving DecidableEq, Repr

/-- The two properties `_positionCylinder` assigns. -/
structure Placement where
  position : ℚ × ℚ × ℚ
  rotationQuaternion : Orientation
deriving DecidableEq, Repr

/-- The function `_positionCylinder` (pipes.js:371-403) on points with numeric coordinates,
in exact arithmetic. With `d = end - start` and `len = |d|`, the normalised direction is
`d / len` (and `d` itself when `len = 0`, which `normalize` leaves alone), so the position
`start + direction * (len / 2)` is `start + d / 2`; the test `|direction.y| < 0.99999` is
`d.y ^ 2 < 0.99999 ^ 2 * len ^ 2` when `len > 0` and holds when `len = 0`; the cross product
of (0, 1, 0) with the direction is `(d.z, 0, -d.x) / len`. -/
def _positionCylinder (start finish : ℚ × ℚ × ℚ) : Placement :=
  let d : ℚ × ℚ × ℚ := (finish.1 - start.1, finish.2.1 - start.2.1, finish.2.2 - start.2.2)
  { position := (start.1 + d.1 / 2, start.2.1 + d.2.1 / 2, start.2.2 + d.2.2 / 2)
    rotationQuaternion :=
      if dot d d = 0 ∨ d.2.1 ^ 2 < (99999 / 100000) ^ 2 * dot d d then
        Orientation.axisAngle (d.2.2, 0, -d.1) d.2.1 (dot d d)
      else if d.2.1 < 0 then Orientation.halfTurnAboutX
      else Orientation.identity }

/-- The midpoint of two points. -/
def midpoint (a b : ℚ × ℚ × ℚ) : ℚ × ℚ × ℚ :=
  ((a.1 + b.1) / 2, (a.2.1 + b.2.1) / 2, (a.2.2 + b.2.2) / 2)

/-- Whether the direction from `start` to `finish` is parallel to the Y axis: its cross
product with (0, 1, 0) is zero. -/
def parallelToY (start finish : ℚ × ℚ × ℚ) : Bool :=
  decide (finish.1 - start.1 = 0 ∧ finish.2.2 - start.2.2 = 0)

end PipesManager

/-! ## TanksManager: the level mesh of a tank -/

namespace TanksManager

/-- The keys of `_tankConfig.types`. -/
def knownTypes : List String := ["standard", "large", "small", "spherical"]

/-- The types built by `_createCylindricalTank` that have an entry in `_tankConfig.types`. -/
def cylindricalTypes : List String := ["standard", "large", "small"]

/-- The height `_tankConfig.types[type].height` of an own entry that has one. -/
def configuredHeight (type : String) : Option ℚ :=
  (_tankConfig.types.lookup type).bind (·.height)

/-- The mesh `getChildMeshes().find(mesh => mesh.name === tankId + '_level')` of the tank
registered under `tankId` (tanks.js:472-475). -/
def levelMesh (tanks : List TankNode) (tankId : String) : Option Mesh :=
  (getTankById tanks tankId).bind fun t => t.children.find? fun m => m.name == tankId ++ "_level"

/-- The number of meshes named `tankId + '_level'` below the tank registered under
`tankId`; 0 when no tank is. -/
def levelMeshCount (tanks : List TankNode) (tankId : String) : ℕ :=
  match getTankById tanks tankId with
  | some t => t.children.countP fun m => m.name == tankId ++ "_level"
  | none => 0

/-- A sequence of calls `updateProductLevel(tankId, level)`, one per level, each on the
registry the call before left (whether or not it threw). -/
def updateLevels (tanks : List TankNode) (tankId : String) (levels : List ℚ) : List TankNode :=
  levels.foldl (fun ts level => (updateProductLevel ts tankId level).state) tanks

end TanksManager

/-! ## ValvesManager: sequences of operations -/

namespace ValvesManager

/-- A call of one of the functions of the manager that change the registry. -/
inductive ValveOp where
  | createValveFromData (valveData : ValveData)
  | addValve (valveData : ValveData)
  | changeValveState (valveId newState : String) (animate : Bool)
  | removeValve (valveId : String)
deriving DecidableEq, Repr

/-- The registry after one call; what a call had registered before it threw stays. -/
def ValveOp.run (valves : List ValveNode) : ValveOp → List ValveNode
  | ValveOp.createValveFromData r => (ValvesManager.createValveFromData valves r).state
  | ValveOp.addValve r => (ValvesManager.addValve valves r).state
  | ValveOp.changeValveState id s a => (ValvesManager.changeValveState valves id s a).state
  | ValveOp.removeValve id => ValvesManager.removeValve valves id

/-- The registry after a sequence of calls, from the empty registry. -/
def reachable (ops : List ValveOp) : List ValveNode := ops.foldl ValveOp.run []

/-- Whether a call passes a state the data model knows where it passes one: the record of
a build has one of the five states or none, and the new state of a change is no property
name of `Object.prototype`. -/
def ValveOp.statesKnown : ValveOp → Bool
  | ValveOp.createValveFromData r => decide (jsOr r.state "closed" ∈ knownStates)
  | ValveOp.addValve r => decide (jsOr r.state "closed" ∈ knownStates)
  | ValveOp.changeValveState _ s _ => decide (s ∉ objectPrototypeKeys)
  | ValveOp.removeValve _ => true

end ValvesManager

/-! ## Concrete inputs used by the evaluation theorems -/

/-- The tank record of the example scenario of the specification. -/
def exampleTank : TanksManager.TankData :=
  { id := "TQ-01", type := some "standard", product := some "Diesel", level := some (1 / 2) }

/-- The tank registry after building `exampleTank` alone. -/
def exampleTanks : List TanksManager.TankNode :=
  (TanksManager.createTanks true [] [exampleTank]).state

/-- A gate valve record, closed, with a position. -/
def exampleValve : ValvesManager.ValveData :=
  { id := "XV-1", type := some "gate", state := some "closed",
    position := some ⟨some 0, some (1 / 2), some 0⟩ }

/-- The valve registry after `addValve(exampleValve)` alone. -/
def exampleValves : List ValvesManager.ValveNode :=
  (ValvesManager.addValve [] exampleValve).state

/-- A truck bay record, available, with two loading arms. -/
def exampleArea : LoadingAreasManager.AreaData :=
  { id := "BAY-1", type := some "truckBay", state := some "available",
    position := some ⟨some 0, some 0, some 15⟩, loadingArms := some 2 }

/-- The loading-area registry after `addLoadingArea(exampleArea)` alone. -/
def exampleAreas : List LoadingAreasManager.AreaNode :=
  (LoadingAreasManager.addLoadingArea [] exampleArea).state

/-- The loading-area registry after `addLoadingArea(exampleArea)` twice. -/
def duplicateAreas : List LoadingAreasManager.AreaNode :=
  (LoadingAreasManager.addLoadingArea exampleAreas exampleArea).state

/-- A valve record without a position. -/
def valveWithoutPosition : ValvesManager.ValveData :=
  { id := "XV-0", type := some "gate", state := some "open" }

/-- A second valve record with a position. -/
def secondValve : ValvesManager.ValveData :=
  { id := "XV-2", type := some "ball", state := some "open",
    position := some ⟨some 5, some (1 / 2), some 0⟩ }

/-- A loading-area record without a position. -/
def areaWithoutPosition : LoadingAreasManager.AreaData :=
  { id := "BAY-0", type := some "truckBay", state := some "available" }

/-- A second loading-area record with a position. -/
def secondArea : LoadingAreasManager.AreaData :=
  { id := "BAY-2", type := some "marinePier", state := some "loading",
    position := some ⟨some 0, some 0, some 0⟩ }

/-- The invariant of the specification on the picker: nothing is selected, or the selected
mesh belongs to an entity that is registered. -/
def World.selectionLive (w : World) : Bool :=
  match w.picker._selectedObject with
  | none => true
  | some mesh => w.belongsToRegistered mesh

/-- The state after `addValve(exampleValve)`, `addValve(secondValve)` and a selection
request on the body mesh of `XV-1`. -/
def twoValvesSelected : World :=
  (World.buildAll {} [BuildOp.addValve exampleValve, BuildOp.addValve secondValve]).select
    (valveBodyHandle "XV-1" "XV-1_body")

/-- The angle the specification gives for a valve state, in units of pi: pi/2 for open,
pi/4 for partial, 0 otherwise. -/
def ValvesManager.expectedAngle (s : String) : ℚ :=
  if s = "open" then 1 / 2 else if s = "partial" then 1 / 4 else 0

/-- The record of tank TQ-0002 of the data set (data/equipment.js:35-45). -/
def gasolineTank : TanksManager.TankData :=
  { id := "TQ-0002", type := some "standard",
    position := some ⟨some (-8), some 0, some (-10)⟩, product := some "Gasolina",
    level := some (13 / 20), temperature := some (114 / 5), status := some "operational" }

/-- The record of `gasolineTank` under another id, with its status in capitals. -/
def capitalsTank : TanksManager.TankData :=
  { gasolineTank with id := "TQ-0003", status := some "OPERATIONAL" }

/-- The record of pipe PIPE-CONN-02 of the data set (data/equipment.js:218-231). -/
def gasolinePipe : PipesManager.PipeData :=
  { id := "PIPE-CONN-02", size := some "medium", materialType := some "standard",
    product := some "Gasolina",
    points := some [⟨some (-8), some (1 / 2), some 5⟩, ⟨some (-8), some (1 / 2), some (-10)⟩] }

/-- A pipe record with three points, hence two segments and a connector. -/
def cornerPipe : PipesManager.PipeData :=
  { id := "PIPE-7", size := some "medium", materialType := some "insulated",
    points := some [⟨some 0, some (1 / 2), some 0⟩, ⟨some 0, some (1 / 2), some 10⟩,
                    ⟨some 10, some (1 / 2), some 10⟩] }

/-- A gate valve record, open, whose id contains `_body`. -/
def bodyNamedValve : ValvesManager.ValveData :=
  { id := "XV_body_1", type := some "gate", state := some "open",
    position := some ⟨some 3, some (1 / 2), some 0⟩ }

/-- The registries after building the records above, `exampleValve` and `exampleArea`. -/
def exampleWorld : World :=
  World.buildAll {}
    [BuildOp.createTanks true [gasolineTank, capitalsTank],
     BuildOp.createPipes true [gasolinePipe, cornerPipe],
     BuildOp.createValves true [exampleValve, bodyNamedValve],
     BuildOp.createLoadingAreas true [exampleArea]]

/-- The colour mapper over `exampleWorld` before any call to it; the type-specific meshes of
the loading area are left out. -/
def exampleScene : ColorMapper.ColorState := exampleWorld.colorState fun _ => []

/-- The colour mapper over `exampleWorld` after `applyColorMode('default')`, the call the
application makes when it starts (app.js:89). -/
def startScene : ColorMapper.ColorState := ColorMapper.applyColorMode exampleScene "default"

/-- The handle of segment `i` of the pipe built from a record with this id: the segment,
the pipe node carrying the metadata, the pipes group (pipes.js:108, 127, 147-153). -/
def pipeSegmentHandle (id : String) (i : ℕ) : ObjectPicker.MeshHandle :=
  { self := { name := id ++ "_segment_" ++ toString i }
    ancestors := [{ name := id, metadata := some ⟨"pipe", id⟩ }, { name := "pipesGroup" }] }

/-- A picker with segment 0 of `PIPE-7` selected, from a picker with nothing selected. -/
def segmentSelected : ObjectPicker.PickerState :=
  ObjectPicker._processSelection {} (pipeSegmentHandle "PIPE-7" 0)

/-- The points of the pipe with a right-angle turn of the specification. -/
def turnPoints : List Vec3 :=
  [⟨some 0, some 0, some 0⟩, ⟨some 0, some 0, some 10⟩, ⟨some 10, some 0, some 10⟩]

/-- A pipe record over `turnPoints`. -/
def turnPipe : PipesManager.PipeData := { id := "PIPE-T", points := some turnPoints }

/-- Three points on one line, in one direction. -/
def straightPoints : List Vec3 :=
  [⟨some 0, some 0, some 0⟩, ⟨some 0, some 0, some 10⟩, ⟨some 0, some 0, some 20⟩]

/-- A pipe record over `straightPoints`. -/
def straightPipe : PipesManager.PipeData := { id := "PIPE-S", points := some straightPoints }

/-- A pipe record over three points on one line that are given without their `y`. -/
def flatPipe : PipesManager.PipeData :=
  { id := "PIPE-F"
    points := some [⟨some 0, none, some 0⟩, ⟨some 0, none, some 5⟩, ⟨some 0, none, some 10⟩] }

/-- A tank record whose type is no key of `_tankConfig.types`. -/
def hugeTank : TanksManager.TankData := { id := "TQ-09", type := some "huge" }

/-- A spherical tank record. -/
def sphereTank : TanksManager.TankData := { id := "TQ-05", type := some "spherical" }

/-- A gate valve record whose state is none of the five states. -/
def bogusValve : ValvesManager.ValveData :=
  { id := "XV-9", type := some "gate", state := some "bogus",
    position := some ⟨some 0, some (1 / 2), some 0⟩ }

namespace PipesManager

/-- The vector `end.subtract(start)` of `_positionCylinder` (pipes.js:373). -/
def direction (start finish : ℚ × ℚ × ℚ) : ℚ × ℚ × ℚ :=
  (finish.1 - start.1, finish.2.1 - start.2.1, finish.2.2 - start.2.2)

/-- Whether the test `Math.abs(direction.y) < 0.99999` of `_positionCylinder`
(pipes.js:386) fails on the normalised direction, for distinct points: the direction is
within the tolerance of the Y axis, `0.99999 ^ 2 * |d| ^ 2 <= d.y ^ 2`. -/
def alongY (start finish : ℚ × ℚ × ℚ) : Bool :=
  decide ((99999 / 100000) ^ 2 * dot (direction start finish) (direction start finish)
    ≤ (direction start finish).2.1 ^ 2)

end PipesManager

namespace TanksManager

/-- What lines 518-531 of `updateProductLevel` do to the level mesh of a tank whose type has
the own entry `config`: the vertical scale is set, and for a tank that is not spherical the
centre is moved to half the scaled height. -/
def rescaleLevelMesh (tankType : String) (config : TankTypeConfig) (level : ℚ) (m : Mesh) :
    Mesh :=
  if tankType = "spherical" then { m with scalingY := levelScale level }
  else
    { m with
      scalingY := levelScale level
      positionY := config.height.map fun h => h * (49 / 50) * levelScale level / 2 }

end TanksManager

/-! # Theorems -/

/-! ## Lists -/

theorem find?_modifyFirst {α : Type} (p : α → Bool) (f : α → α)
    (hf : ∀ x, p x = true → p (f x) = true) (l : List α) :
    (modifyFirst p f l).find? p = (l.find? p).map f := by
  induction l with
  | nil => rfl
  | cons x xs ih =>
    by_cases hx : p x = true
    · simp [modifyFirst, List.find?, hx, hf x hx]
    · simp [modifyFirst, List.find?, hx, ih]

theorem modifyFirst_modifyFirst {α : Type} (p : α → Bool) (f g : α → α)
    (hf : ∀ x, p x = true → p (f x) = true) (l : List α) :
    modifyFirst p g (modifyFirst p f l) = modifyFirst p (fun x => g (f x)) l := by
  induction l with
  | nil => rfl
  | cons x xs ih =>
    by_cases hx : p x = true
    · simp [modifyFirst, hx, hf x hx]
    · simp [modifyFirst, hx, ih]

theorem modifyFirst_congr {α : Type} (p : α → Bool) (f g : α → α)
    (h : ∀ x, p x = true → f x = g x) (l : List α) :
    modifyFirst p f l = modifyFirst p g l := by
  induction l with
  | nil => rfl
  | cons x xs ih =>
    by_cases hx : p x = true
    · simp [modifyFirst, hx, h x hx]
    · simp [modifyFirst, hx, ih]

theorem modifyFirst_id {α : Type} (p : α → Bool) (f : α → α)
    (h : ∀ x, p x = true → f x = x) (l : List α) :
    modifyFirst p f l = l := by
  induction l with
  | nil => rfl
  | cons x xs ih =>
    by_cases hx : p x = true
    · simp [modifyFirst, hx, h x hx]
    · simp [modifyFirst, hx, ih]

theorem find?_eraseP_of_countP_le_one {α : Type} (p : α → Bool) (l : List α)
    (h : l.countP p ≤ 1) : (l.eraseP p).find? p = none := by
  induction l with
  | nil => rfl
  | cons x xs ih =>
    by_cases hx : p x = true
    · have h0 : xs.countP p = 0 := by
        rw [List.countP_cons_of_pos _ _ hx] at h
        omega
      rw [List.eraseP_cons_of_pos hx]
      rw [List.countP_eq_zero] at h0
      exact List.find?_eq_none.mpr (fun a ha => by simpa using h0 a ha)
    · rw [List.countP_cons_of_neg _ _ hx] at h
      rw [List.eraseP_cons_of_neg hx, List.find?_cons_of_neg _ hx]
      exact ih h

/-! ## Tank level -/

namespace TanksManager

theorem applyLevel_name (n : TankNode) (nm : String) (level : ℚ) :
    (applyLevel n nm level).state.name = n.name := by
  unfold applyLevel
  split
  · rfl
  · split <;> rfl

theorem applyLevel_level (n : TankNode) (nm : String) (level : ℚ)
    (h : (applyLevel n nm level).thrown = none) :
    (applyLevel n nm level).state.metadata.data.level = some level := by
  unfold applyLevel at h ⊢
  split
  · rfl
  · split <;> simp_all

theorem applyLevel_thrown (n : TankNode) (nm : String) (level : ℚ)
    (h : lookupKey _tankConfig.types (jsOr (some n.metadata.equipmentType) "standard")
      ≠ Lookup.undefined) :
    (applyLevel n nm level).thrown = none := by
  unfold applyLevel
  split
  · rfl
  · split
    · rename_i h2; exact absurd h2 h
    · rfl
    · rfl

theorem updateLevelNode_name (n : TankNode) (id : String) (level : ℚ) :
    (updateLevelNode n id level).state.name = n.name := by
  unfold updateLevelNode
  split
  · exact applyLevel_name _ _ _
  · dsimp only
    split
    · rfl
    · exact applyLevel_name _ _ _
    · exact applyLevel_name _ _ _

theorem updateLevelNode_level (n : TankNode) (id : String) (level : ℚ)
    (h : (updateLevelNode n id level).thrown = none) :
    (updateLevelNode n id level).state.metadata.data.level = some level := by
  unfold updateLevelNode at h ⊢
  split
  · rename_i h1; simp only [h1] at h; exact applyLevel_level _ _ _ h
  · rename_i h1
    simp only [h1] at h
    dsimp only at h ⊢
    split
    · rename_i h2; simp [h2] at h
    · rename_i h2; simp only [h2] at h; exact applyLevel_level _ _ _ h
    · rename_i h2; simp only [h2] at h; exact applyLevel_level _ _ _ h

theorem updateLevelNode_thrown (n : TankNode) (id : String) (level : ℚ)
    (h : lookupKey _tankConfig.types (jsOr (some n.metadata.equipmentType) "standard")
      ≠ Lookup.undefined) :
    (updateLevelNode n id level).thrown = none := by
  unfold updateLevelNode
  split
  · exact applyLevel_thrown _ _ _ h
  · dsimp only
    split
    · rename_i h2; exact absurd h2 h
    · exact applyLevel_thrown _ _ _ h
    · exact applyLevel_thrown _ _ _ h

/-- What `updateProductLevel` stores for a registered tank whose type has a configuration:
the level as given, whatever its value, and the call returns normally. -/
theorem readLevel_updateProductLevel (tanks : List TankNode) (id : String) (level : ℚ)
    (t : TankNode) (ht : getTankById tanks id = some t)
    (h : lookupKey _tankConfig.types (jsOr (some t.metadata.equipmentType) "standard")
      ≠ Lookup.undefined) :
    readLevel (updateProductLevel tanks id level).state id = some level
    ∧ (updateProductLevel tanks id level).thrown = none := by
  unfold getTankById at ht
  unfold readLevel getTankById updateProductLevel
  simp only [ht]
  refine ⟨?_, updateLevelNode_thrown t id level h⟩
  rw [find?_modifyFirst]
  · simp [ht, updateLevelNode_level t id level (updateLevelNode_thrown t id level h)]
  · intro x _
    have := List.find?_some ht
    simp only [updateLevelNode_name]
    exact this

theorem getTankById_exampleTanks :
    getTankById exampleTanks "TQ-01" = some (createTankFromData exampleTank) := by
  simp [getTankById, exampleTanks, createTanks, createTankFromData, exampleTank]

theorem exampleTank_known :
    lookupKey _tankConfig.types
      (jsOr (some (createTankFromData exampleTank).metadata.equipmentType) "standard")
      ≠ Lookup.undefined := by
  simp [createTankFromData, exampleTank, jsOr, lookupKey, _tankConfig.types, List.lookup]

/-- C1, evaluated on the code: on the tank built from the record `TQ-01` (type standard),
`updateProductLevel('TQ-01', -0.5)` leaves `metadata.data.level` at -0.5, not at the
clamped value 0, and `updateProductLevel('TQ-01', 1.7)` leaves it at 1.7, not at 1; only an
in-range level such as 0.5 reads back as its clamped value. -/
theorem updateProductLevel_stores_level_unclamped :
    readLevel (updateProductLevel exampleTanks "TQ-01" (-1 / 2)).state "TQ-01" = some (-1 / 2)
    ∧ readLevel (updateProductLevel exampleTanks "TQ-01" (-1 / 2)).state "TQ-01"
        ≠ some (clamp01 (-1 / 2))
    ∧ readLevel (updateProductLevel exampleTanks "TQ-01" (17 / 10)).state "TQ-01" = some (17 / 10)
    ∧ readLevel (updateProductLevel exampleTanks "TQ-01" (17 / 10)).state "TQ-01"
        ≠ some (clamp01 (17 / 10))
    ∧ readLevel (updateProductLevel exampleTanks "TQ-01" (1 / 2)).state "TQ-01"
        = some (clamp01 (1 / 2)) := by
  have h := fun level =>
    (readLevel_updateProductLevel exampleTanks "TQ-01" level _ getTankById_exampleTanks
      exampleTank_known).1
  refine ⟨h _, ?_, h _, ?_, ?_⟩
  · rw [h]; norm_num [clamp01]
  · rw [h]; norm_num [clamp01]
  · rw [h]; norm_num [clamp01]

end TanksManager

/-! ## Valve state changes -/

namespace ValvesManager

theorem changeStateNode_name (v : ValveNode) (id s : String) (a : Bool) :
    (changeStateNode v id s a).name = v.name := by
  unfold changeStateNode
  split <;> rfl

theorem changeStateNode_valveType (v : ValveNode) (id s : String) (a : Bool) :
    (changeStateNode v id s a).metadata.valveType = v.metadata.valveType := by
  unfold changeStateNode
  split <;> rfl

theorem changeStateNode_idem (v : ValveNode) (id s : String) (a : Bool) :
    changeStateNode (changeStateNode v id s a) id s a = changeStateNode v id s a := by
  unfold changeStateNode
  split
  · rfl
  · cases a <;> dsimp only <;> split <;> simp_all

theorem changeValveState_eq (valves : List ValveNode) (id s : String) (a : Bool)
    (v : ValveNode) (hv : getValveById valves id = some v) :
    (changeValveState valves id s a).state
      = modifyFirst (fun v => v.name == id) (fun v => changeStateNode v id s a) valves := by
  unfold getValveById at hv
  simp [changeValveState, hv]

theorem getValveById_changeValveState (valves : List ValveNode) (id s : String) (a : Bool) :
    getValveById (changeValveState valves id s a).state id
      = (getValveById valves id).map fun v => changeStateNode v id s a := by
  cases hv : getValveById valves id with
  | none =>
    unfold getValveById at hv
    simp [changeValveState, hv, getValveById]
  | some v =>
    rw [changeValveState_eq valves id s a v hv]
    unfold getValveById at hv ⊢
    rw [find?_modifyFirst _ _ (fun x hx => by simpa [changeStateNode_name] using hx), hv]

theorem getValveById_of_mem (valves : List ValveNode) (id : String)
    (h : id ∈ valves.map (·.name)) : ∃ v, getValveById valves id = some v := by
  cases hv : getValveById valves id with
  | some v => exact ⟨v, rfl⟩
  | none =>
    obtain ⟨x, hx, rfl⟩ := List.mem_map.mp h
    have := List.find?_eq_none.mp hv x hx
    simp at this

/-- The part of C2 that holds: an id that is not registered, or a state for which the
read `_valveConfig.states[newState]` gives `undefined`, leaves the registry as it was,
and the call returns normally. -/
theorem changeValveState_rejected (valves : List ValveNode) (id s : String) (a : Bool)
    (h : getValveById valves id = none ∨ lookupKey _valveConfig.states s = Lookup.undefined) :
    (changeValveState valves id s a).state = valves
    ∧ (changeValveState valves id s a).thrown = none := by
  constructor
  · cases hv : getValveById valves id with
    | none =>
      unfold getValveById at hv
      simp [changeValveState, hv]
    | some v =>
      rcases h with h | h
      · rw [hv] at h; cases h
      · rw [changeValveState_eq valves id s a v hv]
        exact modifyFirst_id _ _ (fun x _ => by unfold changeStateNode; rw [h]) _
  · unfold changeValveState; split <;> rfl

/-- C2, evaluated on the code: `'constructor'` is none of the five states, yet
`_valveConfig.states['constructor']` is truthy, so `changeValveState('XV-1', 'constructor')`
passes the validity check and rewrites the registered valve: its state and record state
become `'constructor'` and both indicator colours become `undefined`. -/
theorem changeValveState_accepts_inherited_key :
    "constructor" ∉ knownStates
    ∧ (getValveById exampleValves "XV-1").map (·.metadata.state) = some "closed"
    ∧ (getValveById (changeValveState exampleValves "XV-1" "constructor").state "XV-1").map
        (·.metadata.state) = some "constructor"
    ∧ (getValveById (changeValveState exampleValves "XV-1" "constructor").state "XV-1").map
        (·.metadata.data.state) = some (some "constructor")
    ∧ (getValveById exampleValves "XV-1").map
        (·.metadata.components.stateIndicator.material.diffuseColor)
        = some (some ⟨7 / 10, 1 / 10, 1 / 10⟩)
    ∧ (getValveById (changeValveState exampleValves "XV-1" "constructor").state "XV-1").map
        (·.metadata.components.stateIndicator.material.diffuseColor) = some none
    ∧ (getValveById (changeValveState exampleValves "XV-1" "constructor").state "XV-1").map
        (·.metadata.components.stateIndicator.material.emissiveColor) = some none := by
  refine ⟨by decide, ?_, ?_, ?_, ?_, ?_, ?_⟩ <;> rfl

theorem knownStates_lookup (s : String) (hs : s ∈ knownStates) :
    ∃ cfg, lookupKey _valveConfig.states s = Lookup.own cfg
      ∧ _valveConfig.states.lookup s = some cfg ∧ cfg.wheelRotation = expectedAngle s := by
  simp only [knownStates, List.mem_cons, List.mem_singleton, List.not_mem_nil, or_false] at hs
  rcases hs with rfl | rfl | rfl | rfl | rfl <;>
    exact ⟨_, rfl, rfl, by simp [expectedAngle]⟩

theorem changeStateNode_own (v : ValveNode) (id s : String) (cfg : ValveStateConfig)
    (h : lookupKey _valveConfig.states s = Lookup.own cfg) :
    (changeStateNode v id s false).metadata.state = s
    ∧ (changeStateNode v id s false).metadata.data.state = some s
    ∧ (changeStateNode v id s false).metadata.components.stateIndicator.material.diffuseColor
        = some cfg.color
    ∧ (changeStateNode v id s false).metadata.components.stateIndicator.material.emissiveColor
        = some cfg.color
    ∧ wheelAngle (changeStateNode v id s false) = some cfg.wheelRotation := by
  unfold wheelAngle
  rw [changeStateNode_valveType]
  unfold changeStateNode
  rw [h]
  by_cases hz : turnsAboutZ v.metadata.valveType = true <;>
    simp [hz, configColor, configRotation]

/-- C3: for an id under which a valve is registered and a state `s` among open, closed, partial,
maintenance and fault, after `changeValveState(id, s, false)` the valve registered under
`id` has `metadata.state` and record state `s`, its indicator has diffuse and emissive
colour equal to the configured colour of `s`, and its wheel is turned, about Z for ball and
butterfly valves and about X for every other type, to the configured angle of `s`, which is
pi/2 for open, pi/4 for partial and 0 for the other three; the call returns normally. -/
theorem changeValveState_applies_state (valves : List ValveNode) (id s : String)
    (hv : id ∈ valves.map (·.name)) (hs : s ∈ knownStates) :
    ∃ cfg v', _valveConfig.states.lookup s = some cfg
      ∧ getValveById (changeValveState valves id s false).state id = some v'
      ∧ v'.metadata.state = s
      ∧ v'.metadata.data.state = some s
      ∧ v'.metadata.components.stateIndicator.material.diffuseColor = some cfg.color
      ∧ v'.metadata.components.stateIndicator.material.emissiveColor = some cfg.color
      ∧ wheelAngle v' = some cfg.wheelRotation
      ∧ cfg.wheelRotation = expectedAngle s
      ∧ (changeValveState valves id s false).thrown = none := by
  obtain ⟨v, hv⟩ := getValveById_of_mem valves id hv
  obtain ⟨cfg, h1, h2, h3⟩ := knownStates_lookup s hs
  obtain ⟨a, b, c, d, e⟩ := changeStateNode_own v id s cfg h1
  refine ⟨cfg, changeStateNode v id s false, h2, ?_, a, b, c, d, e, h3, ?_⟩
  · rw [getValveById_changeValveState, hv]; rfl
  · unfold changeValveState; split <;> rfl

/-- Witness of C3 on the registry holding the closed gate valve `XV-1`, opened. -/
theorem changeValveState_applies_state_witness :
    "XV-1" ∈ exampleValves.map (·.name) ∧ "open" ∈ knownStates ∧
    ∃ cfg v', _valveConfig.states.lookup "open" = some cfg
      ∧ getValveById (changeValveState exampleValves "XV-1" "open" false).state "XV-1" = some v'
      ∧ v'.metadata.state = "open"
      ∧ v'.metadata.data.state = some "open"
      ∧ v'.metadata.components.stateIndicator.material.diffuseColor = some cfg.color
      ∧ v'.metadata.components.stateIndicator.material.emissiveColor = some cfg.color
      ∧ wheelAngle v' = some cfg.wheelRotation
      ∧ cfg.wheelRotation = expectedAngle "open"
      ∧ (changeValveState exampleValves "XV-1" "open" false).thrown = none :=
  ⟨by decide, by decide,
    changeValveState_applies_state exampleValves "XV-1" "open" (by decide) (by decide)⟩

/-- C4: for every registry, id, state and animation flag, calling `changeValveState` twice
in a row leaves the registry (state, record state, indicator colours, wheel rotation and the
animation attached to the wheel with its target angle) as calling it once does. -/
theorem changeValveState_idempotent (valves : List ValveNode) (id s : String) (a : Bool) :
    (changeValveState (changeValveState valves id s a).state id s a).state
      = (changeValveState valves id s a).state := by
  cases hv : getValveById valves id with
  | none =>
    unfold getValveById at hv
    simp [changeValveState, hv]
  | some v =>
    have h1 := getValveById_changeValveState valves id s a
    rw [hv] at h1
    rw [changeValveState_eq _ id s a _ h1, changeValveState_eq valves id s a v hv,
      modifyFirst_modifyFirst _ _ _ (fun x hx => by simpa [changeStateNode_name] using hx)]
    exact modifyFirst_congr _ _ _ (fun x _ => changeStateNode_idem x id s a) _

end ValvesManager

/-! ## Loading areas -/

namespace LoadingAreasManager

theorem areaStateNode_name (a : AreaNode) (s : String) (b : ChildrenWithName) :
    (changeStateNode a s b).state.name = a.name := by
  unfold changeStateNode
  split
  · rfl
  · cases b <;> rfl

theorem areaStateNode_throws (a : AreaNode) (s : String) (b : ChildrenWithName)
    (hs : lookupKey _loadingAreaConfig.states s ≠ Lookup.undefined)
    (hb : b ≠ ChildrenWithName.notFound) :
    (changeStateNode a s b).state.metadata.state = a.metadata.state
    ∧ (changeStateNode a s b).thrown ≠ none := by
  unfold changeStateNode
  split
  · rename_i h; exact absurd h hs
  · cases b
    · exact ⟨rfl, by simp⟩
    · exact ⟨rfl, by simp⟩
    · exact absurd rfl hb

theorem changeAreaState_throws (areas : List AreaNode) (id s : String) (b : ChildrenWithName)
    (a : AreaNode) (ha : getLoadingAreaById areas id = some a)
    (hs : lookupKey _loadingAreaConfig.states s ≠ Lookup.undefined)
    (hb : b ≠ ChildrenWithName.notFound) :
    stateOf (changeAreaState areas id s b).state id = some a.metadata.state
    ∧ (changeAreaState areas id s b).thrown ≠ none := by
  unfold getLoadingAreaById at ha
  unfold stateOf getLoadingAreaById changeAreaState
  simp only [ha]
  refine ⟨?_, (areaStateNode_throws a s b hs hb).2⟩
  rw [find?_modifyFirst, ha]
  · simp [(areaStateNode_throws a s b hs hb).1]
  · intro x _
    have := List.find?_some ha
    simp only [areaStateNode_name]
    exact this

/-- When the backend has no `getChildrenWithName`, or has it and returns the point light,
`simulateLoading` on an area whose state calls for a transition (available when starting,
loading when stopping) ends with an exception and the state of the area is what it was. -/
theorem simulateLoading_throws (areas : List AreaNode) (id : String) (active : Bool)
    (b : ChildrenWithName) (a : AreaNode) (ha : getLoadingAreaById areas id = some a)
    (hs : a.metadata.state = if active then "available" else "loading")
    (hb : b ≠ ChildrenWithName.notFound) :
    stateOf (simulateLoading areas id active b).state id = some a.metadata.state
    ∧ (simulateLoading areas id active b).thrown ≠ none := by
  have ha' := ha
  unfold getLoadingAreaById at ha'
  unfold simulateLoading
  simp only [ha']
  cases active
  · simp only [Bool.false_eq_true, if_false] at hs ⊢
    rw [if_pos hs]
    exact changeAreaState_throws _ id "available" b
      { a with metadata := { a.metadata with
          components := { a.metadata.components with
            loadingArms := stopHoses a.metadata.components.loadingArms } } }
      (by unfold getLoadingAreaById
          rw [find?_modifyFirst _ _ (fun x hx => by simpa using hx), ha']
          rfl) (by decide) hb
  · simp only [if_true] at hs ⊢
    rw [if_pos hs]
    exact changeAreaState_throws _ id "loading" b
      { a with metadata := { a.metadata with
          components := { a.metadata.components with
            loadingArms := startHoses id 0 a.metadata.components.loadingArms } } }
      (by unfold getLoadingAreaById
          rw [find?_modifyFirst _ _ (fun x hx => by simpa using hx), ha']
          rfl) (by decide) hb

/-- The part of C5 that holds: from any other state (maintenance, unavailable, fault, ...)
`simulateLoading` leaves the state of the area unchanged and returns normally. -/
theorem simulateLoading_keeps_other_state (areas : List AreaNode) (id : String) (active : Bool)
    (b : ChildrenWithName) (a : AreaNode) (ha : getLoadingAreaById areas id = some a)
    (hs : a.metadata.state ≠ if active then "available" else "loading") :
    stateOf (simulateLoading areas id active b).state id = some a.metadata.state
    ∧ (simulateLoading areas id active b).thrown = none := by
  unfold getLoadingAreaById at ha
  unfold simulateLoading stateOf getLoadingAreaById
  simp only [ha]
  cases active
  · simp only [Bool.false_eq_true, if_false] at hs ⊢
    rw [if_neg hs]
    refine ⟨?_, rfl⟩
    rw [find?_modifyFirst _ _ (fun x hx => by simpa using hx), ha]
    rfl
  · simp only [if_true] at hs ⊢
    rw [if_neg hs]
    refine ⟨?_, rfl⟩
    rw [find?_modifyFirst _ _ (fun x hx => by simpa using hx), ha]
    rfl

/-- C5, evaluated on the code: on the available truck bay `BAY-1`,
`simulateLoading('BAY-1', true)` does not reach the state update. When the backend node has
no `getChildrenWithName` the call ends at line 904 with a `TypeError`; when it has one and
returns the point light the call ends at line 916 with a `ReferenceError` on `scene`. In
both cases the state of the area is still `available`, not `loading`. -/
theorem simulateLoading_throws_before_state_update :
    stateOf exampleAreas "BAY-1" = some "available"
    ∧ stateOf (simulateLoading exampleAreas "BAY-1" true ChildrenWithName.methodMissing).state
        "BAY-1" = some "available"
    ∧ (simulateLoading exampleAreas "BAY-1" true ChildrenWithName.methodMissing).thrown
        = some (JsError.typeError "stateIndicator.getChildrenWithName is not a function")
    ∧ stateOf (simulateLoading exampleAreas "BAY-1" true ChildrenWithName.found).state
        "BAY-1" = some "available"
    ∧ (simulateLoading exampleAreas "BAY-1" true ChildrenWithName.found).thrown
        = some (JsError.referenceError "scene is not defined") := by
  refine ⟨?_, ?_, ?_, ?_, ?_⟩ <;> rfl

/-- C6 as stated fails: after `addLoadingArea` was called twice with the record `BAY-1`,
`removeLoadingArea('BAY-1')` removes the first entry only and `getLoadingAreaById('BAY-1')`
still finds an area. -/
theorem removeLoadingArea_leaves_duplicate :
    getLoadingAreaById (removeLoadingArea duplicateAreas "BAY-1") "BAY-1" ≠ none := by
  decide

/-- C6, amended: when at most one area is registered under `id`, after
`removeLoadingArea(id)` the lookup `getLoadingAreaById(id)` returns null, and a subsequent
`simulateLoading(id, active)` returns without throwing and leaves the registry as it is,
whatever the backend does. -/
theorem removeLoadingArea_then_not_found (areas : List AreaNode) (id : String) (active : Bool)
    (backend : ChildrenWithName) (h : areas.countP (fun a => a.name == id) ≤ 1) :
    getLoadingAreaById (removeLoadingArea areas id) id = none
    ∧ (simulateLoading (removeLoadingArea areas id) id active backend).state
        = removeLoadingArea areas id
    ∧ (simulateLoading (removeLoadingArea areas id) id active backend).thrown = none := by
  have h1 : (removeLoadingArea areas id).find? (fun a => a.name == id) = none :=
    find?_eraseP_of_countP_le_one _ _ h
  refine ⟨h1, ?_, ?_⟩ <;> simp [simulateLoading, h1]

/-- Witness of C6, amended, on the registry holding `BAY-1` once. -/
theorem removeLoadingArea_then_not_found_witness :
    exampleAreas.countP (fun a => a.name == "BAY-1") ≤ 1
    ∧ getLoadingAreaById (removeLoadingArea exampleAreas "BAY-1") "BAY-1" = none
    ∧ (simulateLoading (removeLoadingArea exampleAreas "BAY-1") "BAY-1" true
        ChildrenWithName.found).state = removeLoadingArea exampleAreas "BAY-1"
    ∧ (simulateLoading (removeLoadingArea exampleAreas "BAY-1") "BAY-1" true
        ChildrenWithName.found).thrown = none :=
  ⟨by decide,
    removeLoadingArea_then_not_found exampleAreas "BAY-1" true ChildrenWithName.found
      (by decide)⟩

end LoadingAreasManager

/-! ## Building the registries -/

theorem forEachCreate_count {N R : Type} (create : List N → R → Outcome (List N))
    (name : N → String) (rid : R → String)
    (h : ∀ s r x, ((create s r).state.map name).count x
      ≤ (s.map name).count x + [rid r].count x) :
    ∀ (rs : List R) (s : List N) (x : String),
      ((forEachCreate create s rs).state.map name).count x
        ≤ (s.map name).count x + (rs.map rid).count x := by
  intro rs
  induction rs with
  | nil => intro s x; simp [forEachCreate]
  | cons r rs ih =>
    intro s x
    have h1 := h s r x
    have h2 := ih (create s r).state x
    have h3 : ((r :: rs).map rid).count x = [rid r].count x + (rs.map rid).count x := by
      rw [List.map_cons, ← List.count_append]; rfl
    unfold forEachCreate
    split
    · omega
    · dsimp only; omega

theorem ValvesManager.createValveFromData_count (s : List ValvesManager.ValveNode)
    (r : ValvesManager.ValveData) (x : String) :
    ((ValvesManager.createValveFromData s r).state.map (·.name)).count x
      ≤ (s.map (·.name)).count x + [r.id].count x := by
  unfold ValvesManager.createValveFromData
  dsimp only
  split
  · simp
  · split
    · simp
    · simp [List.count_append]

theorem LoadingAreasManager.createLoadingAreaFromData_count
    (s : List LoadingAreasManager.AreaNode) (r : LoadingAreasManager.AreaData) (x : String) :
    ((LoadingAreasManager.createLoadingAreaFromData s r).state.map (·.name)).count x
      ≤ (s.map (·.name)).count x + [r.id].count x := by
  unfold LoadingAreasManager.createLoadingAreaFromData
  dsimp only
  split
  · simp
  · split
    · simp
    · simp [List.count_append]

/-- A record with a position and a type that does not resolve to an inherited member is
appended as a new entry, whether or not its id is already registered. -/
theorem ValvesManager.addValve_appends_entry (s : List ValvesManager.ValveNode)
    (r : ValvesManager.ValveData) (hp : r.position ≠ none)
    (ht : lookupKey ValvesManager._valveConfig.types (jsOr r.type "gate") ≠ Lookup.inherited) :
    ((ValvesManager.addValve s r).state.map (·.name)) = s.map (·.name) ++ [r.id]
    ∧ (ValvesManager.addValve s r).thrown = none := by
  unfold ValvesManager.addValve ValvesManager.createValveFromData
  dsimp only
  split
  · rename_i h; exact absurd h hp
  · split
    · rename_i h; exact absurd h ht
    · simp

/-- A record without a position at the head of a batch ends the batch: nothing of the
batch is registered and the promise is rejected with the `TypeError`. -/
theorem ValvesManager.createValves_head_without_position (s : List ValvesManager.ValveNode)
    (r : ValvesManager.ValveData) (rest : List ValvesManager.ValveData)
    (hp : r.position = none) :
    (ValvesManager.createValves true s (r :: rest)).state = s
    ∧ (ValvesManager.createValves true s (r :: rest)).thrown
        = some (JsError.typeError "valveData.position is undefined") := by
  have h : ValvesManager.createValveFromData s r
      = ⟨s, some (JsError.typeError "valveData.position is undefined")⟩ := by
    unfold ValvesManager.createValveFromData
    simp [hp]
  simp [ValvesManager.createValves, forEachCreate, h]

namespace PipesManager

theorem createPipeFromData_names (s : List PipeNode) (r : PipeData) :
    (createPipeFromData s r).map (·.name)
      = s.map (·.name) ++ if hasTwoPoints r then [r.id] else [] := by
  unfold createPipeFromData hasTwoPoints
  split
  · simp
  · split
    · rename_i h; simp [Nat.not_le.mpr h]
    · rename_i h; simp [Nat.not_lt.mp h]

theorem foldl_createPipeFromData_names (rs : List PipeData) (s : List PipeNode) :
    (rs.foldl createPipeFromData s).map (·.name)
      = s.map (·.name) ++ (rs.filter hasTwoPoints).map (·.id) := by
  induction rs generalizing s with
  | nil => simp
  | cons r rs ih =>
    rw [List.foldl_cons, ih, createPipeFromData_names]
    by_cases h : hasTwoPoints r = true <;> simp [h, List.filter_cons]

/-- C8: for every list of pipe records, `createPipes` on an empty registry (the pipes group
being present) registers exactly the records that have at least two points, in input
order: the registered names are the ids of the input filtered to those records, their
number is the number of such records, and the build returns normally. -/
theorem createPipes_registers_valid_records (records : List PipeData) :
    (createPipes true [] records).state.map (·.name)
        = (records.filter hasTwoPoints).map (·.id)
    ∧ (createPipes true [] records).state.length = records.countP hasTwoPoints
    ∧ (createPipes true [] records).thrown = none := by
  have h := foldl_createPipeFromData_names records []
  simp only [List.map_nil, List.nil_append] at h
  refine ⟨h, ?_, rfl⟩
  have := congrArg List.length h
  simpa [List.countP_eq_length_filter] using this

end PipesManager

/-- C9, evaluated on the code: `createValves` on the records `XV-1`, `XV-0` (no position),
`XV-2` registers `XV-1` only: `createValveFromData` throws a `TypeError` on `XV-0`, the
`forEach` loop ends, the promise is rejected and `XV-2` is never built, although it is
built when `XV-0` is left out. `createLoadingAreas` behaves the same way. -/
theorem createValves_aborts_at_missing_position :
    (ValvesManager.createValves true [] [exampleValve, valveWithoutPosition, secondValve]).state.map
        (·.name) = ["XV-1"]
    ∧ (ValvesManager.createValves true [] [exampleValve, valveWithoutPosition, secondValve]).thrown
        = some (JsError.typeError "valveData.position is undefined")
    ∧ (ValvesManager.createValves true [] [exampleValve, secondValve]).state.map (·.name)
        = ["XV-1", "XV-2"]
    ∧ (LoadingAreasManager.createLoadingAreas true []
        [exampleArea, areaWithoutPosition, secondArea]).state.map (·.name) = ["BAY-1"]
    ∧ (LoadingAreasManager.createLoadingAreas true []
        [exampleArea, areaWithoutPosition, secondArea]).thrown
        = some (JsError.typeError "areaData.position is undefined") := by
  refine ⟨?_, ?_, ?_, ?_, ?_⟩ <;> rfl

theorem build_count (w : World) (op : BuildOp) (x : String) :
    (w.build op).registeredIds.count x ≤ w.registeredIds.count x + op.ids.count x := by
  cases op with
  | createTankFromData r =>
    have hn : (TanksManager.createTankFromData r).name = r.id := rfl
    simp only [World.build, World.registeredIds, BuildOp.ids, List.map_append, List.map_cons,
      List.map_nil, List.count_append, hn]
    omega
  | addPipe r =>
    have := PipesManager.createPipeFromData_names w.pipes r
    simp only [World.build, World.registeredIds, BuildOp.ids, List.count_append,
      PipesManager.addPipe, this]
    split
    · omega
    · simp
  | addValve r =>
    have := ValvesManager.createValveFromData_count w.valves r x
    simp only [World.build, World.registeredIds, BuildOp.ids, List.count_append,
      ValvesManager.addValve]
    omega
  | addLoadingArea r =>
    have := LoadingAreasManager.createLoadingAreaFromData_count w.areas r x
    simp only [World.build, World.registeredIds, BuildOp.ids, List.count_append,
      LoadingAreasManager.addLoadingArea]
    omega
  | createTanks g rs =>
    cases g
    · simp [World.build, World.registeredIds, TanksManager.createTanks]
    · have : (rs.map TanksManager.createTankFromData).map (·.name) = rs.map (·.id) := by
        simp [TanksManager.createTankFromData]
      simp only [World.build, World.registeredIds, BuildOp.ids, List.count_append,
        TanksManager.createTanks, if_true, List.map_append, this]
      omega
  | createPipes g rs =>
    cases g
    · simp [World.build, World.registeredIds, PipesManager.createPipes]
    · have h1 := PipesManager.foldl_createPipeFromData_names rs w.pipes
      have h2 : ((rs.filter PipesManager.hasTwoPoints).map (·.id)).count x
          ≤ (rs.map (·.id)).count x :=
        List.Sublist.count_le ((List.filter_sublist rs).map _) x
      simp only [World.build, World.registeredIds, BuildOp.ids, List.count_append,
        PipesManager.createPipes, if_true, h1]
      omega
  | createValves g rs =>
    cases g
    · simp [World.build, World.registeredIds, ValvesManager.createValves]
    · have := forEachCreate_count ValvesManager.createValveFromData (·.name) (·.id)
        ValvesManager.createValveFromData_count rs w.valves x
      simp only [World.build, World.registeredIds, BuildOp.ids, List.count_append,
        ValvesManager.createValves, if_true]
      omega
  | createLoadingAreas g rs =>
    cases g
    · simp [World.build, World.registeredIds, LoadingAreasManager.createLoadingAreas]
    · have := forEachCreate_count LoadingAreasManager.createLoadingAreaFromData (·.name) (·.id)
        LoadingAreasManager.createLoadingAreaFromData_count rs w.areas x
      simp only [World.build, World.registeredIds, BuildOp.ids, List.count_append,
        LoadingAreasManager.createLoadingAreas, if_true]
      omega

theorem buildAll_count (ops : List BuildOp) (w : World) (x : String) :
    (w.buildAll ops).registeredIds.count x
      ≤ w.registeredIds.count x + (ops.flatMap BuildOp.ids).count x := by
  induction ops generalizing w with
  | nil => simp [World.buildAll]
  | cons op ops ih =>
    have h1 := build_count w op x
    have h2 := ih (w.build op)
    simp only [World.buildAll, List.foldl_cons, List.flatMap_cons, List.count_append] at h2 ⊢
    omega

/-- C7 as stated fails: `addValve` called twice with the record `XV-1` on empty registries
leaves two entries registered under `XV-1`. -/
theorem addValve_twice_registers_duplicate :
    (World.buildAll {} [BuildOp.addValve exampleValve, BuildOp.addValve exampleValve]).registeredIds
        = ["XV-1", "XV-1"]
    ∧ ¬ (World.buildAll {}
        [BuildOp.addValve exampleValve, BuildOp.addValve exampleValve]).registeredIds.Nodup := by
  constructor <;> decide

/-- C7, amended: in every state built from empty registries by build and add operations
whose records carry pairwise distinct ids, no two registered entities share an id, within
one kind or across kinds. -/
theorem registeredIds_nodup_of_distinct_records (ops : List BuildOp)
    (h : (ops.flatMap BuildOp.ids).Nodup) :
    ((World.buildAll {} ops).registeredIds).Nodup := by
  rw [List.nodup_iff_count_le_one] at h ⊢
  intro x
  have h1 := buildAll_count ops {} x
  have h0 : (World.registeredIds {}).count x = 0 := by simp [World.registeredIds]
  have h2 := h x
  omega

/-- Witness of C7, amended: a tank, a valve batch and a loading area with distinct ids. -/
theorem registeredIds_nodup_of_distinct_records_witness :
    ([BuildOp.createTankFromData exampleTank,
        BuildOp.createValves true [exampleValve, secondValve],
        BuildOp.addLoadingArea exampleArea].flatMap BuildOp.ids).Nodup
    ∧ ((World.buildAll {}
        [BuildOp.createTankFromData exampleTank,
          BuildOp.createValves true [exampleValve, secondValve],
          BuildOp.addLoadingArea exampleArea]).registeredIds).Nodup :=
  ⟨by decide, registeredIds_nodup_of_distinct_records _ (by decide)⟩

/-! ## Removal and the picker -/

theorem mem_map_eraseP_of_ne {α : Type} (name : α → String) (l : List α) (id n : String)
    (hn : n ∈ l.map name) (hne : n ≠ id) :
    n ∈ (l.eraseP (fun a => name a == id)).map name := by
  obtain ⟨a, ha, rfl⟩ := List.mem_map.mp hn
  exact List.mem_map.mpr ⟨a, (List.mem_eraseP_of_neg (by simpa using hne)).mpr ha, rfl⟩

theorem detach_self (b : ObjectPicker.DisposeBackend) (kind id : String)
    (mesh : ObjectPicker.MeshHandle) : (ObjectPicker.detach b kind id mesh).self = mesh.self := by
  unfold ObjectPicker.detach
  split <;> rfl

theorem mem_of_mem_detach (b : ObjectPicker.DisposeBackend) (kind id : String)
    (mesh : ObjectPicker.MeshHandle) (o : ObjectPicker.SceneObject)
    (ho : o ∈ (ObjectPicker.detach b kind id mesh).self
      :: (ObjectPicker.detach b kind id mesh).ancestors) :
    o ∈ mesh.self :: mesh.ancestors := by
  unfold ObjectPicker.detach at ho
  split at ho
  · simp only [List.mem_singleton] at ho
    rw [ho]
    exact List.mem_cons_self _ _
  · exact ho

theorem detach_of_other (b : ObjectPicker.DisposeBackend) (kind id : String)
    (mesh : ObjectPicker.MeshHandle)
    (hother : ∀ o ∈ mesh.self :: mesh.ancestors, o.name ≠ id) :
    ObjectPicker.detach b kind id mesh = mesh := by
  have hd : ObjectPicker.disposedWith kind id mesh = false := by
    unfold ObjectPicker.disposedWith
    rw [List.any_eq_false]
    intro o ho
    have hne := hother o (List.mem_cons_of_mem _ ho)
    simp [hne]
  unfold ObjectPicker.detach
  simp [hd]

/-- What a removal leaves of a world: the picker is as it was or went through
`disposeEntity`, and every id other than the removed one is still registered. -/
theorem removal_cases (w : World) (b : ObjectPicker.DisposeBackend) (id : String)
    (w1 : World)
    (hw1 : w1 ∈ [w.removeValve b id, w.removePipe b id, w.removeLoadingArea b id]) :
    (w1.picker = w.picker ∨ ∃ kind, w1.picker = ObjectPicker.disposeEntity b kind id w.picker)
    ∧ ∀ n ∈ w.registeredIds, n ≠ id → n ∈ w1.registeredIds := by
  simp only [List.mem_cons, List.not_mem_nil, or_false] at hw1
  rcases hw1 with rfl | rfl | rfl
  · unfold World.removeValve
    split
    · refine ⟨Or.inr ⟨"valve", rfl⟩, ?_⟩
      intro n hn hne
      simp only [World.registeredIds, ValvesManager.removeValve, List.mem_append] at hn ⊢
      rcases hn with ((h | h) | h) | h
      · exact Or.inl (Or.inl (Or.inl h))
      · exact Or.inl (Or.inl (Or.inr h))
      · exact Or.inl (Or.inr (mem_map_eraseP_of_ne _ _ _ _ h hne))
      · exact Or.inr h
    · exact ⟨Or.inl rfl, fun n hn _ => hn⟩
  · unfold World.removePipe
    split
    · refine ⟨Or.inr ⟨"pipe", rfl⟩, ?_⟩
      intro n hn hne
      simp only [World.registeredIds, PipesManager.removePipe, List.mem_append] at hn ⊢
      rcases hn with ((h | h) | h) | h
      · exact Or.inl (Or.inl (Or.inl h))
      · exact Or.inl (Or.inl (Or.inr (mem_map_eraseP_of_ne _ _ _ _ h hne)))
      · exact Or.inl (Or.inr h)
      · exact Or.inr h
    · exact ⟨Or.inl rfl, fun n hn _ => hn⟩
  · unfold World.removeLoadingArea
    split
    · refine ⟨Or.inr ⟨"loadingArea", rfl⟩, ?_⟩
      intro n hn hne
      simp only [World.registeredIds, LoadingAreasManager.removeLoadingArea,
        List.mem_append] at hn ⊢
      rcases hn with ((h | h) | h) | h
      · exact Or.inl (Or.inl (Or.inl h))
      · exact Or.inl (Or.inl (Or.inr h))
      · exact Or.inl (Or.inr h)
      · exact Or.inr (mem_map_eraseP_of_ne _ _ _ _ h hne)
    · exact ⟨Or.inl rfl, fun n hn _ => hn⟩

/-- C10 as stated fails: with the valves `XV-1` and `XV-2` registered and the body mesh of
`XV-1` selected, the selection belongs to a registered entity; after `removeValve('XV-1')`,
whatever the backend does to a disposed mesh, the picker still holds that mesh and
`Terminal3D.selectedObjectId` is still 'XV-1', while only `XV-2` is registered. -/
theorem removeValve_leaves_stale_selection :
    twoValvesSelected.selectionLive = true
    ∧ ∀ b : ObjectPicker.DisposeBackend,
        (twoValvesSelected.removeValve b "XV-1").picker._selectedObject.map (·.self.name)
          = some "XV-1_body"
        ∧ (twoValvesSelected.removeValve b "XV-1").picker.selectedObjectId = some "XV-1"
        ∧ (twoValvesSelected.removeValve b "XV-1").registeredIds = ["XV-2"]
        ∧ (twoValvesSelected.removeValve b "XV-1").selectionLive = false := by
  refine ⟨by decide, ?_⟩
  rintro ⟨d, c⟩
  cases d <;> cases c <;> decide

/-- C10, amended: `removeValve`, `removePipe` and `removeLoadingArea` dispose the nodes of
the entity and splice the registry; they do not assign the picker's selection. For every
world in which a mesh is selected, every id and whatever the backend does to a disposed
mesh, after each of the three removals the picker's selected object is still that mesh,
`Terminal3D.selectedObjectId` is what it was and no event has been dispatched. When the
removal leaves no node of the mesh's parent chain registered, as after the removal of the
selected entity, the selected object belongs to no registered entity. When no node of the
chain is named `id`, the selected object is unchanged and still belongs to a registered
entity if it did. -/
theorem remove_keeps_selected_mesh (w : World) (b : ObjectPicker.DisposeBackend) (id : String)
    (mesh : ObjectPicker.MeshHandle) (hsel : w.picker._selectedObject = some mesh) :
    ∀ w1 ∈ [w.removeValve b id, w.removePipe b id, w.removeLoadingArea b id],
      w1.picker._selectedObject.map (·.self) = some mesh.self
      ∧ w1.picker.selectedObjectId = w.picker.selectedObjectId
      ∧ w1.picker.events = w.picker.events
      ∧ ((∀ o ∈ mesh.self :: mesh.ancestors, o.name ∉ w1.registeredIds) →
          w1.selectionLive = false)
      ∧ ((∀ o ∈ mesh.self :: mesh.ancestors, o.name ≠ id) →
          w1.picker._selectedObject = some mesh
          ∧ (w.belongsToRegistered mesh = true → w1.belongsToRegistered mesh = true)) := by
  intro w1 hw1
  obtain ⟨hpicker, hids⟩ := removal_cases w b id w1 hw1
  have hbelongs : (∀ o ∈ mesh.self :: mesh.ancestors, o.name ≠ id) →
      w.belongsToRegistered mesh = true → w1.belongsToRegistered mesh = true := by
    intro hother hlive
    simp only [World.belongsToRegistered, List.any_eq_true, decide_eq_true_eq] at hlive ⊢
    obtain ⟨o, ho, hmem⟩ := hlive
    exact ⟨o, ho, hids o.name hmem (hother o ho)⟩
  have hstale : ∀ m : ObjectPicker.MeshHandle,
      (∀ o ∈ m.self :: m.ancestors, o ∈ mesh.self :: mesh.ancestors) →
      w1.picker._selectedObject = some m →
      (∀ o ∈ mesh.self :: mesh.ancestors, o.name ∉ w1.registeredIds) →
      w1.selectionLive = false := by
    intro m hsub hm hnone
    unfold World.selectionLive
    rw [hm]
    simp only [World.belongsToRegistered, List.any_eq_false, decide_eq_true_eq]
    intro o ho
    exact hnone o (hsub o ho)
  rcases hpicker with hp | ⟨kind, hp⟩
  · have hs : w1.picker._selectedObject = some mesh := by rw [hp, hsel]
    refine ⟨by rw [hs]; rfl, by rw [hp], by rw [hp], hstale mesh (fun o ho => ho) hs, ?_⟩
    exact fun hother => ⟨hs, hbelongs hother⟩
  · have hs : w1.picker._selectedObject = some (ObjectPicker.detach b kind id mesh) := by
      rw [hp]
      simp only [ObjectPicker.disposeEntity, hsel, Option.map_some']
    refine ⟨?_, by rw [hp]; rfl, by rw [hp]; rfl,
      hstale _ (mem_of_mem_detach b kind id mesh) hs, ?_⟩
    · rw [hs]
      simp only [Option.map_some', detach_self]
    · intro hother
      refine ⟨?_, hbelongs hother⟩
      rw [hs, detach_of_other b kind id mesh hother]

/-- Witness of C10, amended: with the body of `XV-1` selected, on a backend whose
`dispose()` clears the parent of a mesh and drops it from the highlight layer,
`removeValve('XV-1')` leaves the picker holding the mesh `XV-1_body` of the removed valve,
and `removeValve('XV-2')` leaves the selection as it was, on a registered valve. -/
theorem remove_keeps_selected_mesh_witness :
    twoValvesSelected.picker._selectedObject = some (valveBodyHandle "XV-1" "XV-1_body")
    ∧ (twoValvesSelected.removeValve ⟨true, true⟩ "XV-1").picker._selectedObject.map (·.self)
        = some ⟨"XV-1_body", none⟩
    ∧ (twoValvesSelected.removeValve ⟨true, true⟩ "XV-1").selectionLive = false
    ∧ (twoValvesSelected.removeValve ⟨true, true⟩ "XV-2").picker._selectedObject
        = some (valveBodyHandle "XV-1" "XV-1_body")
    ∧ (twoValvesSelected.removeValve ⟨true, true⟩ "XV-2").belongsToRegistered
        (valveBodyHandle "XV-1" "XV-1_body") = true :=
  have h1 := remove_keeps_selected_mesh twoValvesSelected ⟨true, true⟩ "XV-1"
    (valveBodyHandle "XV-1" "XV-1_body") (by decide)
    (twoValvesSelected.removeValve ⟨true, true⟩ "XV-1") (List.mem_cons_self _ _)
  have h2 := remove_keeps_selected_mesh twoValvesSelected ⟨true, true⟩ "XV-2"
    (valveBodyHandle "XV-1" "XV-1_body") (by decide)
    (twoValvesSelected.removeValve ⟨true, true⟩ "XV-2") (List.mem_cons_self _ _)
  ⟨by decide, h1.1, h1.2.2.2.1 (by decide), (h2.2.2.2.2 (by decide)).1,
    (h2.2.2.2.2 (by decide)).2 (by decide)⟩

/-- What the picker answers after the selected valve was removed, on a backend whose
`dispose()` clears the parent of a mesh: `getSelectedObject` returns the disposed mesh and
`getSelectedObjectWithMetadata` returns nothing; a click on nothing then deselects. -/
theorem stale_selection_until_cleared :
    ObjectPicker.getSelectedObject (twoValvesSelected.removeValve ⟨true, true⟩ "XV-1").picker
      = some ⟨⟨"XV-1_body", none⟩, []⟩
    ∧ ObjectPicker.getSelectedObjectWithMetadata
        (twoValvesSelected.removeValve ⟨true, true⟩ "XV-1").picker = none
    ∧ ObjectPicker.getSelectedObjectWithMetadata
        (twoValvesSelected.removeValve ⟨false, false⟩ "XV-1").picker
        = some ⟨"XV-1", some ⟨"valve", "XV-1"⟩⟩
    ∧ (ObjectPicker.clearSelection
        (twoValvesSelected.removeValve ⟨true, true⟩ "XV-1").picker)._selectedObject = none := by
  decide

/-! ## Colour modes -/

namespace ColorMapper

theorem repaint_materialKey (c : JsColor) (keys : List String) (m : PaintMesh) :
    (repaint c keys m).materialKey = m.materialKey := by
  unfold repaint
  split
  · split <;> rfl
  · rfl

theorem repaint_name (c : JsColor) (keys : List String) (m : PaintMesh) :
    (repaint c keys m).name = m.name := by
  unfold repaint
  split
  · split <;> rfl
  · rfl

theorem repaint_cons (c : JsColor) (k : String) (keys : List String) (m : PaintMesh) :
    repaint c keys (if m.materialKey = some k then { m with color := c } else m) =
      repaint c (k :: keys) m := by
  unfold repaint
  cases hk : m.materialKey with
  | none => simp [hk]
  | some k2 =>
    by_cases h : k2 = k
    · subst h
      simp [hk]
    · simp [hk, h]

theorem repaint_repaint (c : JsColor) (keys : List String) (m : PaintMesh) :
    repaint c keys (repaint c keys m) = repaint c keys m := by
  unfold repaint
  cases hk : m.materialKey with
  | none => simp [hk]
  | some k =>
    by_cases h : k ∈ keys
    · simp [hk, h]
    · simp [hk, h]

/-- A mesh whose material is not among those written to is left as it is. -/
theorem repaint_of_not_mem (c : JsColor) (keys : List String) (m : PaintMesh)
    (h : ∀ k, m.materialKey = some k → k ∉ keys) : repaint c keys m = m := by
  unfold repaint
  cases hk : m.materialKey with
  | none => rfl
  | some k => simp [h k hk]

theorem foldl_setMaterial (c : JsColor) (main : List PaintMesh) (meshes : List PaintMesh) :
    main.foldl
      (fun meshes mesh =>
        match mesh.materialKey with
        | none => meshes
        | some key => setMaterial key (fun m => { m with color := c }) meshes)
      meshes = meshes.map (repaint c (main.filterMap (·.materialKey))) := by
  induction main generalizing meshes with
  | nil =>
    simp only [List.foldl_nil, List.filterMap_nil]
    conv_lhs => rw [← List.map_id meshes]
    apply List.map_congr_left
    intro m _
    unfold repaint
    cases m.materialKey <;> simp
  | cons x rest ih =>
    rw [List.foldl_cons, ih]
    cases hx : x.materialKey with
    | none => simp [List.filterMap_cons, hx]
    | some k =>
      simp only [setMaterial, List.map_map, List.filterMap_cons, hx]
      apply List.map_congr_left
      intro m _
      exact repaint_cons c k _ m

/-- The loop of `_applyColorToMeshes` in closed form: the meshes whose material is that of
some main mesh get the colour, the others stay. -/
theorem _applyColorToMeshes_meshes (n : SceneNode) (c : JsColor) :
    (_applyColorToMeshes n c).meshes = n.meshes.map (repaint c (paintedKeys n.meshes)) := by
  unfold _applyColorToMeshes paintedKeys
  exact foldl_setMaterial c _ _

theorem paintedKeys_map_repaint (c : JsColor) (keys : List String) (meshes : List PaintMesh) :
    paintedKeys (meshes.map (repaint c keys)) = paintedKeys meshes := by
  unfold paintedKeys
  induction meshes with
  | nil => rfl
  | cons m rest ih =>
    simp only [List.map_cons, List.filter_cons, repaint_name]
    split
    · simp only [List.filterMap_cons, repaint_materialKey]
      rw [ih]
    · exact ih

theorem _applyColorToMeshes_idem (n : SceneNode) (c : JsColor) :
    _applyColorToMeshes (_applyColorToMeshes n c) c = _applyColorToMeshes n c := by
  have h1 := _applyColorToMeshes_meshes (_applyColorToMeshes n c) c
  have h2 := _applyColorToMeshes_meshes n c
  rw [h2, paintedKeys_map_repaint, List.map_map] at h1
  have h3 : (repaint c (paintedKeys n.meshes) ∘ repaint c (paintedKeys n.meshes)) =
      repaint c (paintedKeys n.meshes) := by
    funext m
    exact repaint_repaint c _ m
  rw [h3, ← h2] at h1
  have hn : (_applyColorToMeshes (_applyColorToMeshes n c) c).name =
      (_applyColorToMeshes n c).name := rfl
  have hm : (_applyColorToMeshes (_applyColorToMeshes n c) c).metadata =
      (_applyColorToMeshes n c).metadata := rfl
  cases hA : _applyColorToMeshes (_applyColorToMeshes n c) c
  cases hB : _applyColorToMeshes n c
  simp_all

theorem _colorizeObject_name (n : SceneNode) (mode : String) :
    (_colorizeObject n mode).name = n.name := rfl

theorem _colorizeObject_idem (n : SceneNode) (mode : String) :
    _colorizeObject (_colorizeObject n mode) mode = _colorizeObject n mode := by
  unfold _colorizeObject
  exact _applyColorToMeshes_idem n _

/-- In product mode a node whose `metadata.data` names a product gets the colour
`_getColorForProduct` gives on every main mesh that has a material: tanks, valves and
loading areas keep their record under `data`. -/
theorem _colorizeObject_product_paints_main_meshes (n : SceneNode) (data : DataView)
    (product : String) (hdata : n.metadata.data = some data)
    (hproduct : data.product = some product) (hne : product ≠ "") :
    ∀ m ∈ (_colorizeObject n "product").meshes, isMainMesh m.name = true →
      m.materialKey.isSome = true → m.color = _getColorForProduct product := by
  intro m hm hmain hkey
  have hc : _colorizeObject n "product" = _applyColorToMeshes n (_getColorForProduct product) := by
    unfold _colorizeObject modeColor
    simp [hdata, hproduct, truthy, hne]
  rw [hc, _applyColorToMeshes_meshes] at hm
  obtain ⟨m0, hm0, rfl⟩ := List.mem_map.mp hm
  rw [repaint_name] at hmain
  rw [repaint_materialKey] at hkey
  obtain ⟨k, hk⟩ := Option.isSome_iff_exists.mp hkey
  have hmem : k ∈ paintedKeys n.meshes := by
    unfold paintedKeys
    exact List.mem_filterMap.mpr ⟨m0, List.mem_filter.mpr ⟨hm0, by simpa using hmain⟩, hk⟩
  unfold repaint
  simp [hk, hmem]

/-- A pipe node has neither `metadata.data` nor `metadata.state`, so in every mode it gets
the default colour of its type. -/
theorem _colorizeObject_pipe (p : PipesManager.PipeNode) (mode : String) :
    _colorizeObject (PipesManager.sceneNode p) mode =
      _applyColorToMeshes (PipesManager.sceneNode p) (_getDefaultColor p.metadata.type) := by
  unfold _colorizeObject modeColor
  by_cases h1 : mode = "product"
  · simp [h1, PipesManager.sceneNode]
  · by_cases h2 : mode = "status"
    · simp [h2, PipesManager.sceneNode, truthy]
    · by_cases h3 : mode = "temperature"
      · simp [h3, PipesManager.sceneNode]
      · simp [h1, h2, h3, PipesManager.sceneNode]

/-- C11 fails on pipes: the pipe PIPE-CONN-02 of the data set carries 'Gasolina' in its
record, the product scheme gives (0.8, 0.4, 0.1) for 'Gasolina' and the tank TQ-0002
holding 'Gasolina' is painted with it, but after `applyColorMode('product')` the segment
of the pipe has the default colour of pipes (0.5, 0.5, 0.5). -/
theorem applyColorMode_product_leaves_pipe_default :
    _getColorForProduct "Gasolina" = JsColor.color ⟨4 / 5, 2 / 5, 1 / 10⟩
    ∧ (TanksManager.getTankById exampleWorld.tanks "TQ-0002").map (·.metadata.data.product)
        = some (some "Gasolina")
    ∧ colorOf (applyColorMode exampleScene "product").tanks "TQ-0002" "TQ-0002_body"
        = some (JsColor.color ⟨4 / 5, 2 / 5, 1 / 10⟩)
    ∧ (PipesManager.getPipeById exampleWorld.pipes "PIPE-CONN-02").map
        (·.metadata.pipeData.product) = some (some "Gasolina")
    ∧ colorsOf (applyColorMode exampleScene "product") "PIPE-CONN-02"
        = some [JsColor.color ⟨1 / 2, 1 / 2, 1 / 2⟩] := by
  refine ⟨?_, ?_, ?_, ?_, ?_⟩ <;> decide!

/-- C12 fails: the status scheme is read with the status as written. 'operational' gives
(0.1, 0.7, 0.1) and 'OPERATIONAL' the default (0.3, 0.3, 0.3); so in status mode the tank
TQ-0002 (status 'operational') is painted green and the tank TQ-0003, the same record with
status 'OPERATIONAL', grey. -/
theorem getColorForStatus_is_case_sensitive :
    _getColorForStatus "operational" = JsColor.color ⟨1 / 10, 7 / 10, 1 / 10⟩
    ∧ _getColorForStatus "OPERATIONAL" = JsColor.color ⟨3 / 10, 3 / 10, 3 / 10⟩
    ∧ colorOf (applyColorMode exampleScene "status").tanks "TQ-0002" "TQ-0002_body"
        = some (JsColor.color ⟨1 / 10, 7 / 10, 1 / 10⟩)
    ∧ colorOf (applyColorMode exampleScene "status").tanks "TQ-0003" "TQ-0003_body"
        = some (JsColor.color ⟨3 / 10, 3 / 10, 3 / 10⟩) := by
  refine ⟨?_, ?_, ?_, ?_⟩ <;> decide!

/-- C13: for every rational temperature `t` the function `_getColorForTemperature` returns
the colour of the first range whose bound is at least `t`: (0, 0, 0.8) up to 0,
(0, 0.5, 0.8) up to 25, (0, 0.8, 0) up to 50, (0.8, 0.8, 0) up to 75, (0.8, 0.4, 0) up to
100 and (0.8, 0, 0) above. -/
theorem getColorForTemperature_piecewise (t : ℚ) :
    _getColorForTemperature (some t) =
      if t ≤ 0 then ⟨0, 0, 4 / 5⟩
      else if t ≤ 25 then ⟨0, 1 / 2, 4 / 5⟩
      else if t ≤ 50 then ⟨0, 4 / 5, 0⟩
      else if t ≤ 75 then ⟨4 / 5, 4 / 5, 0⟩
      else if t ≤ 100 then ⟨4 / 5, 2 / 5, 0⟩
      else ⟨4 / 5, 0, 0⟩ := by
  simp only [_getColorForTemperature, _colorSchemes.temperature.ranges, firstRange]
  split_ifs <;> rfl

/-- Where C14 holds: a key that is neither an own key of the scheme nor a property name of
`Object.prototype` gives the `default` entry of the scheme. -/
theorem schemeOrDefault_unknown (scheme : List (String × Color3)) (key : String) (c : Color3)
    (hdefault : scheme.lookup "default" = some c) (hown : scheme.lookup key = none)
    (hproto : key ∉ objectPrototypeKeys) : schemeOrDefault scheme key = JsColor.color c := by
  unfold schemeOrDefault lookupKey
  simp [hown, hproto, hdefault]

/-- Where C14 holds: a mode name that is neither a key of `_colorSchemes` nor a property
name of `Object.prototype` is replaced by `'default'`. -/
theorem applyColorMode_unknown (s : ColorState) (mode : String)
    (hown : _colorSchemes.modes.lookup mode = none) (hproto : mode ∉ objectPrototypeKeys) :
    applyColorMode s mode = applyColorMode s "default"
      ∧ getCurrentMode (applyColorMode s mode) = "default" := by
  have h : resolveMode mode = "default" := by
    unfold resolveMode lookupKey
    simp [hown, hproto]
  have h2 : resolveMode "default" = "default" := by decide
  unfold getCurrentMode applyColorMode
  rw [h, h2]
  exact ⟨rfl, rfl⟩

/-- C14 fails on the property names every object literal inherits: 'constructor' is a key
of no scheme and no mode name, yet `scheme['constructor']` is truthy, so the three lookups
return that member instead of the `default` entry, and `applyColorMode('constructor')`
leaves `getCurrentMode()` at 'constructor'. Ordinary unknown keys ('Leite', 'rainbow') do
fall back. -/
theorem scheme_lookup_returns_inherited_member :
    _colorSchemes.product.lookup "constructor" = none
    ∧ _colorSchemes.status.lookup "constructor" = none
    ∧ _colorSchemes.default.lookup "constructor" = none
    ∧ _colorSchemes.modes.lookup "constructor" = none
    ∧ _getColorForProduct "constructor" = JsColor.member "constructor"
    ∧ _getColorForStatus "constructor" = JsColor.member "constructor"
    ∧ _getDefaultColor "constructor" = JsColor.member "constructor"
    ∧ getCurrentMode (applyColorMode exampleScene "constructor") = "constructor"
    ∧ _getColorForProduct "Leite" = JsColor.color ⟨1 / 2, 1 / 2, 1 / 2⟩
    ∧ getCurrentMode (applyColorMode exampleScene "rainbow") = "default" := by
  refine ⟨?_, ?_, ?_, ?_, ?_, ?_, ?_, ?_, ?_, ?_⟩ <;> decide!

/-- C15: for every state of the colour mapper and every mode, `applyColorMode(m)` applied
twice gives the state `applyColorMode(m)` applied once gives: the colour of every mesh of
every registered entity and the current mode. -/
theorem applyColorMode_idempotent (s : ColorState) (m : String) :
    applyColorMode (applyColorMode s m) m = applyColorMode s m := by
  unfold applyColorMode
  simp only [List.map_map]
  congr 1 <;> (apply List.map_congr_left; intro n _; exact _colorizeObject_idem n _)

/-- Where C16 holds: a mesh whose material is not the material of a main mesh is the same
mesh after `_colorizeObject`, in every mode. -/
theorem _colorizeObject_keeps_other_materials (n : SceneNode) (mode : String) (m : PaintMesh)
    (hm : m ∈ n.meshes) (h : ∀ k, m.materialKey = some k → k ∉ paintedKeys n.meshes) :
    m ∈ (_colorizeObject n mode).meshes := by
  unfold _colorizeObject
  simp only []
  rw [_applyColorToMeshes_meshes]
  exact List.mem_map.mpr ⟨m, hm, repaint_of_not_mem _ _ m h⟩

/-- C16 fails for an id that contains `_body`: the filter of `_applyColorToMeshes` accepts
every mesh name containing `_body`, so for the valve 'XV_body_1' the state indicator
'XV_body_1_state_indicator' counts as a main mesh and `applyColorMode('status')` replaces
its colour (0.1, 0.7, 0.1) of state 'open' by (0.3, 0.3, 0.3). The indicator of the valve
'XV-1' keeps its colour. -/
theorem applyColorMode_paints_indicator_of_body_named_valve :
    isMainMesh "XV_body_1_state_indicator" = true
    ∧ isMainMesh "XV-1_state_indicator" = false
    ∧ colorOf exampleScene.valves "XV_body_1" "XV_body_1_state_indicator"
        = some (JsColor.color ⟨1 / 10, 7 / 10, 1 / 10⟩)
    ∧ colorOf (applyColorMode exampleScene "status").valves "XV_body_1"
        "XV_body_1_state_indicator" = some (JsColor.color ⟨3 / 10, 3 / 10, 3 / 10⟩)
    ∧ colorOf exampleScene.valves "XV-1" "XV-1_state_indicator"
        = some (JsColor.color ⟨7 / 10, 1 / 10, 1 / 10⟩)
    ∧ colorOf (applyColorMode exampleScene "status").valves "XV-1" "XV-1_state_indicator"
        = some (JsColor.color ⟨7 / 10, 1 / 10, 1 / 10⟩) := by
  refine ⟨?_, ?_, ?_, ?_, ?_, ?_⟩ <;> decide!

end ColorMapper

/-! ## Highlighting -/

namespace ColorMapper

theorem setMaterial_of_not_mem (key : String) (f : PaintMesh → PaintMesh) (l : List PaintMesh)
    (h : ∀ m ∈ l, m.materialKey ≠ some key) : setMaterial key f l = l := by
  unfold setMaterial
  conv_rhs => rw [← List.map_id l]
  apply List.map_congr_left
  intro m hm
  simp [h m hm]

theorem getElem?_append_cons (done : List PaintMesh) (t : PaintMesh) (todo : List PaintMesh) :
    (done ++ t :: todo)[done.length]? = some t := by
  induction done with
  | nil => simp
  | cons d rest ih => simpa using ih

theorem updateAt_append_cons (done : List PaintMesh) (t : PaintMesh) (todo : List PaintMesh)
    (f : PaintMesh → PaintMesh) :
    updateAt done.length f (done ++ t :: todo) = done ++ f t :: todo := by
  unfold updateAt
  rw [getElem?_append_cons]
  induction done with
  | nil => rfl
  | cons d rest ih => simp

theorem setMaterial_append_cons (key : String) (f : PaintMesh → PaintMesh)
    (done : List PaintMesh) (t : PaintMesh) (todo : List PaintMesh)
    (ht : t.materialKey = some key)
    (hdone : ∀ m ∈ done, m.materialKey ≠ some key)
    (htodo : ∀ m ∈ todo, m.materialKey ≠ some key) :
    setMaterial key f (done ++ t :: todo) = done ++ f t :: todo := by
  have h1 := setMaterial_of_not_mem key f done hdone
  have h2 := setMaterial_of_not_mem key f todo htodo
  unfold setMaterial at *
  simp [h1, h2, ht]

theorem keys_apart (done : List PaintMesh) (t : PaintMesh) (todo : List PaintMesh)
    (key : String) (ht : t.materialKey = some key)
    (h : ((done ++ t :: todo).filterMap (·.materialKey)).Nodup) :
    (∀ m ∈ done, m.materialKey ≠ some key) ∧ (∀ m ∈ todo, m.materialKey ≠ some key) := by
  rw [List.filterMap_append, List.filterMap_cons, ht] at h
  simp only at h
  rw [List.nodup_append] at h
  obtain ⟨_, h2, h3⟩ := h
  rw [List.nodup_cons] at h2
  constructor
  · intro m hm hk
    have : key ∈ done.filterMap (·.materialKey) := List.mem_filterMap.mpr ⟨m, hm, hk⟩
    exact h3 this (List.mem_cons_self _ _)
  · intro m hm hk
    exact h2.1 (List.mem_filterMap.mpr ⟨m, hm, hk⟩)

theorem tinted_materialKey (m : PaintMesh) : (tinted m).materialKey = m.materialKey := by
  unfold tinted
  split <;> rfl

theorem restored_materialKey (m : PaintMesh) : (restored m).materialKey = m.materialKey := by
  unfold restored
  split <;> rfl

/-- The first loop of `highlightObject` over meshes with materials of their own, each
holding a `Color3`. -/
theorem saveAndTint_range' (todo : List PaintMesh) : ∀ (done : List PaintMesh),
    ((done ++ todo).filterMap (·.materialKey)).Nodup →
    (∀ m ∈ todo, ∃ c, m.color = JsColor.color c) →
    saveAndTint (List.range' done.length todo.length) (done ++ todo) =
      ⟨done ++ todo.map tinted, none⟩ := by
  induction todo with
  | nil => intro done _ _; simp [saveAndTint]
  | cons t rest ih =>
    intro done hnd hcol
    have hstep : List.range' done.length (t :: rest).length =
        done.length :: List.range' (done ++ [tinted t]).length rest.length := by
      simp [List.range'_succ]
    have hnext : ((done ++ [tinted t] ++ rest).filterMap (·.materialKey)).Nodup := by
      simpa [List.filterMap_append, List.filterMap_cons, tinted_materialKey] using hnd
    have hrest : ∀ m ∈ rest, ∃ c, m.color = JsColor.color c :=
      fun m hm => hcol m (List.mem_cons_of_mem _ hm)
    have key := ih (done ++ [tinted t]) hnext hrest
    obtain ⟨c, hc⟩ := hcol t (List.mem_cons_self _ _)
    rw [hstep, saveAndTint, getElem?_append_cons]
    simp only
    cases hk : t.materialKey with
    | none =>
      have ht : tinted t = t := by unfold tinted; simp [hk]
      rw [ht] at key
      simp only [List.append_assoc, List.singleton_append] at key
      simp only [List.map_cons, ht]
      exact key
    | some k =>
      cases ho : t._originalColor with
      | some o =>
        have ht : tinted t = t := by unfold tinted; simp [hk, ho]
        rw [ht] at key
        simp only [List.append_assoc, List.singleton_append] at key
        simp only [Option.isSome_some, if_true, List.map_cons, ht]
        exact key
      | none =>
        have ht : tinted t =
            { t with
              _originalColor := some c
              color := JsColor.color ⟨1, 4 / 5, 0⟩
              emissiveColor := JsColor.color ⟨1 / 2, 3 / 10, 0⟩ } := by
          unfold tinted; simp [hk, ho, hc]
        obtain ⟨hd, hr⟩ := keys_apart done t rest k hk hnd
        simp only [Option.isSome_none, hc, updateAt_append_cons, Bool.false_eq_true, if_false]
        rw [setMaterial_append_cons k _ done
          { t with _originalColor := some c, color := JsColor.color c } rest hk hd hr]
        simp only [List.append_assoc, List.singleton_append] at key
        simp only [List.map_cons]
        rw [ht] at key ⊢
        exact key

/-- The loop of the `else` branch of `highlightObject` over meshes with materials of their
own. -/
theorem restoreSaved_range' (todo : List PaintMesh) : ∀ (done : List PaintMesh),
    ((done ++ todo).filterMap (·.materialKey)).Nodup →
    restoreSaved (List.range' done.length todo.length) (done ++ todo) =
      done ++ todo.map restored := by
  induction todo with
  | nil => intro done _; simp [restoreSaved]
  | cons t rest ih =>
    intro done hnd
    have hstep : List.range' done.length (t :: rest).length =
        done.length :: List.range' (done.length + 1) rest.length := by
      simp [List.range'_succ]
    have hnext : ((done ++ [restored t] ++ rest).filterMap (·.materialKey)).Nodup := by
      simpa [List.filterMap_append, List.filterMap_cons, restored_materialKey] using hnd
    have key := ih (done ++ [restored t]) hnext
    simp only [List.append_assoc, List.singleton_append, List.length_append,
      List.length_singleton] at key
    rw [hstep, restoreSaved, getElem?_append_cons]
    simp only [updateAt_append_cons, List.map_cons]
    rcases t with ⟨nm, mk, pbr, col, em, orig, hl⟩
    cases orig with
    | none =>
      have ht : restored ⟨nm, mk, pbr, col, em, none, hl⟩ =
          ⟨nm, mk, pbr, col, em, none, false⟩ := by
        cases mk <;> rfl
      rw [ht] at key ⊢
      exact key
    | some o =>
      cases mk with
      | none => exact key
      | some k =>
        obtain ⟨hd, hr⟩ := keys_apart done _ rest k rfl hnd
        have ht : restored ⟨nm, some k, pbr, col, em, some o, hl⟩ =
            ⟨nm, some k, pbr, JsColor.color o, JsColor.color ⟨0, 0, 0⟩, none, false⟩ := rfl
        rw [ht] at key ⊢
        simp only []
        rw [setMaterial_append_cons k _ done ⟨nm, some k, pbr, col, em, some o, false⟩ rest
          rfl hd hr, updateAt_append_cons]
        exact key

theorem highlightNode_on (n : SceneNode) (layer : Bool)
    (hkeys : (n.meshes.filterMap (·.materialKey)).Nodup)
    (hcol : ∀ m ∈ n.meshes, ∃ c, m.color = JsColor.color c) :
    highlightNode n layer true =
      ⟨({ n with
          meshes := (n.meshes.map tinted).map fun m => { m with inHighlightLayer := true } },
        true), none⟩ := by
  have h := saveAndTint_range' n.meshes [] hkeys hcol
  simp only [List.length_nil, List.nil_append] at h
  unfold highlightNode
  rw [List.range_eq_range', h]
  simp

theorem highlightNode_off (n : SceneNode)
    (hkeys : (n.meshes.filterMap (·.materialKey)).Nodup) :
    highlightNode n true false = ⟨({ n with meshes := n.meshes.map restored }, true), none⟩ := by
  have h := restoreSaved_range' n.meshes [] hkeys
  simp only [List.length_nil, List.nil_append] at h
  unfold highlightNode
  rw [List.range_eq_range', h]
  simp

theorem highlightNode_name (n : SceneNode) (layer highlight : Bool) :
    (highlightNode n layer highlight).state.1.name = n.name := by
  unfold highlightNode
  split
  · split <;> rfl
  · split <;> rfl

theorem restored_repaint_tinted_color (m : PaintMesh) (c : JsColor) (keys : List String)
    (hcol : ∃ c0, m.color = JsColor.color c0) (hun : m._originalColor = none) :
    (restored (repaint c keys { tinted m with inHighlightLayer := true })).color = m.color := by
  obtain ⟨c0, hc0⟩ := hcol
  cases hk : m.materialKey with
  | none => simp [tinted, repaint, restored, hk, hun]
  | some k =>
    by_cases hmem : k ∈ keys
    · simp [tinted, repaint, restored, hk, hun, hc0, hmem]
    · simp [tinted, repaint, restored, hk, hun, hc0, hmem]

/-- On a node whose meshes have materials of their own: highlight on, `_colorizeObject` in
any mode, highlight off leaves every mesh with the colour it had before the highlight. -/
theorem highlight_colorize_restore (n : SceneNode) (layer : Bool) (mode : String)
    (hkeys : (n.meshes.filterMap (·.materialKey)).Nodup)
    (hcol : ∀ m ∈ n.meshes, ∃ c, m.color = JsColor.color c)
    (hun : ∀ m ∈ n.meshes, m._originalColor = none) :
    (highlightNode (_colorizeObject (highlightNode n layer true).state.1 mode)
        true false).state.1.meshes.map (·.color) = n.meshes.map (·.color) ∧
      (highlightNode (_colorizeObject (highlightNode n layer true).state.1 mode)
        true false).thrown = none := by
  rw [highlightNode_on n layer hkeys hcol]
  simp only []
  have hk2 : ∀ (x : SceneNode) (md : String),
      (_colorizeObject x md).meshes.filterMap (·.materialKey) =
        x.meshes.filterMap (·.materialKey) := by
    intro x md
    unfold _colorizeObject
    simp only []
    rw [_applyColorToMeshes_meshes, List.filterMap_map]
    apply List.filterMap_congr
    intro m _
    simp [repaint_materialKey]
  rw [highlightNode_off]
  · simp only []
    unfold _colorizeObject
    simp only []
    rw [_applyColorToMeshes_meshes]
    simp only [List.map_map, and_true]
    apply List.map_congr_left
    intro m hm
    exact restored_repaint_tinted_color m _ _ (hcol m hm) (hun m hm)
  · rw [hk2]
    simpa [List.filterMap_map, Function.comp_def, tinted_materialKey] using hkeys

theorem find?_map_colorizeObject (l : List SceneNode) (objectId mode : String) :
    (l.map fun n => _colorizeObject n mode).find? (fun n => n.name == objectId) =
      (l.find? (fun n => n.name == objectId)).map fun n => _colorizeObject n mode := by
  rw [List.find?_map]
  rfl

theorem find?_replace (l : List SceneNode) (objectId : String) (n n2 : SceneNode)
    (h : l.find? (fun n => n.name == objectId) = some n) (hn : n2.name = n.name) :
    (modifyFirst (fun n => n.name == objectId) (fun _ => n2) l).find?
      (fun n => n.name == objectId) = some n2 := by
  have hp : (n.name == objectId) = true := by
    have := List.find?_some h
    simpa using this
  rw [find?_modifyFirst _ _ (fun _ _ => by simp only [hn]; exact hp), h]
  rfl

theorem find?_after_highlight_colorize (l : List SceneNode) (objectId mode : String)
    (n : SceneNode) (layer : Bool) (h : l.find? (fun n => n.name == objectId) = some n) :
    ((modifyFirst (fun n => n.name == objectId)
        (fun _ => (highlightNode n layer true).state.1) l).map
      fun n => _colorizeObject n mode).find? (fun n => n.name == objectId) =
      some (_colorizeObject (highlightNode n layer true).state.1 mode) := by
  rw [find?_map_colorizeObject, find?_replace l objectId n _ h (highlightNode_name n layer true)]
  rfl

theorem find?_map_colorizeObject_none (l : List SceneNode) (objectId mode : String)
    (h : l.find? (fun n => n.name == objectId) = none) :
    (l.map fun n => _colorizeObject n mode).find? (fun n => n.name == objectId) = none := by
  rw [find?_map_colorizeObject, h]
  rfl

theorem highlightObject_tanks (s : ColorState) (objectId : String) (highlight : Bool)
    (n : SceneNode) (h1 : s.tanks.find? (fun n => n.name == objectId) = some n) :
    highlightObject s objectId highlight =
      ⟨{ s with tanks := modifyFirst (fun n => n.name == objectId)
                  (fun _ => (highlightNode n s.highlightLayer highlight).state.1) s.tanks
                highlightLayer := (highlightNode n s.highlightLayer highlight).state.2 },
        (highlightNode n s.highlightLayer highlight).thrown⟩ := by
  unfold highlightObject
  simp only [h1]

theorem highlightObject_pipes (s : ColorState) (objectId : String) (highlight : Bool)
    (n : SceneNode) (h1 : s.tanks.find? (fun n => n.name == objectId) = none)
    (h2 : s.pipes.find? (fun n => n.name == objectId) = some n) :
    highlightObject s objectId highlight =
      ⟨{ s with pipes := modifyFirst (fun n => n.name == objectId)
                  (fun _ => (highlightNode n s.highlightLayer highlight).state.1) s.pipes
                highlightLayer := (highlightNode n s.highlightLayer highlight).state.2 },
        (highlightNode n s.highlightLayer highlight).thrown⟩ := by
  unfold highlightObject
  simp only [h1, h2]

theorem highlightObject_valves (s : ColorState) (objectId : String) (highlight : Bool)
    (n : SceneNode) (h1 : s.tanks.find? (fun n => n.name == objectId) = none)
    (h2 : s.pipes.find? (fun n => n.name == objectId) = none)
    (h3 : s.valves.find? (fun n => n.name == objectId) = some n) :
    highlightObject s objectId highlight =
      ⟨{ s with valves := modifyFirst (fun n => n.name == objectId)
                  (fun _ => (highlightNode n s.highlightLayer highlight).state.1) s.valves
                highlightLayer := (highlightNode n s.highlightLayer highlight).state.2 },
        (highlightNode n s.highlightLayer highlight).thrown⟩ := by
  unfold highlightObject
  simp only [h1, h2, h3]

theorem highlightObject_areas (s : ColorState) (objectId : String) (highlight : Bool)
    (n : SceneNode) (h1 : s.tanks.find? (fun n => n.name == objectId) = none)
    (h2 : s.pipes.find? (fun n => n.name == objectId) = none)
    (h3 : s.valves.find? (fun n => n.name == objectId) = none)
    (h4 : s.areas.find? (fun n => n.name == objectId) = some n) :
    highlightObject s objectId highlight =
      ⟨{ s with areas := modifyFirst (fun n => n.name == objectId)
                  (fun _ => (highlightNode n s.highlightLayer highlight).state.1) s.areas
                highlightLayer := (highlightNode n s.highlightLayer highlight).state.2 },
        (highlightNode n s.highlightLayer highlight).thrown⟩ := by
  unfold highlightObject
  simp only [h1, h2, h3, h4]

/-- What `highlightObject` does in general when every mesh of the entity has a material of
its own that holds a `Color3` and no colour is saved yet: after `highlightObject(id, true)`,
`applyColorMode(m)` and `highlightObject(id, false)`, neither of which throws, every mesh of
the entity has the colour it had before the highlight, whatever the mode. -/
theorem highlightObject_off_restores_saved_colors (s : ColorState) (objectId mode : String)
    (n : SceneNode) (hfound : getObjectById s objectId = some n)
    (hkeys : (n.meshes.filterMap (·.materialKey)).Nodup)
    (hcol : ∀ m ∈ n.meshes, ∃ c, m.color = JsColor.color c)
    (hun : ∀ m ∈ n.meshes, m._originalColor = none) :
    (highlightObject s objectId true).thrown = none ∧
    (highlightObject (applyColorMode (highlightObject s objectId true).state mode)
      objectId false).thrown = none ∧
    colorsOf
      (highlightObject (applyColorMode (highlightObject s objectId true).state mode)
        objectId false).state objectId = colorsOf s objectId := by
  have hon := highlightNode_on n s.highlightLayer hkeys hcol
  have hfin := highlight_colorize_restore n s.highlightLayer (resolveMode mode) hkeys hcol hun
  have hon2 : (highlightNode n s.highlightLayer true).state.2 = true := by rw [hon]
  have hon3 : (highlightNode n s.highlightLayer true).thrown = none := by rw [hon]
  unfold colorsOf
  rw [hfound]
  unfold getObjectById at hfound
  cases h1 : s.tanks.find? (fun n => n.name == objectId) with
  | some x =>
    rw [h1] at hfound
    cases hfound
    rw [highlightObject_tanks s objectId true n h1]
    have f1 := find?_after_highlight_colorize s.tanks objectId (resolveMode mode) n
      s.highlightLayer h1
    rw [highlightObject_tanks _ objectId false _ f1]
    unfold getObjectById
    simp only [applyColorMode, hon2, hon3]
    rw [find?_replace _ objectId _ _ f1 (by rw [highlightNode_name])]
    exact ⟨trivial, hfin.2, by simpa using hfin.1⟩
  | none =>
    rw [h1] at hfound
    have g1 := find?_map_colorizeObject_none s.tanks objectId (resolveMode mode) h1
    cases h2 : s.pipes.find? (fun n => n.name == objectId) with
    | some x =>
      rw [h2] at hfound
      cases hfound
      rw [highlightObject_pipes s objectId true n h1 h2]
      have f2 := find?_after_highlight_colorize s.pipes objectId (resolveMode mode) n
        s.highlightLayer h2
      rw [highlightObject_pipes _ objectId false _ g1 f2]
      unfold getObjectById
      simp only [applyColorMode, hon2, hon3, g1]
      rw [find?_replace _ objectId _ _ f2 (by rw [highlightNode_name])]
      exact ⟨trivial, hfin.2, by simpa using hfin.1⟩
    | none =>
      rw [h2] at hfound
      have g2 := find?_map_colorizeObject_none s.pipes objectId (resolveMode mode) h2
      cases h3 : s.valves.find? (fun n => n.name == objectId) with
      | some x =>
        rw [h3] at hfound
        cases hfound
        rw [highlightObject_valves s objectId true n h1 h2 h3]
        have f3 := find?_after_highlight_colorize s.valves objectId (resolveMode mode) n
          s.highlightLayer h3
        rw [highlightObject_valves _ objectId false _ g1 g2 f3]
        unfold getObjectById
        simp only [applyColorMode, hon2, hon3, g1, g2]
        rw [find?_replace _ objectId _ _ f3 (by rw [highlightNode_name])]
        exact ⟨trivial, hfin.2, by simpa using hfin.1⟩
      | none =>
        rw [h3] at hfound
        simp only at hfound
        have g3 := find?_map_colorizeObject_none s.valves objectId (resolveMode mode) h3
        rw [highlightObject_areas s objectId true n h1 h2 h3 hfound]
        have f4 := find?_after_highlight_colorize s.areas objectId (resolveMode mode) n
          s.highlightLayer hfound
        rw [highlightObject_areas _ objectId false _ g1 g2 g3 f4]
        unfold getObjectById
        simp only [applyColorMode, hon2, hon3, g1, g2, g3]
        rw [find?_replace _ objectId _ _ f4 (by rw [highlightNode_name])]
        exact ⟨trivial, hfin.2, by simpa using hfin.1⟩

/-- C17 fails, evaluated from the state the application starts in. With a mode change:
the body of valve 'XV-1' is (0.7, 0.1, 0.1), `applyColorMode('status')` alone paints it
(0.3, 0.3, 0.3), but after `highlightObject('XV-1', true)`, `applyColorMode('status')`,
`highlightObject('XV-1', false)` it is (0.7, 0.1, 0.1) again while the current mode is
'status', and the wheel, whose material its spokes use too, is left in the highlight
colour (1, 0.8, 0). Without a mode change: the body of tank 'TQ-0002', whose material the
roof uses too, is (0, 0.47, 0.75) before and (1, 0.8, 0) after highlight on and off, and
the state indicator of 'XV-1' loses its emissive colour. No call throws. -/
theorem highlightObject_off_restores_stale_colors :
    colorOf startScene.valves "XV-1" "XV-1_body" = some (JsColor.color ⟨7 / 10, 1 / 10, 1 / 10⟩)
    ∧ colorOf (applyColorMode startScene "status").valves "XV-1" "XV-1_body"
        = some (JsColor.color ⟨3 / 10, 3 / 10, 3 / 10⟩)
    ∧ colorOf (highlightObject (applyColorMode (highlightObject startScene "XV-1" true).state
          "status") "XV-1" false).state.valves "XV-1" "XV-1_body"
        = some (JsColor.color ⟨7 / 10, 1 / 10, 1 / 10⟩)
    ∧ colorOf (highlightObject (applyColorMode (highlightObject startScene "XV-1" true).state
          "status") "XV-1" false).state.valves "XV-1" "XV-1_wheel"
        = some (JsColor.color ⟨1, 4 / 5, 0⟩)
    ∧ getCurrentMode (highlightObject (applyColorMode
          (highlightObject startScene "XV-1" true).state "status") "XV-1" false).state
        = "status"
    ∧ (highlightObject startScene "XV-1" true).thrown = none
    ∧ (highlightObject (applyColorMode (highlightObject startScene "XV-1" true).state
          "status") "XV-1" false).thrown = none
    ∧ colorOf startScene.tanks "TQ-0002" "TQ-0002_body"
        = some (JsColor.color ⟨0, 47 / 100, 3 / 4⟩)
    ∧ colorOf (highlightObject (highlightObject startScene "TQ-0002" true).state
          "TQ-0002" false).state.tanks "TQ-0002" "TQ-0002_body"
        = some (JsColor.color ⟨1, 4 / 5, 0⟩)
    ∧ emissiveOf startScene.valves "XV-1" "XV-1_state_indicator"
        = some (JsColor.color ⟨7 / 10, 1 / 10, 1 / 10⟩)
    ∧ emissiveOf (highlightObject (highlightObject startScene "XV-1" true).state
          "XV-1" false).state.valves "XV-1" "XV-1_state_indicator"
        = some (JsColor.color ⟨0, 0, 0⟩) := by
  refine ⟨?_, ?_, ?_, ?_, ?_, ?_, ?_, ?_, ?_, ?_, ?_⟩ <;> decide!

/-- The general statement at the insulated pipe 'PIPE-7' before the first colouring: for
every mode, highlight on, `applyColorMode(mode)`, highlight off leaves its two segments
and its connector in the colour (0.8, 0.8, 0.8) of the insulated material. -/
theorem highlightObject_off_restores_saved_colors_of_pipe (mode : String) :
    colorsOf
      (highlightObject (applyColorMode (highlightObject exampleScene "PIPE-7" true).state mode)
        "PIPE-7" false).state "PIPE-7" =
      some [JsColor.color ⟨4 / 5, 4 / 5, 4 / 5⟩, JsColor.color ⟨4 / 5, 4 / 5, 4 / 5⟩,
            JsColor.color ⟨4 / 5, 4 / 5, 4 / 5⟩] := by
  have hsome : (getObjectById exampleScene "PIPE-7").isSome = true := by decide!
  obtain ⟨n, hn⟩ := Option.isSome_iff_exists.mp hsome
  have hkeys : (n.meshes.filterMap (·.materialKey)).Nodup := by
    have h : ∀ x ∈ getObjectById exampleScene "PIPE-7",
        (x.meshes.filterMap (·.materialKey)).Nodup := by decide!
    exact h n hn
  have hall : ∀ x ∈ getObjectById exampleScene "PIPE-7", ∀ m ∈ x.meshes,
      m.color = JsColor.color ⟨4 / 5, 4 / 5, 4 / 5⟩ ∧ m._originalColor = none := by decide!
  have h := highlightObject_off_restores_saved_colors exampleScene "PIPE-7" mode n hn hkeys
    (fun m hm => ⟨_, (hall n hn m hm).1⟩) (fun m hm => (hall n hn m hm).2)
  rw [h.2.2]
  decide!

end ColorMapper

/-! ## Selection -/

namespace ObjectPicker

theorem clearSelection_of_selected (s : PickerState) (mesh : MeshHandle)
    (hsel : s._selectedObject = some mesh) :
    clearSelection s =
      { s with
        highlighted := s.highlighted.filter (· ≠ mesh)
        outlined := s.outlined.filter (· ≠ mesh)
        _selectedObject := none
        selectedObjectId := none
        events := s.events ++ [PickerEvent.objectDeselected] } := by
  unfold clearSelection
  rw [hsel]

theorem _processSelection_of_none (s : PickerState) (mesh : MeshHandle)
    (hsel : s._selectedObject = none) :
    _processSelection s mesh =
      { s with
        _selectedObject := some mesh
        highlighted := if mesh ∈ s.highlighted then s.highlighted else s.highlighted ++ [mesh]
        outlined := if mesh ∈ s.outlined then s.outlined else s.outlined ++ [mesh]
        events := s.events ++ [PickerEvent.objectSelected (objectWithMetadata mesh) mesh]
        selectedObjectId :=
          match (objectWithMetadata mesh).metadata with
          | some tag => some tag.id
          | none => some mesh.self.name } := by
  unfold _processSelection clearSelection
  simp [hsel]

theorem _processSelection_of_ne (s : PickerState) (mesh : MeshHandle)
    (h : s._selectedObject ≠ some mesh) :
    _processSelection s mesh =
      { clearSelection s with
        _selectedObject := some mesh
        highlighted :=
          if mesh ∈ (clearSelection s).highlighted then (clearSelection s).highlighted
          else (clearSelection s).highlighted ++ [mesh]
        outlined :=
          if mesh ∈ (clearSelection s).outlined then (clearSelection s).outlined
          else (clearSelection s).outlined ++ [mesh]
        events := (clearSelection s).events ++
          [PickerEvent.objectSelected (objectWithMetadata mesh) mesh]
        selectedObjectId :=
          match (objectWithMetadata mesh).metadata with
          | some tag => some tag.id
          | none => some mesh.self.name } := by
  unfold _processSelection
  rw [if_neg h]

theorem mem_addMesh (mesh : MeshHandle) (l : List MeshHandle) :
    mesh ∈ (if mesh ∈ l then l else l ++ [mesh]) := by
  split
  · assumption
  · simp

theorem not_mem_addMesh (mesh other : MeshHandle) (l : List MeshHandle) (hne : other ≠ mesh)
    (h : other ∉ l) : other ∉ (if mesh ∈ l then l else l ++ [mesh]) := by
  split
  · exact h
  · simp [h, hne]

/-- C18 as stated fails for another mesh of the selected entity: with segment 0 of the pipe
'PIPE-7' selected, a selection request on segment 1 of the same pipe, whose owner is the
same node 'PIPE-7', changes the picker state and dispatches `objectDeselected` and
`objectSelected`. -/
theorem select_other_segment_dispatches_events :
    segmentSelected._selectedObject = some (pipeSegmentHandle "PIPE-7" 0)
    ∧ segmentSelected.selectedObjectId = some "PIPE-7"
    ∧ objectWithMetadata (pipeSegmentHandle "PIPE-7" 1)
        = objectWithMetadata (pipeSegmentHandle "PIPE-7" 0)
    ∧ (pipeSegmentHandle "PIPE-7" 1).self.name ∈
        (PipesManager.getPipeById exampleWorld.pipes "PIPE-7").toList.flatMap
          (·.children.map (·.name))
    ∧ _processSelection segmentSelected (pipeSegmentHandle "PIPE-7" 1) ≠ segmentSelected
    ∧ (_processSelection segmentSelected (pipeSegmentHandle "PIPE-7" 1)).events
        = segmentSelected.events ++
          [PickerEvent.objectDeselected,
           PickerEvent.objectSelected (objectWithMetadata (pipeSegmentHandle "PIPE-7" 1))
             (pipeSegmentHandle "PIPE-7" 1)]
    ∧ (_processSelection segmentSelected (pipeSegmentHandle "PIPE-7" 1)).selectedObjectId
        = some "PIPE-7" := by
  refine ⟨?_, ?_, ?_, ?_, ?_, ?_, ?_⟩ <;> decide!

/-- C18, amended: the selection is a mesh. A selection request on the selected mesh leaves
the picker state as it is, so no event is dispatched; a request on any other mesh, of the
same entity or not, deselects and selects: it dispatches `objectDeselected`, then
`objectSelected` for the new mesh, which becomes the selected object. -/
theorem processSelection_selected_mesh_noop (s : PickerState) (mesh other : MeshHandle)
    (hsel : s._selectedObject = some mesh) (hne : other ≠ mesh) :
    _processSelection s mesh = s
    ∧ (_processSelection s other)._selectedObject = some other
    ∧ (_processSelection s other).events
        = s.events ++ [PickerEvent.objectDeselected,
                       PickerEvent.objectSelected (objectWithMetadata other) other] := by
  refine ⟨?_, ?_, ?_⟩
  · unfold _processSelection
    simp [hsel]
  · unfold _processSelection
    simp [hsel, hne.symm]
  · unfold _processSelection
    simp [hsel, hne.symm, clearSelection_of_selected s mesh hsel]

/-- Witness of C18, amended: segment 0 of 'PIPE-7' is selected, segment 1 is requested. -/
theorem processSelection_selected_mesh_noop_witness :
    segmentSelected._selectedObject = some (pipeSegmentHandle "PIPE-7" 0)
    ∧ pipeSegmentHandle "PIPE-7" 1 ≠ pipeSegmentHandle "PIPE-7" 0
    ∧ _processSelection segmentSelected (pipeSegmentHandle "PIPE-7" 0) = segmentSelected
    ∧ (_processSelection segmentSelected (pipeSegmentHandle "PIPE-7" 1))._selectedObject
        = some (pipeSegmentHandle "PIPE-7" 1) :=
  have h := processSelection_selected_mesh_noop segmentSelected
    (pipeSegmentHandle "PIPE-7" 0) (pipeSegmentHandle "PIPE-7" 1) (by decide) (by decide)
  ⟨by decide, by decide, h.1, h.2.1⟩

/-- C19: from a picker with nothing selected, a selection request on a mesh of A followed
by one on a different mesh, owned by a node whose metadata carries the id of B, leaves the
mesh of B selected, in the highlight layer and outlined, the mesh of A neither in the
highlight layer nor outlined, and `Terminal3D.selectedObjectId` equal to the id of B. The
events dispatched are `objectSelected` for A, `objectDeselected`, `objectSelected` for B. -/
theorem select_A_then_B (s : PickerState) (meshA meshB : MeshHandle) (tagB : Tag)
    (hnone : s._selectedObject = none) (hne : meshA ≠ meshB)
    (hB : (objectWithMetadata meshB).metadata = some tagB) :
    (_processSelection (_processSelection s meshA) meshB)._selectedObject = some meshB
    ∧ meshB ∈ (_processSelection (_processSelection s meshA) meshB).highlighted
    ∧ meshB ∈ (_processSelection (_processSelection s meshA) meshB).outlined
    ∧ meshA ∉ (_processSelection (_processSelection s meshA) meshB).highlighted
    ∧ meshA ∉ (_processSelection (_processSelection s meshA) meshB).outlined
    ∧ (_processSelection (_processSelection s meshA) meshB).selectedObjectId = some tagB.id
    ∧ (_processSelection (_processSelection s meshA) meshB).events
        = s.events ++ [PickerEvent.objectSelected (objectWithMetadata meshA) meshA,
                       PickerEvent.objectDeselected,
                       PickerEvent.objectSelected (objectWithMetadata meshB) meshB] := by
  have h1 := _processSelection_of_none s meshA hnone
  have hselA : (_processSelection s meshA)._selectedObject = some meshA := by rw [h1]
  have hclear := clearSelection_of_selected (_processSelection s meshA) meshA hselA
  have h2 := _processSelection_of_ne (_processSelection s meshA) meshB
    (by rw [hselA]; intro h; exact hne (Option.some.inj h))
  rw [h2]
  refine ⟨rfl, mem_addMesh _ _, mem_addMesh _ _, ?_, ?_, ?_, ?_⟩
  · apply not_mem_addMesh _ _ _ hne
    rw [hclear]
    simp
  · apply not_mem_addMesh _ _ _ hne
    rw [hclear]
    simp
  · simp only [hB]
  · rw [hclear, h1]
    simp

/-- Witness of C19: the body of valve 'XV-1', then the body of valve 'XV-2'. -/
theorem select_A_then_B_witness :
    ({} : PickerState)._selectedObject = none
    ∧ valveBodyHandle "XV-1" "XV-1_body" ≠ valveBodyHandle "XV-2" "XV-2_body"
    ∧ (objectWithMetadata (valveBodyHandle "XV-2" "XV-2_body")).metadata
        = some ⟨"valve", "XV-2"⟩
    ∧ (_processSelection (_processSelection {} (valveBodyHandle "XV-1" "XV-1_body"))
        (valveBodyHandle "XV-2" "XV-2_body")).selectedObjectId = some "XV-2"
    ∧ valveBodyHandle "XV-1" "XV-1_body" ∉
        (_processSelection (_processSelection {} (valveBodyHandle "XV-1" "XV-1_body"))
          (valveBodyHandle "XV-2" "XV-2_body")).highlighted :=
  have h := select_A_then_B {} (valveBodyHandle "XV-1" "XV-1_body")
    (valveBodyHandle "XV-2" "XV-2_body") ⟨"valve", "XV-2"⟩ (by decide) (by decide) (by decide)
  ⟨by decide, by decide, by decide, h.2.2.2.2.2.1, h.2.2.2.1⟩

/-- C20: with a mesh selected, a click of the primary button that hits nothing while the
picker is enabled, and a press of Escape whatever the enabled flag and the hovered object,
both run `clearSelection`, after which nothing is selected, the mesh is neither in the
highlight layer nor outlined, `Terminal3D.selectedObjectId` is `null` and exactly one event,
`objectDeselected`, has been dispatched. -/
theorem click_on_nothing_and_escape_deselect (s : PickerState) (mesh : MeshHandle)
    (hsel : s._selectedObject = some mesh) :
    (s._enabled = true → onPointerDown s 0 none = clearSelection s)
    ∧ onKeyDown s "Escape" = clearSelection s
    ∧ (clearSelection s)._selectedObject = none
    ∧ mesh ∉ (clearSelection s).highlighted
    ∧ mesh ∉ (clearSelection s).outlined
    ∧ (clearSelection s).selectedObjectId = none
    ∧ (clearSelection s).events = s.events ++ [PickerEvent.objectDeselected]
    ∧ (clearSelection s)._hoveredObject = s._hoveredObject
    ∧ (clearSelection s)._enabled = s._enabled := by
  rw [clearSelection_of_selected s mesh hsel]
  refine ⟨?_, ?_, rfl, ?_, ?_, rfl, rfl, rfl, rfl⟩
  · intro he
    unfold onPointerDown _handlePointerDown
    simp [he, clearSelection_of_selected s mesh hsel]
  · unfold onKeyDown
    simp [clearSelection_of_selected s mesh hsel]
  · simp
  · simp

/-- Witness of C20: the picker of `twoValvesSelected`, where the body of 'XV-1' is
selected. -/
theorem click_on_nothing_and_escape_deselect_witness :
    twoValvesSelected.picker._selectedObject = some (valveBodyHandle "XV-1" "XV-1_body")
    ∧ twoValvesSelected.picker._enabled = true
    ∧ (onPointerDown twoValvesSelected.picker 0 none)._selectedObject = none
    ∧ (onKeyDown twoValvesSelected.picker "Escape").events
        = twoValvesSelected.picker.events ++ [PickerEvent.objectDeselected] :=
  have h := click_on_nothing_and_escape_deselect twoValvesSelected.picker
    (valveBodyHandle "XV-1" "XV-1_body") (by decide)
  ⟨by decide, by decide, by rw [h.1 (by decide)]; exact h.2.2.1,
    by rw [h.2.1]; exact h.2.2.2.2.2.2.1⟩

end ObjectPicker

/-! ## Hover -/

namespace ObjectPicker

theorem _clearHoverState_keeps_selection (s : PickerState) (mesh : MeshHandle)
    (hsel : s._selectedObject = some mesh) (hlit : mesh ∈ s.highlighted)
    (hout : mesh ∈ s.outlined) :
    (_clearHoverState s)._selectedObject = some mesh
    ∧ mesh ∈ (_clearHoverState s).highlighted
    ∧ mesh ∈ (_clearHoverState s).outlined
    ∧ (_clearHoverState s).selectedObjectId = s.selectedObjectId
    ∧ (_clearHoverState s).events = s.events := by
  unfold _clearHoverState
  cases hh : s._hoveredObject with
  | none => exact ⟨hsel, hlit, hout, rfl, rfl⟩
  | some hovered =>
    simp only []
    split
    · rename_i hne
      have hm : mesh ≠ hovered := by
        intro h
        exact hne (by rw [hsel, h])
      refine ⟨hsel, ?_, ?_, rfl, rfl⟩
      · simp [hlit, hm]
      · simp [hout, hm]
    · exact ⟨hsel, hlit, hout, rfl, rfl⟩

theorem _handlePointerMove_keeps_selection (config : PickerConfig) (s : PickerState)
    (mesh : MeshHandle) (pick : Option MeshHandle) (hmode : config.selectionMode = "click")
    (hsel : s._selectedObject = some mesh) (hlit : mesh ∈ s.highlighted)
    (hout : mesh ∈ s.outlined) :
    (_handlePointerMove config s pick)._selectedObject = some mesh
    ∧ mesh ∈ (_handlePointerMove config s pick).highlighted
    ∧ mesh ∈ (_handlePointerMove config s pick).outlined
    ∧ (_handlePointerMove config s pick).selectedObjectId = s.selectedObjectId
    ∧ (_handlePointerMove config s pick).events = s.events := by
  have hc := _clearHoverState_keeps_selection s mesh hsel hlit hout
  unfold _handlePointerMove
  cases pick with
  | none => exact hc
  | some target =>
    simp only []
    split
    · have hnot : ¬ config.selectionMode = "hover" := by rw [hmode]; decide
      rw [if_neg hnot]
      split
      · refine ⟨hc.1, ?_, ?_, hc.2.2.2.1, hc.2.2.2.2⟩
        · simp only []
          split
          · exact hc.2.1
          · exact List.mem_append_left _ hc.2.1
        · simp only []
          split
          · exact hc.2.2.1
          · exact List.mem_append_left _ hc.2.2.1
      · exact hc
    · exact ⟨hsel, hlit, hout, rfl, rfl⟩

theorem onHoverEvent_keeps_selection (config : PickerConfig) (s : PickerState)
    (mesh : MeshHandle) (e : HoverEvent) (hmode : config.selectionMode = "click")
    (hsel : s._selectedObject = some mesh) (hlit : mesh ∈ s.highlighted)
    (hout : mesh ∈ s.outlined) :
    (onHoverEvent config s e)._selectedObject = some mesh
    ∧ mesh ∈ (onHoverEvent config s e).highlighted
    ∧ mesh ∈ (onHoverEvent config s e).outlined
    ∧ (onHoverEvent config s e).selectedObjectId = s.selectedObjectId
    ∧ (onHoverEvent config s e).events = s.events := by
  cases e with
  | pointerMove pick =>
    have e1 : onHoverEvent config s (HoverEvent.pointerMove pick) =
        if s._enabled then _handlePointerMove config s pick else s := rfl
    rw [e1]
    split
    · exact _handlePointerMove_keeps_selection config s mesh pick hmode hsel hlit hout
    · exact ⟨hsel, hlit, hout, rfl, rfl⟩
  | mouseOut => exact _clearHoverState_keeps_selection s mesh hsel hlit hout

/-- C21: in click selection mode, from every picker state in which a selected mesh is in
the highlight layer with its outline on, and for every sequence of pointer moves (over any
mesh, the selected one included, or over nothing) and `mouseout` events, the selected mesh
is the same afterwards and is still in the highlight layer and outlined;
`Terminal3D.selectedObjectId` is unchanged and no event has been dispatched. -/
theorem hover_events_keep_selection (config : PickerConfig) (s : PickerState)
    (mesh : MeshHandle) (events : List HoverEvent) (hmode : config.selectionMode = "click")
    (hsel : s._selectedObject = some mesh) (hlit : mesh ∈ s.highlighted)
    (hout : mesh ∈ s.outlined) :
    (events.foldl (onHoverEvent config) s)._selectedObject = some mesh
    ∧ mesh ∈ (events.foldl (onHoverEvent config) s).highlighted
    ∧ mesh ∈ (events.foldl (onHoverEvent config) s).outlined
    ∧ (events.foldl (onHoverEvent config) s).selectedObjectId = s.selectedObjectId
    ∧ (events.foldl (onHoverEvent config) s).events = s.events := by
  induction events generalizing s with
  | nil => exact ⟨hsel, hlit, hout, rfl, rfl⟩
  | cons e rest ih =>
    have h1 := onHoverEvent_keeps_selection config s mesh e hmode hsel hlit hout
    have h2 := ih (onHoverEvent config s e) h1.1 h1.2.1 h1.2.2.1
    rw [List.foldl_cons]
    exact ⟨h2.1, h2.2.1, h2.2.2.1, h2.2.2.2.1.trans h1.2.2.2.1, h2.2.2.2.2.trans h1.2.2.2.2⟩

/-- Witness of C21: the body of 'XV-1' is selected; the pointer moves over it, leaves the
canvas, moves over the body of 'XV-2' and then over nothing. -/
theorem hover_events_keep_selection_witness :
    ({} : PickerConfig).selectionMode = "click"
    ∧ twoValvesSelected.picker._selectedObject = some (valveBodyHandle "XV-1" "XV-1_body")
    ∧ valveBodyHandle "XV-1" "XV-1_body" ∈ twoValvesSelected.picker.highlighted
    ∧ valveBodyHandle "XV-1" "XV-1_body" ∈ twoValvesSelected.picker.outlined
    ∧ ([HoverEvent.pointerMove (some (valveBodyHandle "XV-1" "XV-1_body")),
        HoverEvent.mouseOut,
        HoverEvent.pointerMove (some (valveBodyHandle "XV-2" "XV-2_body")),
        HoverEvent.pointerMove none].foldl (onHoverEvent {})
          twoValvesSelected.picker)._selectedObject
        = some (valveBodyHandle "XV-1" "XV-1_body")
    ∧ valveBodyHandle "XV-1" "XV-1_body" ∈
        ([HoverEvent.pointerMove (some (valveBodyHandle "XV-1" "XV-1_body")),
          HoverEvent.mouseOut,
          HoverEvent.pointerMove (some (valveBodyHandle "XV-2" "XV-2_body")),
          HoverEvent.pointerMove none].foldl (onHoverEvent {})
            twoValvesSelected.picker).highlighted :=
  have h := hover_events_keep_selection {} twoValvesSelected.picker
    (valveBodyHandle "XV-1" "XV-1_body")
    [HoverEvent.pointerMove (some (valveBodyHandle "XV-1" "XV-1_body")),
     HoverEvent.mouseOut,
     HoverEvent.pointerMove (some (valveBodyHandle "XV-2" "XV-2_body")),
     HoverEvent.pointerMove none] (by decide) (by decide) (by decide) (by decide)
  ⟨by decide, by decide, by decide, by decide, h.1, h.2.1⟩

/-- In hover selection mode a pointer move over another mesh does change the selection:
the restriction of C21 to click mode is needed. -/
theorem hover_mode_moves_selection :
    (onHoverEvent { selectionMode := "hover" } twoValvesSelected.picker
      (HoverEvent.pointerMove (some (valveBodyHandle "XV-2" "XV-2_body"))))._selectedObject
      = some (valveBodyHandle "XV-2" "XV-2_body") := by
  decide

end ObjectPicker

/-! ## Pipe geometry -/

namespace PipesManager

theorem pipeChildren_offset (id : String) (points : List Vec3) : ∀ k : ℕ,
    pipeChildren id k points =
      (List.range (points.length - 1)).flatMap fun j =>
        { name := id ++ "_segment_" ++ toString (k + j), isMesh := true,
          markedPickable := true } ::
        if j + 2 < points.length then
          [{ name := id ++ "_connection_" ++ toString (k + j)
             isMesh := !nearlyCollinear (points.getD (j + 1) ⟨none, none, none⟩)
               (points.getD j ⟨none, none, none⟩) (points.getD (j + 2) ⟨none, none, none⟩) }]
        else [] := by
  induction points with
  | nil => intro k; rfl
  | cons p0 rest ih =>
    intro k
    cases rest with
    | nil => rfl
    | cons p1 rest2 =>
      cases rest2 with
      | nil => rfl
      | cons p2 rest3 =>
        rw [pipeChildren, ih (k + 1)]
        simp only [List.length_cons, Nat.add_sub_cancel]
        rw [List.range_succ_eq_map (rest3.length + 1)]
        simp only [List.flatMap_cons, List.flatMap_map, Nat.zero_add, Nat.add_zero,
          List.getD_cons_zero, List.getD_cons_succ]
        have h0 : 0 + 2 < rest3.length + 1 + 1 + 1 := by omega
        simp only [Nat.zero_add] at h0
        rw [if_pos h0]
        simp only [List.cons_append, List.nil_append, List.singleton_append, List.cons.injEq,
          true_and]
        apply List.flatMap_congr
        intro j _
        have e1 : k + 1 + j = k + (j + 1) := by omega
        have e2 : (j + 2 < rest3.length + 1 + 1) = (j + 1 + 2 < rest3.length + 1 + 1 + 1) := by
          apply propext
          omega
        simp only [e1, e2, Function.comp, Nat.succ_eq_add_one]

/-- The recursion of the embedding and the loop by index give the same children. -/
theorem pipeChildren_eq_childrenByIndex (id : String) (points : List Vec3) :
    pipeChildren id 0 points = childrenByIndex id points := by
  rw [pipeChildren_offset id points 0]
  unfold childrenByIndex
  simp only [Nat.zero_add]

theorem filter_flatMap_head {α β : Type} (p : β → Bool) (a : α → β) (b : α → List β)
    (l : List α) (ha : ∀ i, p (a i) = true) (hb : ∀ i, ∀ x ∈ b i, p x = false) :
    (l.flatMap fun i => a i :: b i).filter p = l.map a := by
  induction l with
  | nil => rfl
  | cons i rest ih =>
    simp only [List.flatMap_cons, List.filter_append, List.map_cons, List.filter_cons, ha i,
      if_true, ih, List.cons_append, List.cons.injEq, true_and]
    have : (b i).filter p = [] := by
      rw [List.filter_eq_nil_iff]
      intro x hx
      simp [hb i x hx]
    rw [this]
    rfl

theorem filter_flatMap_tail {α β : Type} (p : β → Bool) (a : α → β) (b : α → List β)
    (l : List α) (ha : ∀ i, p (a i) = false) (hb : ∀ i, ∀ x ∈ b i, p x = true) :
    (l.flatMap fun i => a i :: b i).filter p = l.flatMap b := by
  induction l with
  | nil => rfl
  | cons i rest ih =>
    simp only [List.flatMap_cons, List.filter_append, List.filter_cons, ha i, ih,
      List.cons_append]
    have : (b i).filter p = b i := by
      rw [List.filter_eq_self]
      exact hb i
    simp [this]

theorem flatMap_eq_map_of_singleton {α β : Type} (f : α → List β) (c : α → β) (l : List α)
    (h : ∀ i ∈ l, f i = [c i]) : l.flatMap f = l.map c := by
  induction l with
  | nil => rfl
  | cons i rest ih =>
    rw [List.flatMap_cons, List.map_cons, h i (List.mem_cons_self _ _),
      ih (fun j hj => h j (List.mem_cons_of_mem _ hj))]
    rfl

theorem joints_by_index {β : Type} (n : ℕ) (hn : 2 ≤ n) (c : ℕ → β) :
    ((List.range (n - 1)).flatMap fun i => if i + 2 < n then [c i] else [])
      = (List.range (n - 2)).map c := by
  obtain ⟨m, rfl⟩ : ∃ m, n = m + 2 := ⟨n - 2, by omega⟩
  simp only [Nat.add_sub_cancel]
  have h1 : m + 2 - 1 = m + 1 := by omega
  rw [h1, List.range_succ, List.flatMap_append]
  simp only [List.flatMap_cons, List.flatMap_nil, Nat.lt_irrefl, if_false, List.append_nil]
  apply flatMap_eq_map_of_singleton
  intro i hi
  have : i + 2 < m + 2 := by
    have := List.mem_range.mp hi
    omega
  rw [if_pos this]

/-- C22: for every pipe record with `n` points, `n` at least 2, `createPipeFromData`
registers one node named after the record, whose children are the segments and the
connections of the loop by index. The children marked pickable are the `n - 1` segments
`<id>_segment_0` to `<id>_segment_(n-2)`, in point order, each a mesh; the other children
are the `n - 2` connections, in order, and the connection at joint `i` is a mesh exactly
when the directions into and out of point `i + 1` are not nearly collinear, that is when
the cosine between them does not exceed 0.95. -/
theorem createPipeFromData_children_by_index (pipes : List PipeNode) (r : PipeData)
    (points : List Vec3) (hpoints : r.points = some points) (hn : 2 ≤ points.length) :
    (createPipeFromData pipes r).map (·.name) = pipes.map (·.name) ++ [r.id]
    ∧ (createPipeFromData pipes r).map (·.children)
        = pipes.map (·.children) ++ [childrenByIndex r.id points]
    ∧ ((childrenByIndex r.id points).filter fun c => c.markedPickable)
        = (List.range (points.length - 1)).map (fun i =>
            ({ name := r.id ++ "_segment_" ++ toString i, isMesh := true,
               markedPickable := true } : PipeChild))
    ∧ ((childrenByIndex r.id points).filter fun c => !c.markedPickable)
        = (List.range (points.length - 2)).map fun i =>
            ({ name := r.id ++ "_connection_" ++ toString i
               isMesh := !nearlyCollinear (points.getD (i + 1) ⟨none, none, none⟩)
                 (points.getD i ⟨none, none, none⟩)
                 (points.getD (i + 2) ⟨none, none, none⟩) } : PipeChild) := by
  refine ⟨?_, ?_, ?_, ?_⟩
  · unfold createPipeFromData
    simp [hpoints, Nat.not_lt.mpr hn]
  · unfold createPipeFromData
    simp [hpoints, Nat.not_lt.mpr hn, pipeChildren_eq_childrenByIndex]
  · unfold childrenByIndex
    apply filter_flatMap_head
    · intro i; rfl
    · intro i x hx
      split at hx
      · simp only [List.mem_singleton] at hx
        rw [hx]
      · simp at hx
  · unfold childrenByIndex
    rw [filter_flatMap_tail (fun c : PipeChild => !c.markedPickable)]
    · exact joints_by_index points.length hn _
    · intro i; rfl
    · intro i x hx
      split at hx
      · simp only [List.mem_singleton] at hx
        rw [hx]
        rfl
      · simp at hx

/-- Witness of C22 on the points (0,0,0), (0,0,10), (10,0,10): two segments and one
connection, which is a mesh. -/
theorem createPipeFromData_children_by_index_witness :
    turnPipe.points = some turnPoints ∧ 2 ≤ turnPoints.length
    ∧ (createPipeFromData [] turnPipe).map (·.children)
        = [[{ name := "PIPE-T_segment_0", isMesh := true, markedPickable := true },
            { name := "PIPE-T_connection_0", isMesh := true },
            { name := "PIPE-T_segment_1", isMesh := true, markedPickable := true }]]
    ∧ ((childrenByIndex turnPipe.id turnPoints).filter fun c => c.markedPickable)
        = [{ name := "PIPE-T_segment_0", isMesh := true, markedPickable := true },
           { name := "PIPE-T_segment_1", isMesh := true, markedPickable := true }]
    ∧ ((childrenByIndex turnPipe.id turnPoints).filter fun c => !c.markedPickable)
        = [{ name := "PIPE-T_connection_0", isMesh := true }] :=
  have h := createPipeFromData_children_by_index [] turnPipe turnPoints rfl (by decide)
  ⟨rfl, by decide, h.2.1.trans (by decide!), h.2.2.1.trans (by decide!),
    h.2.2.2.trans (by decide!)⟩

/-- Three collinear points in one direction give two segment meshes and no connector mesh:
the node created at the joint is an empty `TransformNode`. -/
theorem straight_pipe_has_no_connector :
    (createPipeFromData [] straightPipe).map (·.children)
      = [[{ name := "PIPE-S_segment_0", isMesh := true, markedPickable := true },
          { name := "PIPE-S_connection_0", isMesh := false },
          { name := "PIPE-S_segment_1", isMesh := true, markedPickable := true }]] := by
  decide!

/-- A coordinate that a point of the record lacks counts as 0: three points on one line
given without `y` get two segment meshes and no connector mesh, as the same points with
`y = 0` do. -/
theorem missing_coordinate_counts_as_zero :
    (createPipeFromData [] flatPipe).map (·.children)
      = [[{ name := "PIPE-F_segment_0", isMesh := true, markedPickable := true },
          { name := "PIPE-F_connection_0", isMesh := false },
          { name := "PIPE-F_segment_1", isMesh := true, markedPickable := true }]]
    ∧ nearlyCollinear ⟨some 0, none, some 5⟩ ⟨some 0, none, some 0⟩ ⟨some 0, none, some 10⟩
        = nearlyCollinear ⟨some 0, some 0, some 5⟩ ⟨some 0, some 0, some 0⟩
            ⟨some 0, some 0, some 10⟩ := by
  decide!

/-- The exact test of `nearlyCollinear` is the test `dot > 0.95` on the normalised
directions: for non-zero directions `a` and `b`, the dot product is positive with its
square above (19/20)^2 times the squared lengths exactly when the cosine
`a . b / (|a| |b|)` exceeds 19/20. -/
theorem nearlyCollinear_test_iff_cosine (a b : ℚ × ℚ × ℚ) (ha : 0 < dot a a)
    (hb : 0 < dot b b) :
    (0 < dot a b ∧ (19 / 20) ^ 2 * (dot a a * dot b b) < dot a b ^ 2)
      ↔ (19 / 20 : ℝ) <
          (dot a b : ℝ) / (Real.sqrt ((dot a a : ℚ) : ℝ) * Real.sqrt ((dot b b : ℚ) : ℝ)) := by
  have ha1 : (0 : ℝ) < ((dot a a : ℚ) : ℝ) := by exact_mod_cast ha
  have hb1 : (0 : ℝ) < ((dot b b : ℚ) : ℝ) := by exact_mod_cast hb
  have hsa := Real.sqrt_pos.mpr ha1
  have hsb := Real.sqrt_pos.mpr hb1
  have hs : 0 < Real.sqrt ((dot a a : ℚ) : ℝ) * Real.sqrt ((dot b b : ℚ) : ℝ) :=
    mul_pos hsa hsb
  have hsq : (Real.sqrt ((dot a a : ℚ) : ℝ) * Real.sqrt ((dot b b : ℚ) : ℝ)) ^ 2
      = ((dot a a : ℚ) : ℝ) * ((dot b b : ℚ) : ℝ) := by
    rw [mul_pow, Real.sq_sqrt ha1.le, Real.sq_sqrt hb1.le]
  rw [lt_div_iff₀ hs]
  constructor
  · rintro ⟨hd, hlt⟩
    have hd1 : (0 : ℝ) < ((dot a b : ℚ) : ℝ) := by exact_mod_cast hd
    have hlt0 : ((((19 / 20) ^ 2 * (dot a a * dot b b) : ℚ)) : ℝ) < ((dot a b ^ 2 : ℚ) : ℝ) :=
      Rat.cast_lt.mpr hlt
    have hlt1 : ((19 / 20 : ℝ)) ^ 2 * (((dot a a : ℚ) : ℝ) * ((dot b b : ℚ) : ℝ))
        < ((dot a b : ℚ) : ℝ) ^ 2 := by
      push_cast at hlt0
      exact hlt0
    rw [← hsq, ← mul_pow] at hlt1
    exact lt_of_pow_lt_pow_left₀ 2 hd1.le hlt1
  · intro h
    have hpos : (0 : ℝ) < 19 / 20 *
        (Real.sqrt ((dot a a : ℚ) : ℝ) * Real.sqrt ((dot b b : ℚ) : ℝ)) := by positivity
    have hd1 : (0 : ℝ) < ((dot a b : ℚ) : ℝ) := lt_trans hpos h
    have hlt1 := pow_lt_pow_left₀ h hpos.le (two_ne_zero)
    rw [mul_pow, hsq] at hlt1
    have hlt0 : ((((19 / 20) ^ 2 * (dot a a * dot b b) : ℚ)) : ℝ) < ((dot a b ^ 2 : ℚ) : ℝ) := by
      push_cast
      exact hlt1
    exact ⟨by exact_mod_cast hd1, Rat.cast_lt.mp hlt0⟩

end PipesManager

/-! ## Placement of a segment -/

namespace PipesManager

theorem dot_self_pos_of_ne (start finish : ℚ × ℚ × ℚ) (h : start ≠ finish) :
    0 < dot (direction start finish) (direction start finish) := by
  obtain ⟨sx, sy, sz⟩ := start
  obtain ⟨fx, fy, fz⟩ := finish
  simp only [dot, direction]
  by_contra hle
  have h0 : (fx - sx) * (fx - sx) + (fy - sy) * (fy - sy) + (fz - sz) * (fz - sz) ≤ 0 :=
    not_lt.mp hle
  have hx : fx - sx = 0 := by
    nlinarith [mul_self_nonneg (fx - sx), mul_self_nonneg (fy - sy), mul_self_nonneg (fz - sz)]
  have hy : fy - sy = 0 := by
    nlinarith [mul_self_nonneg (fx - sx), mul_self_nonneg (fy - sy), mul_self_nonneg (fz - sz)]
  have hz : fz - sz = 0 := by
    nlinarith [mul_self_nonneg (fx - sx), mul_self_nonneg (fy - sy), mul_self_nonneg (fz - sz)]
  apply h
  rw [sub_eq_zero] at hx hy hz
  rw [hx, hy, hz]

theorem _positionCylinder_rotation (start finish : ℚ × ℚ × ℚ) (h : start ≠ finish) :
    (_positionCylinder start finish).rotationQuaternion =
      if alongY start finish = true then
        if (direction start finish).2.1 < 0 then Orientation.halfTurnAboutX
        else Orientation.identity
      else
        Orientation.axisAngle ((direction start finish).2.2, 0, -(direction start finish).1)
          (direction start finish).2.1 (dot (direction start finish) (direction start finish)) := by
  have hpos := dot_self_pos_of_ne start finish h
  have hne : ¬ dot (direction start finish) (direction start finish) = 0 := ne_of_gt hpos
  show (if dot (direction start finish) (direction start finish) = 0
        ∨ (direction start finish).2.1 ^ 2
            < (99999 / 100000) ^ 2 * dot (direction start finish) (direction start finish) then
        Orientation.axisAngle ((direction start finish).2.2, 0, -(direction start finish).1)
          (direction start finish).2.1 (dot (direction start finish) (direction start finish))
      else if (direction start finish).2.1 < 0 then Orientation.halfTurnAboutX
      else Orientation.identity) = _
  unfold alongY
  by_cases hy : (99999 / 100000) ^ 2 * dot (direction start finish) (direction start finish)
      ≤ (direction start finish).2.1 ^ 2
  · have hn : ¬ (dot (direction start finish) (direction start finish) = 0
        ∨ (direction start finish).2.1 ^ 2
            < (99999 / 100000) ^ 2 * dot (direction start finish) (direction start finish)) := by
      rintro (h0 | h1)
      · exact hne h0
      · exact absurd hy (not_le.mpr h1)
    rw [if_neg hn]
    simp only [hy, decide_True, if_true]
  · have hp : (dot (direction start finish) (direction start finish) = 0
        ∨ (direction start finish).2.1 ^ 2
            < (99999 / 100000) ^ 2 * dot (direction start finish) (direction start finish)) :=
      Or.inr (not_le.mp hy)
    rw [if_pos hp]
    simp [hy]

/-- C23, evaluated on the code: from (0,0,0) to (1,1000,0) the direction is not parallel to
the Y axis, yet `_positionCylinder` assigns the identity rotation, not a rotation about
cross(Y, direction); from (0,0,0) to (1,-1000,0) it assigns the half turn about X. The test
of the code is `Math.abs(direction.y) < 0.99999`, a tolerance, not parallelism. -/
theorem positionCylinder_identity_off_axis :
    parallelToY (0, 0, 0) (1, 1000, 0) = false
    ∧ (_positionCylinder (0, 0, 0) (1, 1000, 0)).rotationQuaternion = Orientation.identity
    ∧ parallelToY (0, 0, 0) (1, -1000, 0) = false
    ∧ (_positionCylinder (0, 0, 0) (1, -1000, 0)).rotationQuaternion
        = Orientation.halfTurnAboutX := by
  decide!

/-- C23, amended: for every pair of distinct points, `_positionCylinder` places the
cylinder at the midpoint of `start` and `end`. When the direction is within the tolerance of
the Y axis (`|direction.y| >= 0.99999` after normalisation, which includes every direction
parallel or antiparallel to Y) the rotation is the identity if the direction points up and
the half turn about X if it points down. In every other case the rotation is
`RotationAxis(cross(Y, d) normalised, acos(d.y / |d|))` with `d = end - start`, and
`cross(Y, d) = (d.z, 0, -d.x)` is then not the zero vector. -/
theorem positionCylinder_places_within_tolerance (start finish : ℚ × ℚ × ℚ)
    (h : start ≠ finish) :
    (_positionCylinder start finish).position = midpoint start finish
    ∧ (parallelToY start finish = true → alongY start finish = true)
    ∧ (alongY start finish = true → 0 ≤ (direction start finish).2.1 →
        (_positionCylinder start finish).rotationQuaternion = Orientation.identity)
    ∧ (alongY start finish = true → (direction start finish).2.1 < 0 →
        (_positionCylinder start finish).rotationQuaternion = Orientation.halfTurnAboutX)
    ∧ (alongY start finish = false →
        (_positionCylinder start finish).rotationQuaternion
          = Orientation.axisAngle ((direction start finish).2.2, 0, -(direction start finish).1)
              (direction start finish).2.1
              (dot (direction start finish) (direction start finish))
        ∧ ((direction start finish).2.2, (0 : ℚ), -(direction start finish).1) ≠ (0, 0, 0)
        ∧ 0 < dot (direction start finish) (direction start finish)) := by
  have hrot := _positionCylinder_rotation start finish h
  have hpos := dot_self_pos_of_ne start finish h
  refine ⟨?_, ?_, ?_, ?_, ?_⟩
  · obtain ⟨sx, sy, sz⟩ := start
    obtain ⟨fx, fy, fz⟩ := finish
    simp only [_positionCylinder, midpoint, Prod.mk.injEq]
    refine ⟨?_, ?_, ?_⟩ <;> ring
  · intro hpar
    simp only [parallelToY, decide_eq_true_eq] at hpar
    have hx : (direction start finish).1 = 0 := hpar.1
    have hz : (direction start finish).2.2 = 0 := hpar.2
    simp only [alongY, decide_eq_true_eq, dot, hx, hz]
    nlinarith [mul_self_nonneg (direction start finish).2.1]
  · intro hy hup
    rw [hrot, if_pos hy, if_neg (not_lt.mpr hup)]
  · intro hy hdown
    rw [hrot, if_pos hy, if_pos hdown]
  · intro hy
    have hy2 : ¬ alongY start finish = true := by rw [hy]; decide
    refine ⟨by rw [hrot, if_neg hy2], ?_, hpos⟩
    intro hax
    simp only [Prod.mk.injEq, neg_eq_zero, true_and] at hax
    apply hy2
    simp only [alongY, decide_eq_true_eq, dot, hax.1, hax.2]
    nlinarith [mul_self_nonneg (direction start finish).2.1]

/-- Witness of C23: from (0,0,0) to (0,0,10) the cylinder sits at (0,0,5) and is rotated by
`acos(0 / 10)`, a quarter turn, about the normalised (10,0,0); from (0,2,0) to (0,7,0) it
sits at (0,9/2,0) with the identity rotation. -/
theorem positionCylinder_places_within_tolerance_witness :
    ((0, 0, 0) : ℚ × ℚ × ℚ) ≠ (0, 0, 10)
    ∧ (_positionCylinder (0, 0, 0) (0, 0, 10)).position = (0, 0, 5)
    ∧ (_positionCylinder (0, 0, 0) (0, 0, 10)).rotationQuaternion
        = Orientation.axisAngle (10, 0, 0) 0 100
    ∧ (_positionCylinder (0, 2, 0) (0, 7, 0)).position = (0, 9 / 2, 0)
    ∧ (_positionCylinder (0, 2, 0) (0, 7, 0)).rotationQuaternion = Orientation.identity :=
  have h1 := positionCylinder_places_within_tolerance (0, 0, 0) (0, 0, 10) (by decide!)
  have h2 := positionCylinder_places_within_tolerance (0, 2, 0) (0, 7, 0) (by decide!)
  ⟨by decide!, h1.1.trans (by decide!), (h1.2.2.2.2 (by decide!)).1.trans (by decide!),
    h2.1.trans (by decide!), h2.2.2.1 (by decide!) (by decide!)⟩

end PipesManager

/-! ## Names of meshes -/

theorem append_left_cancel_string (id a b : String) (h : id ++ a = id ++ b) : a = b := by
  have h1 := congrArg String.data h
  simp only [String.data_append] at h1
  exact String.ext (List.append_cancel_left h1)

theorem beq_append_false (id a b : String) (h : a ≠ b) : ((id ++ a) == (id ++ b)) = false := by
  rw [beq_eq_false_iff_ne]
  intro e
  exact h (append_left_cancel_string id a b e)

theorem step_suffix_ne_level (x : String) : "_step_" ++ x ≠ "_level" := by
  intro e
  have h := congrArg (fun s : String => s.data.get? 1) e
  obtain ⟨xs⟩ := x
  change some 's' = some 'l' at h
  exact absurd h (by decide)

theorem support_suffix_ne_level (x : String) : "_support_" ++ x ≠ "_level" := by
  intro e
  have h := congrArg (fun s : String => s.data.get? 1) e
  obtain ⟨xs⟩ := x
  change some 's' = some 'l' at h
  exact absurd h (by decide)

theorem countP_modifyFirst {α : Type} (p q : α → Bool) (f : α → α)
    (hq : ∀ x, q (f x) = q x) (l : List α) :
    (modifyFirst p f l).countP q = l.countP q := by
  induction l with
  | nil => rfl
  | cons x xs ih =>
    by_cases hx : p x = true
    · simp [modifyFirst, hx, List.countP_cons, hq x]
    · simp [modifyFirst, hx, List.countP_cons, ih]

/-! ## The level mesh -/

namespace TanksManager

theorem stairMeshes_not_level (id : String) (h : ℚ) :
    ∀ m ∈ stairMeshes id h, (m.name == id ++ "_level") = false := by
  intro m hm
  simp only [stairMeshes, List.mem_append, List.mem_cons, List.mem_map,
    List.not_mem_nil, or_false] at hm
  rcases hm with (rfl | rfl) | ⟨i, _, rfl⟩
  · exact beq_append_false id "_rail1" "_level" (by decide)
  · exact beq_append_false id "_rail2" "_level" (by decide)
  · show ((id ++ "_step_" ++ toString i) == id ++ "_level") = false
    rw [String.append_assoc]
    exact beq_append_false id _ "_level" (step_suffix_ne_level _)

theorem connectionMeshes_not_level (id : String) :
    ∀ m ∈ connectionMeshes id, (m.name == id ++ "_level") = false := by
  intro m hm
  simp only [connectionMeshes, List.mem_cons, List.not_mem_nil, or_false] at hm
  rcases hm with rfl | rfl
  · exact beq_append_false id "_bottomConn" "_level" (by decide)
  · exact beq_append_false id "_valve" "_level" (by decide)

theorem cylindricalMeshes_not_level (id : String) (config : TankTypeConfig) :
    ∀ m ∈ cylindricalMeshes id config, (m.name == id ++ "_level") = false := by
  intro m hm
  simp only [cylindricalMeshes, List.mem_append] at hm
  rcases hm with ((hm | hm) | hm) | hm
  · simp only [List.mem_cons, List.not_mem_nil, or_false] at hm
    rcases hm with rfl | rfl
    · exact beq_append_false id "_body" "_level" (by decide)
    · exact beq_append_false id "_roof" "_level" (by decide)
  · split at hm
    · split at hm
      · simp only [List.mem_cons, List.not_mem_nil, or_false] at hm
        rw [hm]
        exact beq_append_false id "_platform" "_level" (by decide)
      · simp at hm
    · simp at hm
  · split at hm
    · split at hm
      · exact stairMeshes_not_level id _ m hm
      · simp at hm
    · simp at hm
  · exact connectionMeshes_not_level id m hm

theorem sphericalMeshes_not_level (id : String) (config : TankTypeConfig) :
    ∀ m ∈ sphericalMeshes id config, (m.name == id ++ "_level") = false := by
  intro m hm
  simp only [sphericalMeshes, List.mem_append, List.mem_cons, List.mem_map,
    List.not_mem_nil, or_false] at hm
  rcases hm with (rfl | ⟨i, _, rfl⟩) | rfl
  · exact beq_append_false id "_body" "_level" (by decide)
  · show ((id ++ "_support_" ++ toString i) == id ++ "_level") = false
    rw [String.append_assoc]
    exact beq_append_false id _ "_level" (support_suffix_ne_level _)
  · exact beq_append_false id "_connection" "_level" (by decide)

/-- No mesh a tank is built with is named `<id>_level`, whatever the record. -/
theorem createTankFromData_not_level (r : TankData) :
    ∀ m ∈ (createTankFromData r).children, (m.name == r.id ++ "_level") = false := by
  intro m hm
  unfold createTankFromData at hm
  dsimp only at hm
  split at hm
  · exact sphericalMeshes_not_level _ _ m hm
  · exact cylindricalMeshes_not_level _ _ m hm

theorem createTankFromData_no_level (r : TankData) :
    (createTankFromData r).children.find? (fun m => m.name == r.id ++ "_level") = none := by
  rw [List.find?_eq_none]
  intro m hm
  simp [createTankFromData_not_level r m hm]

theorem knownTypes_lookup (ty : String) (h : ty ∈ knownTypes) :
    ∃ cfg, lookupKey _tankConfig.types (jsOr (some ty) "standard") = Lookup.own cfg
      ∧ _tankConfig.types.lookup ty = some cfg := by
  simp only [knownTypes, List.mem_cons, List.not_mem_nil, or_false] at h
  rcases h with rfl | rfl | rfl | rfl <;> exact ⟨_, rfl, rfl⟩

theorem rescaleLevelMesh_name (ty : String) (cfg : TankTypeConfig) (level : ℚ) (m : Mesh) :
    (rescaleLevelMesh ty cfg level m).name = m.name := by
  unfold rescaleLevelMesh
  split <;> rfl

theorem rescaleLevelMesh_scalingY (ty : String) (cfg : TankTypeConfig) (level : ℚ) (m : Mesh) :
    (rescaleLevelMesh ty cfg level m).scalingY = levelScale level := by
  unfold rescaleLevelMesh
  split <;> rfl

theorem newLevelMesh_name (id ty : String) (cfg : TankTypeConfig) :
    (newLevelMesh id ty cfg).name = id ++ "_level" := by
  unfold newLevelMesh
  split <;> rfl

theorem applyLevel_equipmentType (n : TankNode) (nm : String) (level : ℚ) :
    (applyLevel n nm level).state.metadata.equipmentType = n.metadata.equipmentType := by
  unfold applyLevel
  split
  · rfl
  · split <;> rfl

theorem updateLevelNode_equipmentType (n : TankNode) (id : String) (level : ℚ) :
    (updateLevelNode n id level).state.metadata.equipmentType = n.metadata.equipmentType := by
  unfold updateLevelNode
  split
  · exact applyLevel_equipmentType _ _ _
  · dsimp only
    split
    · rfl
    · exact applyLevel_equipmentType _ _ _
    · exact applyLevel_equipmentType _ _ _

theorem applyLevel_children (n : TankNode) (nm : String) (level : ℚ) (cfg : TankTypeConfig)
    (h : lookupKey _tankConfig.types (jsOr (some n.metadata.equipmentType) "standard")
      = Lookup.own cfg) :
    (applyLevel n nm level).state.children
      = modifyFirst (fun m => m.name == nm)
          (rescaleLevelMesh n.metadata.equipmentType cfg level) n.children := by
  unfold applyLevel
  split
  · rename_i hs
    apply modifyFirst_congr
    intro x _
    simp [rescaleLevelMesh, hs]
  · rename_i hs
    simp only [h]
    rw [modifyFirst_modifyFirst]
    · apply modifyFirst_congr
      intro x _
      simp [rescaleLevelMesh, hs]
    · intro x hx
      exact hx

theorem updateLevelNode_children_of_some (n : TankNode) (id : String) (level : ℚ)
    (cfg : TankTypeConfig) (m0 : Mesh)
    (h : lookupKey _tankConfig.types (jsOr (some n.metadata.equipmentType) "standard")
      = Lookup.own cfg)
    (hf : n.children.find? (fun m => m.name == id ++ "_level") = some m0) :
    (updateLevelNode n id level).state.children
      = modifyFirst (fun m => m.name == id ++ "_level")
          (rescaleLevelMesh n.metadata.equipmentType cfg level) n.children := by
  unfold updateLevelNode
  simp only [hf]
  exact applyLevel_children n _ level cfg h

theorem updateLevelNode_children_of_none (n : TankNode) (id : String) (level : ℚ)
    (cfg : TankTypeConfig)
    (h : lookupKey _tankConfig.types (jsOr (some n.metadata.equipmentType) "standard")
      = Lookup.own cfg)
    (hf : n.children.find? (fun m => m.name == id ++ "_level") = none) :
    (updateLevelNode n id level).state.children
      = modifyFirst (fun m => m.name == id ++ "_level")
          (rescaleLevelMesh n.metadata.equipmentType cfg level)
          (n.children ++
            [newLevelMesh id (jsOr (some n.metadata.equipmentType) "standard") cfg]) := by
  unfold updateLevelNode
  simp only [hf, h]
  exact applyLevel_children
    { n with children := n.children ++
        [newLevelMesh id (jsOr (some n.metadata.equipmentType) "standard") cfg] }
    _ level cfg h

/-- The level mesh of a node after the body of `updateProductLevel`, for a type with an own
entry: the level mesh the node had, or else a new one, rescaled. -/
theorem find?_level_updateLevelNode (n : TankNode) (id : String) (level : ℚ)
    (cfg : TankTypeConfig)
    (h : lookupKey _tankConfig.types (jsOr (some n.metadata.equipmentType) "standard")
      = Lookup.own cfg) :
    (updateLevelNode n id level).state.children.find? (fun m => m.name == id ++ "_level")
      = some (rescaleLevelMesh n.metadata.equipmentType cfg level
          ((n.children.find? (fun m => m.name == id ++ "_level")).getD
            (newLevelMesh id (jsOr (some n.metadata.equipmentType) "standard") cfg))) := by
  have hname : ∀ x : Mesh, (x.name == id ++ "_level") = true →
      ((rescaleLevelMesh n.metadata.equipmentType cfg level x).name == id ++ "_level") = true := by
    intro x hx
    rw [rescaleLevelMesh_name]
    exact hx
  cases hf : n.children.find? (fun m => m.name == id ++ "_level") with
  | some m0 =>
    rw [updateLevelNode_children_of_some n id level cfg m0 h hf, find?_modifyFirst _ _ hname, hf]
    rfl
  | none =>
    rw [updateLevelNode_children_of_none n id level cfg h hf, find?_modifyFirst _ _ hname,
      List.find?_append, hf]
    simp [newLevelMesh_name]

/-- The number of level meshes of a node after the body of `updateProductLevel`, for a type
with an own entry: one more than before when there was none, as many as before otherwise. -/
theorem countP_level_updateLevelNode (n : TankNode) (id : String) (level : ℚ)
    (cfg : TankTypeConfig)
    (h : lookupKey _tankConfig.types (jsOr (some n.metadata.equipmentType) "standard")
      = Lookup.own cfg) :
    (updateLevelNode n id level).state.children.countP (fun m => m.name == id ++ "_level")
      = max 1 (n.children.countP fun m => m.name == id ++ "_level") := by
  have hname : ∀ x : Mesh,
      ((rescaleLevelMesh n.metadata.equipmentType cfg level x).name == id ++ "_level")
        = (x.name == id ++ "_level") := by
    intro x
    rw [rescaleLevelMesh_name]
  cases hf : n.children.find? (fun m => m.name == id ++ "_level") with
  | some m0 =>
    rw [updateLevelNode_children_of_some n id level cfg m0 h hf,
      countP_modifyFirst _ (fun m : Mesh => m.name == id ++ "_level") _ hname]
    have hpos : 0 < n.children.countP (fun m => m.name == id ++ "_level") := by
      have hp := List.find?_some hf
      rw [List.countP_pos_iff]
      exact ⟨m0, List.mem_of_find?_eq_some hf, hp⟩
    omega
  | none =>
    rw [updateLevelNode_children_of_none n id level cfg h hf,
      countP_modifyFirst _ (fun m : Mesh => m.name == id ++ "_level") _ hname,
      List.countP_append]
    have h0 : n.children.countP (fun m => m.name == id ++ "_level") = 0 := by
      rw [List.countP_eq_zero]
      intro a ha
      have := List.find?_eq_none.mp hf a ha
      simpa using this
    rw [h0]
    simp [List.countP_cons, newLevelMesh_name]

theorem getTankById_updateProductLevel (tanks : List TankNode) (id : String) (level : ℚ)
    (t : TankNode) (ht : getTankById tanks id = some t) :
    getTankById (updateProductLevel tanks id level).state id
      = some (updateLevelNode t id level).state := by
  unfold getTankById at ht
  unfold getTankById updateProductLevel
  simp only [ht]
  rw [find?_modifyFirst]
  · simp [ht]
  · intro x _
    have := List.find?_some ht
    simp only [updateLevelNode_name]
    exact this

/-- The level mesh of a registered tank of a type with an own entry after
`updateProductLevel`. -/
theorem levelMesh_updateProductLevel (tanks : List TankNode) (id : String) (level : ℚ)
    (t : TankNode) (cfg : TankTypeConfig) (ht : getTankById tanks id = some t)
    (h : lookupKey _tankConfig.types (jsOr (some t.metadata.equipmentType) "standard")
      = Lookup.own cfg) :
    levelMesh (updateProductLevel tanks id level).state id
      = some (rescaleLevelMesh t.metadata.equipmentType cfg level
          ((levelMesh tanks id).getD
            (newLevelMesh id (jsOr (some t.metadata.equipmentType) "standard") cfg))) := by
  unfold levelMesh
  rw [getTankById_updateProductLevel tanks id level t ht, ht]
  exact find?_level_updateLevelNode t id level cfg h

end TanksManager

/-! ## The scale and the position of the level mesh -/

namespace TanksManager

theorem levelScale_eq_clamp01 (level : ℚ) (h : 1 / 100 ≤ level) :
    levelScale level = clamp01 level := by
  unfold levelScale clamp01
  have h1 : (1 : ℚ) / 100 ≤ min level 1 := le_min h (by norm_num)
  have h2 : (0 : ℚ) ≤ min level 1 := le_trans (by norm_num) h1
  rw [max_eq_right h1, max_eq_right h2]

theorem levelScale_eq_floor (level : ℚ) (h : level ≤ 1 / 100) : levelScale level = 1 / 100 := by
  unfold levelScale
  have h1 : min level 1 ≤ (1 : ℚ) / 100 := le_trans (min_le_left _ _) h
  rw [max_eq_left h1]

/-- The vertical scale of the level mesh of a registered tank of a known type after
`updateProductLevel`. -/
theorem scalingY_updateProductLevel (tanks : List TankNode) (id : String) (level : ℚ)
    (t : TankNode) (ht : getTankById tanks id = some t)
    (hknown : t.metadata.equipmentType ∈ knownTypes) :
    (levelMesh (updateProductLevel tanks id level).state id).map (·.scalingY)
      = some (levelScale level) := by
  obtain ⟨cfg, hcfg, _⟩ := knownTypes_lookup _ hknown
  rw [levelMesh_updateProductLevel tanks id level t cfg ht hcfg]
  simp [rescaleLevelMesh_scalingY]

theorem exampleTank_knownType :
    (createTankFromData exampleTank).metadata.equipmentType ∈ knownTypes := by
  decide

/-- C24, evaluated on the code: on the tank built from the record `TQ-01`,
`updateProductLevel('TQ-01', 0)` leaves the vertical scale of the level mesh at 0.01, not
at the fill fraction 0, and a negative level does the same; the expression of the code is
`Math.max(0.01, Math.min(level, 1))`. -/
theorem updateProductLevel_scale_has_floor :
    (levelMesh (updateProductLevel exampleTanks "TQ-01" 0).state "TQ-01").map (·.scalingY)
      = some (1 / 100)
    ∧ clamp01 0 = 0
    ∧ (levelMesh (updateProductLevel exampleTanks "TQ-01" (-1 / 2)).state "TQ-01").map
        (·.scalingY) = some (1 / 100)
    ∧ clamp01 (-1 / 2) = 0 := by
  have h := fun level =>
    scalingY_updateProductLevel exampleTanks "TQ-01" level _ getTankById_exampleTanks
      exampleTank_knownType
  refine ⟨?_, ?_, ?_, ?_⟩
  · rw [h]; norm_num [levelScale]
  · norm_num [clamp01]
  · rw [h]; norm_num [levelScale]
  · norm_num [clamp01]

/-- C24, amended: for every registered tank of a known type and every level,
`updateProductLevel(id, level)` returns normally, stores the level, and leaves the vertical
scale of the level mesh at `max(0.01, min(level, 1))`: the level clamped to [0, 1] when the
level is at least 0.01, and 0.01 for every smaller level. -/
theorem updateProductLevel_scales_with_floor (tanks : List TankNode) (id : String) (level : ℚ)
    (t : TankNode) (hreg : getTankById tanks id = some t)
    (hknown : t.metadata.equipmentType ∈ knownTypes) :
    (updateProductLevel tanks id level).thrown = none
    ∧ readLevel (updateProductLevel tanks id level).state id = some level
    ∧ (levelMesh (updateProductLevel tanks id level).state id).map (·.scalingY)
        = some (levelScale level)
    ∧ levelScale level = max (1 / 100) (min level 1)
    ∧ (1 / 100 ≤ level → levelScale level = clamp01 level)
    ∧ (level ≤ 1 / 100 → levelScale level = 1 / 100) := by
  obtain ⟨cfg, hcfg, _⟩ := knownTypes_lookup _ hknown
  have hne : lookupKey _tankConfig.types (jsOr (some t.metadata.equipmentType) "standard")
      ≠ Lookup.undefined := by
    rw [hcfg]
    exact fun e => Lookup.noConfusion e
  have h1 := readLevel_updateProductLevel tanks id level t hreg hne
  exact ⟨h1.2, h1.1, scalingY_updateProductLevel tanks id level t hreg hknown, rfl,
    levelScale_eq_clamp01 level, levelScale_eq_floor level⟩

/-- Witness of C24: on the tank built from the record `TQ-01` (type standard, level 0.5),
after `updateProductLevel('TQ-01', 0.9)` the level reads 0.9 and the vertical scale of the
level mesh is 0.9. -/
theorem updateProductLevel_scales_with_floor_witness :
    getTankById exampleTanks "TQ-01" = some (createTankFromData exampleTank)
    ∧ (createTankFromData exampleTank).metadata.equipmentType ∈ knownTypes
    ∧ (updateProductLevel exampleTanks "TQ-01" (9 / 10)).thrown = none
    ∧ readLevel (updateProductLevel exampleTanks "TQ-01" (9 / 10)).state "TQ-01"
        = some (9 / 10)
    ∧ (levelMesh (updateProductLevel exampleTanks "TQ-01" (9 / 10)).state "TQ-01").map
        (·.scalingY) = some (9 / 10) :=
  have h := updateProductLevel_scales_with_floor exampleTanks "TQ-01" (9 / 10)
    (createTankFromData exampleTank) getTankById_exampleTanks (by decide)
  ⟨getTankById_exampleTanks, by decide, h.1, h.2.1,
    h.2.2.1.trans (congrArg some ((h.2.2.2.2.1 (by decide!)).trans (by decide!)))⟩

theorem cylindricalTypes_lookup (ty : String) (h : ty ∈ cylindricalTypes) :
    ∃ cfg height, lookupKey _tankConfig.types (jsOr (some ty) "standard") = Lookup.own cfg
      ∧ cfg.height = some height ∧ configuredHeight ty = some height ∧ ty ≠ "spherical" := by
  simp only [cylindricalTypes, List.mem_cons, List.not_mem_nil, or_false] at h
  rcases h with rfl | rfl | rfl <;> exact ⟨_, _, rfl, rfl, rfl, by decide⟩

/-- C25: for every registered tank and every level, after `updateProductLevel(id, level)`:
when the tank is cylindrical (type standard, large or small, of configured height `h`) the
centre height of the level mesh minus half of its scaled height `0.98 * h * scale` is 0;
when the tank is spherical the level mesh is the level mesh it had, or else the new one
created at height `diameter / 2`, with nothing but its vertical scale changed. -/
theorem updateProductLevel_anchors_level_mesh (tanks : List TankNode) (id : String)
    (level : ℚ) (t : TankNode) (hreg : getTankById tanks id = some t) :
    (t.metadata.equipmentType ∈ cylindricalTypes →
      ∃ m c h, levelMesh (updateProductLevel tanks id level).state id = some m
        ∧ configuredHeight t.metadata.equipmentType = some h
        ∧ m.scalingY = levelScale level
        ∧ m.positionY = some c
        ∧ c - (49 / 50 * h * m.scalingY) / 2 = 0)
    ∧ (t.metadata.equipmentType = "spherical" →
        levelMesh (updateProductLevel tanks id level).state id
          = some { ((levelMesh tanks id).getD
                      (newLevelMesh id "spherical" ⟨none, some 6, some 32⟩)) with
                   scalingY := levelScale level }
        ∧ (newLevelMesh id "spherical" ⟨none, some 6, some 32⟩).positionY = some (6 / 2)) := by
  constructor
  · intro hc
    obtain ⟨cfg, h, hcfg, hh, hconf, hns⟩ := cylindricalTypes_lookup _ hc
    refine ⟨_, h * (49 / 50) * levelScale level / 2, h,
      levelMesh_updateProductLevel tanks id level t cfg hreg hcfg, hconf, ?_, ?_, ?_⟩
    · exact rescaleLevelMesh_scalingY _ _ _ _
    · simp [rescaleLevelMesh, hns, hh]
    · rw [rescaleLevelMesh_scalingY]
      ring
  · intro hs
    have hcfg : lookupKey _tankConfig.types (jsOr (some t.metadata.equipmentType) "standard")
        = Lookup.own ⟨none, some 6, some 32⟩ := by
      rw [hs]
      rfl
    refine ⟨?_, rfl⟩
    rw [levelMesh_updateProductLevel tanks id level t _ hreg hcfg, hs]
    have hj : jsOr (some "spherical") "standard" = "spherical" := rfl
    rw [hj]
    simp [rescaleLevelMesh]

/-- Witness of C25: the standard tank `TQ-01` (height 8) at level 0.9 has its level mesh
centred at half of `0.98 * 8 * scale`, and the spherical tank `TQ-05` (diameter 6) keeps
its level mesh at height 3 with vertical scale 0.25. -/
theorem updateProductLevel_anchors_level_mesh_witness :
    getTankById exampleTanks "TQ-01" = some (createTankFromData exampleTank)
    ∧ (createTankFromData exampleTank).metadata.equipmentType ∈ cylindricalTypes
    ∧ (∃ m c h, levelMesh (updateProductLevel exampleTanks "TQ-01" (9 / 10)).state "TQ-01"
          = some m
        ∧ configuredHeight (createTankFromData exampleTank).metadata.equipmentType = some h
        ∧ m.scalingY = levelScale (9 / 10)
        ∧ m.positionY = some c
        ∧ c - (49 / 50 * h * m.scalingY) / 2 = 0)
    ∧ getTankById [createTankFromData sphereTank] "TQ-05" = some (createTankFromData sphereTank)
    ∧ (levelMesh (updateProductLevel [createTankFromData sphereTank] "TQ-05" (1 / 4)).state
          "TQ-05").map (fun m => (m.positionY, m.scalingY)) = some (some 3, 1 / 4) :=
  have h1 := updateProductLevel_anchors_level_mesh exampleTanks "TQ-01" (9 / 10)
    (createTankFromData exampleTank) getTankById_exampleTanks
  have h2 := updateProductLevel_anchors_level_mesh [createTankFromData sphereTank] "TQ-05"
    (1 / 4) (createTankFromData sphereTank) (by decide!)
  ⟨getTankById_exampleTanks, by decide, h1.1 (by decide), by decide!,
    (congrArg (Option.map fun m => (m.positionY, m.scalingY)) (h2.2 (by decide)).1).trans
      (by decide!)⟩

end TanksManager

theorem modifyFirst_of_find? {α : Type} (p : α → Bool) (f : α → α) (l : List α) (a : α)
    (h : l.find? p = some a) (hf : f a = a) : modifyFirst p f l = l := by
  induction l with
  | nil => rfl
  | cons x xs ih =>
    by_cases hx : p x = true
    · rw [List.find?_cons_of_pos _ hx] at h
      have hxa : x = a := Option.some.inj h
      subst hxa
      simp [modifyFirst, hx, hf]
    · rw [List.find?_cons_of_neg _ hx] at h
      simp [modifyFirst, hx, ih h]

/-! ## Lazy creation of the level mesh -/

namespace TanksManager

theorem levelMeshCount_updateProductLevel (tanks : List TankNode) (id : String) (level : ℚ)
    (t : TankNode) (ht : getTankById tanks id = some t)
    (hknown : t.metadata.equipmentType ∈ knownTypes) :
    levelMeshCount (updateProductLevel tanks id level).state id
      = max 1 (levelMeshCount tanks id) := by
  obtain ⟨cfg, hcfg, _⟩ := knownTypes_lookup _ hknown
  unfold levelMeshCount
  rw [getTankById_updateProductLevel tanks id level t ht, ht]
  exact countP_level_updateLevelNode t id level cfg hcfg

theorem levelMeshCount_updateLevels (id : String) (levels : List ℚ) :
    ∀ (tanks : List TankNode) (t : TankNode), getTankById tanks id = some t →
      t.metadata.equipmentType ∈ knownTypes → levels ≠ [] →
      levelMeshCount (updateLevels tanks id levels) id = max 1 (levelMeshCount tanks id) := by
  induction levels with
  | nil => intro tanks t _ _ hne; exact absurd rfl hne
  | cons level rest ih =>
    intro tanks t ht hknown _
    have hstep := levelMeshCount_updateProductLevel tanks id level t ht hknown
    have ht2 := getTankById_updateProductLevel tanks id level t ht
    have hknown2 : (updateLevelNode t id level).state.metadata.equipmentType ∈ knownTypes := by
      rw [updateLevelNode_equipmentType]
      exact hknown
    have e : updateLevels tanks id (level :: rest)
        = updateLevels (updateProductLevel tanks id level).state id rest := rfl
    rw [e]
    by_cases hr : rest = []
    · rw [hr]
      exact hstep
    · rw [ih _ _ ht2 hknown2 hr, hstep]
      omega

/-- C26: for every tank record of a known type, on a registry in which `getTankById` finds
the tank built from it, the tank has no mesh named `<id>_level` before any call of
`updateProductLevel`, and after every non-empty sequence of calls
`updateProductLevel(id, level)` it has exactly one. -/
theorem level_mesh_created_once (tanks : List TankNode) (r : TankData) (levels : List ℚ)
    (hreg : getTankById tanks r.id = some (createTankFromData r))
    (hknown : jsOr r.type "standard" ∈ knownTypes) (hk : levels ≠ []) :
    levelMeshCount tanks r.id = 0
    ∧ levelMesh tanks r.id = none
    ∧ levelMeshCount (updateLevels tanks r.id levels) r.id = 1 := by
  have h0 : levelMeshCount tanks r.id = 0 := by
    unfold levelMeshCount
    rw [hreg]
    show (createTankFromData r).children.countP (fun m => m.name == r.id ++ "_level") = 0
    rw [List.countP_eq_zero]
    intro m hm
    simp [createTankFromData_not_level r m hm]
  refine ⟨h0, ?_, ?_⟩
  · unfold levelMesh
    rw [hreg]
    exact createTankFromData_no_level r
  · rw [levelMeshCount_updateLevels r.id levels tanks (createTankFromData r) hreg hknown hk, h0]
    rfl

/-- Witness of C26: the tank `TQ-01` has no level mesh when built and exactly one after
three calls of `updateProductLevel`. -/
theorem level_mesh_created_once_witness :
    getTankById exampleTanks exampleTank.id = some (createTankFromData exampleTank)
    ∧ jsOr exampleTank.type "standard" ∈ knownTypes
    ∧ [(9 / 10 : ℚ), 1 / 2, 0] ≠ []
    ∧ levelMeshCount exampleTanks exampleTank.id = 0
    ∧ levelMeshCount (updateLevels exampleTanks exampleTank.id [9 / 10, 1 / 2, 0])
        exampleTank.id = 1 :=
  have h := level_mesh_created_once exampleTanks exampleTank [9 / 10, 1 / 2, 0]
    getTankById_exampleTanks (by decide) (by simp)
  ⟨getTankById_exampleTanks, by decide, by simp, h.1, h.2.2⟩

/-! ## Types without an entry in the size table -/

theorem jsOr_jsOr_standard (v : Option String) :
    jsOr (some (jsOr v "standard")) "standard" = jsOr v "standard" := by
  cases v with
  | none => rfl
  | some s =>
    by_cases hs : s = ""
    · simp [jsOr, hs]
    · simp [jsOr, hs]

/-- For every tank record whose type is neither a key of `_tankConfig.types` nor a property
name of `Object.prototype`, `updateProductLevel` on the tank built from it throws and
leaves the registry as it was: no level is stored and no level mesh is created. -/
theorem updateProductLevel_throws_of_unlisted (tanks : List TankNode) (r : TankData)
    (level : ℚ) (hreg : getTankById tanks r.id = some (createTankFromData r))
    (hun : lookupKey _tankConfig.types (jsOr r.type "standard") = Lookup.undefined) :
    (updateProductLevel tanks r.id level).thrown
      = some (JsError.typeError "config is undefined")
    ∧ (updateProductLevel tanks r.id level).state = tanks := by
  have hnode : updateLevelNode (createTankFromData r) r.id level
      = ⟨createTankFromData r, some (JsError.typeError "config is undefined")⟩ := by
    unfold updateLevelNode
    rw [createTankFromData_no_level]
    have e : jsOr (some (createTankFromData r).metadata.equipmentType) "standard"
        = jsOr r.type "standard" := jsOr_jsOr_standard r.type
    simp only [e, hun]
  unfold getTankById at hreg
  unfold updateProductLevel
  simp only [hreg, hnode]
  exact ⟨trivial, modifyFirst_of_find? _ _ tanks _ hreg rfl⟩

/-- C29, evaluated on the code: the record `{ id: 'TQ-09', type: 'huge' }` is built with
the dimensions of the standard type, and `updateProductLevel('TQ-09', 0.5)` on the tank
built from it throws a `TypeError`, because `_tankConfig.types['huge']` is `undefined` and
`updateProductLevel` has no fallback; the level is not stored and no level mesh exists
afterwards. -/
theorem updateProductLevel_throws_on_unlisted_type :
    (createTankFromData hugeTank).children
      = cylindricalMeshes "TQ-09" ⟨some 8, some 5, some 24⟩
    ∧ getTankById (createTanks true [] [hugeTank]).state "TQ-09"
        = some (createTankFromData hugeTank)
    ∧ (updateProductLevel (createTanks true [] [hugeTank]).state "TQ-09" (1 / 2)).thrown
        = some (JsError.typeError "config is undefined")
    ∧ readLevel (updateProductLevel (createTanks true [] [hugeTank]).state "TQ-09"
        (1 / 2)).state "TQ-09" = none
    ∧ levelMesh (updateProductLevel (createTanks true [] [hugeTank]).state "TQ-09"
        (1 / 2)).state "TQ-09" = none := by
  decide!

end TanksManager

theorem mem_modifyFirst {α : Type} (p : α → Bool) (f : α → α) (l : List α) (v : α)
    (h : v ∈ modifyFirst p f l) : v ∈ l ∨ ∃ x ∈ l, v = f x := by
  induction l with
  | nil => simp [modifyFirst] at h
  | cons x xs ih =>
    by_cases hx : p x = true
    · simp only [modifyFirst, hx, if_true, List.mem_cons] at h
      rcases h with h | h
      · exact Or.inr ⟨x, List.mem_cons_self _ _, h⟩
      · exact Or.inl (List.mem_cons_of_mem _ h)
    · simp [modifyFirst, hx] at h
      rcases h with h | h
      · exact Or.inl (h ▸ List.mem_cons_self _ _)
      · rcases ih h with h1 | ⟨y, hy, e⟩
        · exact Or.inl (List.mem_cons_of_mem _ h1)
        · exact Or.inr ⟨y, List.mem_cons_of_mem _ hy, e⟩

theorem modifyFirst_append_of_none {α : Type} (p : α → Bool) (f : α → α) (l : List α) (x : α)
    (h : l.find? p = none) (hx : p x = true) : modifyFirst p f (l ++ [x]) = l ++ [f x] := by
  induction l with
  | nil => simp [modifyFirst, hx]
  | cons y ys ih =>
    by_cases hy : p y = true
    · rw [List.find?_cons_of_pos _ hy] at h
      exact absurd h (by simp)
    · rw [List.find?_cons_of_neg _ hy] at h
      simp [modifyFirst, hy, ih h]

/-! ## The states of the registered valves -/

namespace ValvesManager

/-- C27, evaluated on the code: `createValveFromData` on a record whose state is 'bogus'
registers a valve with `metadata.state` 'bogus', which is none of the five states, while it
draws the valve as closed; `changeValveState`, which checks the state it is given, leaves a
valve alone when passed 'bogus', and stores 'constructor', which is no state either. -/
theorem createValveFromData_stores_unknown_state :
    (reachable [ValveOp.createValveFromData bogusValve]).map (·.metadata.state) = ["bogus"]
    ∧ "bogus" ∉ knownStates
    ∧ (reachable [ValveOp.createValveFromData bogusValve]).map
        (·.metadata.components.stateIndicator.material.diffuseColor)
        = [some ⟨7 / 10, 1 / 10, 1 / 10⟩]
    ∧ (reachable [ValveOp.addValve exampleValve,
        ValveOp.changeValveState "XV-1" "bogus" false]).map (·.metadata.state) = ["closed"]
    ∧ (reachable [ValveOp.addValve exampleValve,
        ValveOp.changeValveState "XV-1" "constructor" false]).map (·.metadata.state)
        = ["constructor"]
    ∧ "constructor" ∉ knownStates := by
  decide!

theorem createValveFromData_state_cases (valves : List ValveNode) (r : ValveData) :
    (createValveFromData valves r).state = valves
    ∨ ∃ node, (createValveFromData valves r).state = valves ++ [node]
        ∧ node.metadata.state = jsOr r.state "closed" := by
  unfold createValveFromData
  dsimp only
  split
  · exact Or.inl rfl
  · split
    · exact Or.inl rfl
    · exact Or.inr ⟨_, rfl, rfl⟩

theorem changeStateNode_state (v : ValveNode) (id s : String) (a : Bool) :
    (changeStateNode v id s a).metadata.state
      = if lookupKey _valveConfig.states s = Lookup.undefined then v.metadata.state else s := by
  unfold changeStateNode
  split
  · rename_i h
    rw [if_pos h]
  · rename_i h
    rw [if_neg (fun e => h e)]

theorem lookupKey_states_cases (s : String) (hs : s ∉ objectPrototypeKeys) :
    lookupKey _valveConfig.states s = Lookup.undefined ∨ s ∈ knownStates := by
  by_cases hk : s ∈ knownStates
  · exact Or.inr hk
  · left
    simp only [knownStates, List.mem_cons, List.not_mem_nil, or_false, not_or] at hk
    obtain ⟨h1, h2, h3, h4, h5⟩ := hk
    have b1 : (s == "open") = false := beq_eq_false_iff_ne.mpr h1
    have b2 : (s == "closed") = false := beq_eq_false_iff_ne.mpr h2
    have b3 : (s == "partial") = false := beq_eq_false_iff_ne.mpr h3
    have b4 : (s == "maintenance") = false := beq_eq_false_iff_ne.mpr h4
    have b5 : (s == "fault") = false := beq_eq_false_iff_ne.mpr h5
    unfold lookupKey
    simp [_valveConfig.states, List.lookup, b1, b2, b3, b4, b5, hs]

theorem run_states_known (valves : List ValveNode) (op : ValveOp)
    (inv : ∀ v ∈ valves, v.metadata.state ∈ knownStates) (hop : op.statesKnown = true) :
    ∀ v ∈ op.run valves, v.metadata.state ∈ knownStates := by
  intro v hv
  cases op with
  | createValveFromData r =>
    simp only [ValveOp.statesKnown, decide_eq_true_eq] at hop
    rcases createValveFromData_state_cases valves r with e | ⟨node, e, hn⟩
    · exact inv v (by simpa [ValveOp.run, e] using hv)
    · simp only [ValveOp.run, e, List.mem_append, List.mem_singleton] at hv
      rcases hv with hv | rfl
      · exact inv v hv
      · rw [hn]
        exact hop
  | addValve r =>
    simp only [ValveOp.statesKnown, decide_eq_true_eq] at hop
    rcases createValveFromData_state_cases valves r with e | ⟨node, e, hn⟩
    · exact inv v (by simpa [ValveOp.run, addValve, e] using hv)
    · simp only [ValveOp.run, addValve, e, List.mem_append, List.mem_singleton] at hv
      rcases hv with hv | rfl
      · exact inv v hv
      · rw [hn]
        exact hop
  | changeValveState id s a =>
    simp only [ValveOp.statesKnown, decide_eq_true_eq] at hop
    simp only [ValveOp.run, changeValveState] at hv
    split at hv
    · exact inv v hv
    · rcases mem_modifyFirst _ _ _ _ hv with h | ⟨x, hx, rfl⟩
      · exact inv v h
      · rw [changeStateNode_state]
        rcases lookupKey_states_cases s hop with h | h
        · rw [if_pos h]
          exact inv x hx
        · split
          · exact inv x hx
          · exact h
  | removeValve id =>
    simp only [ValveOp.run, removeValve] at hv
    exact inv v (List.mem_of_mem_eraseP hv)

/-- What does hold of the states: in every registry reached from the empty one by calls
whose records carry one of the five states or none, and whose state changes pass no
property name of `Object.prototype`, every registered valve has one of the five states. -/
theorem reachable_states_known (ops : List ValveOp)
    (hops : ∀ op ∈ ops, op.statesKnown = true) :
    ∀ v ∈ reachable ops, v.metadata.state ∈ knownStates := by
  unfold reachable
  have gen : ∀ (ops : List ValveOp) (valves : List ValveNode),
      (∀ v ∈ valves, v.metadata.state ∈ knownStates) →
      (∀ op ∈ ops, op.statesKnown = true) →
      ∀ v ∈ ops.foldl ValveOp.run valves, v.metadata.state ∈ knownStates := by
    intro ops
    induction ops with
    | nil => intro valves inv _; exact inv
    | cons op rest ih =>
      intro valves inv h
      rw [List.foldl_cons]
      exact ih _ (run_states_known valves op inv (h op (List.mem_cons_self _ _)))
        (fun o ho => h o (List.mem_cons_of_mem _ ho))
  exact gen ops [] (fun v hv => absurd hv (List.not_mem_nil v)) hops

/-! ## Building and updating agree -/

theorem jsOr_known (s : String) (hs : s ∈ knownStates) : jsOr (some s) "closed" = s := by
  simp only [knownStates, List.mem_cons, List.not_mem_nil, or_false] at hs
  rcases hs with rfl | rfl | rfl | rfl | rfl <;> rfl

theorem changeValveState_append_fresh (valves : List ValveNode) (v : ValveNode)
    (id s : String) (a : Bool) (hfresh : getValveById valves id = none) (hv : v.name = id) :
    (changeValveState (valves ++ [v]) id s a).state = valves ++ [changeStateNode v id s a] := by
  unfold getValveById at hfresh
  have hp : (fun w : ValveNode => w.name == id) v = true := by simp [hv]
  have hfind : (valves ++ [v]).find? (fun w => w.name == id) = some v := by
    rw [List.find?_append, hfresh]
    simp [hv]
  unfold changeValveState
  simp only [hfind]
  exact modifyFirst_append_of_none _ _ valves v hfresh hp

theorem changeValveState_of_fresh (valves : List ValveNode) (id s : String) (a : Bool)
    (hfresh : getValveById valves id = none) :
    (changeValveState valves id s a).state = valves := by
  unfold getValveById at hfresh
  unfold changeValveState
  simp only [hfresh]

/-- C30: for every valve record `r` whose id is not registered yet and every pair of states
`s0`, `s` among the five, building `r` with state `s0` and then calling
`changeValveState(r.id, s, false)` leaves the registry that building `r` with state `s`
leaves: the node of the valve is the same in every field, so `metadata.state`, the state of
the record, the colours of the indicator and the rotation of the wheel about both axes
agree. A record that cannot be built (no position, or an inherited type) registers nothing
either way. -/
theorem build_then_change_agrees_with_build (valves : List ValveNode) (r : ValveData)
    (s0 s : String) (hs0 : s0 ∈ knownStates) (hs : s ∈ knownStates)
    (hfresh : getValveById valves r.id = none) :
    (changeValveState (createValveFromData valves { r with state := some s0 }).state
        r.id s false).state
      = (createValveFromData valves { r with state := some s }).state := by
  obtain ⟨cfg0, hl0, _, _⟩ := knownStates_lookup s0 hs0
  obtain ⟨cfg, hl, _, _⟩ := knownStates_lookup s hs
  have hj0 := jsOr_known s0 hs0
  have hj := jsOr_known s hs
  obtain ⟨id, ty, st, pos, rot, prod⟩ := r
  dsimp only at hfresh ⊢
  cases pos with
  | none =>
    have e : ∀ st1, (createValveFromData valves ⟨id, ty, st1, none, rot, prod⟩).state
        = valves := by
      intro st1
      simp [createValveFromData]
    rw [e, e]
    exact changeValveState_of_fresh valves id s false hfresh
  | some p =>
    cases hty : lookupKey _valveConfig.types (jsOr ty "gate") with
    | inherited =>
      have e : ∀ st1, (createValveFromData valves ⟨id, ty, st1, some p, rot, prod⟩).state
          = valves := by
        intro st1
        simp [createValveFromData, hty]
      rw [e, e]
      exact changeValveState_of_fresh valves id s false hfresh
    | own c =>
      simp only [createValveFromData, hty, hj0, hj, hl0, hl]
      rw [changeValveState_append_fresh _ _ _ _ _ hfresh rfl]
      unfold changeStateNode
      simp only [hl]
      by_cases hz : turnsAboutZ (jsOr ty "gate") = true <;> simp [hz]
    | undefined =>
      simp only [createValveFromData, hty, hj0, hj, hl0, hl]
      rw [changeValveState_append_fresh _ _ _ _ _ hfresh rfl]
      unfold changeStateNode
      simp only [hl]
      by_cases hz : turnsAboutZ (jsOr ty "gate") = true <;> simp [hz]

/-- Witness of C30: the gate valve `XV-1` built closed and then opened without animation is
the valve built open, with the wheel turned about X; the ball valve `XV-2` built open and
then closed is the valve built closed, with the wheel turned about Z. -/
theorem build_then_change_agrees_with_build_witness :
    "closed" ∈ knownStates ∧ "open" ∈ knownStates
    ∧ getValveById [] exampleValve.id = none
    ∧ getValveById exampleValves secondValve.id = none
    ∧ (changeValveState (createValveFromData [] { exampleValve with state := some "closed" }).state
          exampleValve.id "open" false).state
        = (createValveFromData [] { exampleValve with state := some "open" }).state
    ∧ ((createValveFromData [] { exampleValve with state := some "open" }).state.map fun v =>
          (v.metadata.state, v.metadata.data.state,
            v.metadata.components.stateIndicator.material.diffuseColor,
            v.metadata.components.wheel.rotationX, v.metadata.components.wheel.rotationZ))
        = [("open", some "open", some ⟨1 / 10, 7 / 10, 1 / 10⟩, some (1 / 2), some 0)]
    ∧ (((changeValveState
          (createValveFromData exampleValves { secondValve with state := some "open" }).state
          secondValve.id "closed" false).state.drop 1).map fun v =>
          (v.metadata.state, v.metadata.data.state,
            v.metadata.components.stateIndicator.material.diffuseColor,
            v.metadata.components.wheel.rotationX, v.metadata.components.wheel.rotationZ))
        = [("closed", some "closed", some ⟨7 / 10, 1 / 10, 1 / 10⟩, some 0, some 0)] :=
  have h1 := build_then_change_agrees_with_build [] exampleValve "closed" "open" (by decide)
    (by decide) rfl
  have h2 := build_then_change_agrees_with_build exampleValves secondValve "open" "closed"
    (by decide) (by decide) (by decide!)
  ⟨by decide, by decide, rfl, by decide!, h1, by decide!,
    (congrArg (fun l : List ValveNode => (l.drop 1).map fun v =>
        (v.metadata.state, v.metadata.data.state,
          v.metadata.components.stateIndicator.material.diffuseColor,
          v.metadata.components.wheel.rotationX, v.metadata.components.wheel.rotationZ))
      h2).trans (by decide!)⟩

end ValvesManager

/-! ## The owner of a mesh -/

namespace ObjectPicker

/-- The walk of the embedding ends on the first node of the chain that carries metadata,
and on the last node of the chain when none does. -/
theorem walkUp_eq_find (obj : SceneObject) (chain : List SceneObject) :
    walkUp obj chain
      = ((obj :: chain).find? fun o => o.metadata.isSome).getD (chain.getLastD obj) := by
  induction chain generalizing obj with
  | nil =>
    cases h : obj.metadata.isSome <;> simp [walkUp, List.find?, h]
  | cons parent rest ih =>
    cases h : obj.metadata.isSome
    · simp only [walkUp, h, Bool.false_eq_true, if_false, List.find?_cons_of_neg, not_false_eq_true]
      rw [ih parent, List.getLastD_cons]
    · simp [walkUp, h, List.find?]

theorem walkUp_metadata_none (obj : SceneObject) (chain : List SceneObject)
    (h : ((obj :: chain).find? fun o => o.metadata.isSome) = none) :
    (walkUp obj chain).metadata = none := by
  induction chain generalizing obj with
  | nil =>
    have hm : obj.metadata.isSome = false := by
      cases hh : obj.metadata.isSome
      · rfl
      · simp [List.find?, hh] at h
    cases hmd : obj.metadata with
    | none => simp [walkUp, hmd]
    | some t => simp [hmd] at hm
  | cons parent rest ih =>
    have hm : obj.metadata.isSome = false := by
      cases hh : obj.metadata.isSome
      · rfl
      · simp [List.find?, hh] at h
    have h2 : ((parent :: rest).find? fun o => o.metadata.isSome) = none := by
      rw [List.find?_cons_of_neg _ (by simp [hm])] at h
      exact h
    simp only [walkUp, hm, Bool.false_eq_true, if_false]
    exact ih parent h2

theorem find?_isSome_metadata (l : List SceneObject) (o : SceneObject)
    (h : (l.find? fun x => x.metadata.isSome) = some o) : o.metadata.isSome = true := by
  have := List.find?_some h
  exact this

/-- C28: the ownership walk is a total function of the mesh and its finite chain of
ancestors. It ends on the nearest node among the mesh and its ancestors that carries
metadata, and on the topmost node when none does; `getSelectedObjectWithMetadata` returns
that nearest node, and nothing when there is none or when nothing is selected. For the body
of a tank, a segment of a pipe, a body part of a valve and the platform of a loading area
built from a record with id `id`, the nearest node is the node of the entity, named `id`
with `metadata.id = id`. After a selection of a mesh that was not selected, the
`objectSelected` event carries the node the walk ended on, and `Terminal3D.selectedObjectId`
is the `metadata.id` of the nearest node. -/
theorem ownership_walk_finds_entity_root (s : PickerState) (mesh : MeshHandle)
    (id meshName : String) (i : ℕ) :
    objectWithMetadata mesh
      = (nearestWithMetadata mesh).getD (mesh.ancestors.getLastD mesh.self)
    ∧ getSelectedObjectWithMetadata { s with _selectedObject := some mesh }
        = nearestWithMetadata mesh
    ∧ getSelectedObjectWithMetadata { s with _selectedObject := none } = none
    ∧ nearestWithMetadata (tankBodyHandle id) = some ⟨id, some ⟨"tank", id⟩⟩
    ∧ nearestWithMetadata (pipeSegmentHandle id i) = some ⟨id, some ⟨"pipe", id⟩⟩
    ∧ nearestWithMetadata (valveBodyHandle id meshName) = some ⟨id, some ⟨"valve", id⟩⟩
    ∧ nearestWithMetadata (areaPlatformHandle id) = some ⟨id, some ⟨"loadingArea", id⟩⟩
    ∧ (s._selectedObject ≠ some mesh →
        (_processSelection s mesh).events
          = (clearSelection s).events
              ++ [PickerEvent.objectSelected (objectWithMetadata mesh) mesh]
        ∧ ∀ owner tag, nearestWithMetadata mesh = some owner → owner.metadata = some tag →
            objectWithMetadata mesh = owner
            ∧ (_processSelection s mesh).selectedObjectId = some tag.id) := by
  have hwalk : objectWithMetadata mesh
      = (nearestWithMetadata mesh).getD (mesh.ancestors.getLastD mesh.self) :=
    walkUp_eq_find mesh.self mesh.ancestors
  refine ⟨hwalk, ?_, rfl, rfl, rfl, rfl, rfl, ?_⟩
  · show (if (objectWithMetadata mesh).metadata.isSome then some (objectWithMetadata mesh)
        else none) = nearestWithMetadata mesh
    cases hn : nearestWithMetadata mesh with
    | none =>
      have := walkUp_metadata_none mesh.self mesh.ancestors hn
      have e : (objectWithMetadata mesh).metadata = none := this
      simp [e]
    | some o =>
      have ho : o.metadata.isSome = true := find?_isSome_metadata _ o hn
      rw [hwalk, hn]
      simp [ho]
  · intro hne
    have hp := _processSelection_of_ne s mesh hne
    refine ⟨by rw [hp], ?_⟩
    intro owner tag hn htag
    have ho : objectWithMetadata mesh = owner := by
      rw [hwalk, hn]
      rfl
    refine ⟨ho, ?_⟩
    rw [hp]
    simp only [ho, htag]

/-- Evaluation of C28 on `twoValvesSelected`: the bonnet of `XV-2` is selected after the
body of `XV-1`; the owner is the node `XV-2` and `Terminal3D.selectedObjectId` is 'XV-2'.
A mesh below nodes without metadata has no owner. -/
theorem select_bonnet_carries_valve_id :
    getSelectedObjectWithMetadata
        (_processSelection twoValvesSelected.picker (valveBodyHandle "XV-2" "XV-2_sphere"))
      = some ⟨"XV-2", some ⟨"valve", "XV-2"⟩⟩
    ∧ (_processSelection twoValvesSelected.picker
        (valveBodyHandle "XV-2" "XV-2_sphere")).selectedObjectId = some "XV-2"
    ∧ (_processSelection twoValvesSelected.picker
        (valveBodyHandle "XV-2" "XV-2_sphere")).events.getLast?
        = some (PickerEvent.objectSelected ⟨"XV-2", some ⟨"valve", "XV-2"⟩⟩
            (valveBodyHandle "XV-2" "XV-2_sphere"))
    ∧ getSelectedObjectWithMetadata
        (_processSelection {} ⟨⟨"ground", none⟩, [⟨"environmentGroup", none⟩]⟩) = none
    ∧ objectWithMetadata ⟨⟨"ground", none⟩, [⟨"environmentGroup", none⟩]⟩
        = ⟨"environmentGroup", none⟩ := by
  decide

end ObjectPicker

namespace ObjectPicker

/-- Witness of C28: with the body of `XV-1` selected, a selection of the sphere of the ball
valve `XV-2` ends its walk on the node `XV-2`, and `Terminal3D.selectedObjectId` is
'XV-2'. -/
theorem ownership_walk_finds_entity_root_witness :
    twoValvesSelected.picker._selectedObject ≠ some (valveBodyHandle "XV-2" "XV-2_sphere")
    ∧ nearestWithMetadata (valveBodyHandle "XV-2" "XV-2_sphere")
        = some ⟨"XV-2", some ⟨"valve", "XV-2"⟩⟩
    ∧ objectWithMetadata (valveBodyHandle "XV-2" "XV-2_sphere")
        = ⟨"XV-2", some ⟨"valve", "XV-2"⟩⟩
    ∧ (_processSelection twoValvesSelected.picker
        (valveBodyHandle "XV-2" "XV-2_sphere")).selectedObjectId = some "XV-2" :=
  have h := ownership_walk_finds_entity_root twoValvesSelected.picker
    (valveBodyHandle "XV-2" "XV-2_sphere") "XV-2" "XV-2_sphere" 0
  have h2 := (h.2.2.2.2.2.2.2 (by decide)).2 ⟨"XV-2", some ⟨"valve", "XV-2"⟩⟩
    ⟨"valve", "XV-2"⟩ h.2.2.2.2.2.1 rfl
  ⟨by decide, h.2.2.2.2.2.1, h2.1, h2.2⟩

end ObjectPicker

end Terminal
